import Mathlib

/-! # Device SDK synchronisation core: cache reconciliation and managed-entity façade

A shallow embedding of

* `internal/application/callback.go` (the reconciliation engine: `AddDevice`,
  `UpdateDevice`, `DeleteDevice`, `updateAssociatedProfile`, ...), and
* `pkg/service/managedprofiles.go`, `pkg/service/managedwatchers.go` (the façade).

Stateful Go code is rendered as explicit state passing over a `World` holding the
three cache families, the self device-service record and the list of calls made
to the collaborators (registry client, protocol driver, auto-event manager).
Collaborators are records of functions, so every theorem quantifies over all of
their possible answers.  Log output (`lc.Debugf`, ...) and the correlation id
placed in the call context are not modelled.  A Go run-time panic (nil pointer
dereference, index out of range) is the result `none`.
-/

namespace DeviceSdk

/-! ## Errors (`go-mod-core-contracts/errors`) -/

/-- The error kinds of the contracts library that the embedded code uses. -/
inductive ErrKind where
  | KindUnknown
  | KindServerError
  | KindEntityDoesNotExist
  | KindDuplicateName
  | KindInvalidId
  | KindContractInvalid
  | KindOverflowError
  | KindNaNError
  deriving DecidableEq, Repr

/-- A Go error value: either a plain `error` of a collaborator, or a `CommonEdgeX`
error with its kind, message and (possibly) the error it wraps. -/
inductive Error where
  | plain (msg : String)
  | common (kind : ErrKind) (msg : String)
  | wrapped (kind : ErrKind) (msg : String) (err : Error)
  deriving DecidableEq, Repr

/-- `errors.Kind`: the kind of an EdgeX error, `KindUnknown` for any other error. -/
def Kind : Error → ErrKind
  | .plain _ => .KindUnknown
  | .common k _ => k
  | .wrapped k _ _ => k

/-- `errors.NewCommonEdgeX(kind, message, wrappedError)`. -/
def NewCommonEdgeX (kind : ErrKind) (msg : String) (wrappedError : Option Error) : Error :=
  match wrappedError with
  | none => .common kind msg
  | some e => .wrapped kind msg e

/-- `errors.NewCommonEdgeXWrapper(wrappedError)`: same kind, empty message. -/
def NewCommonEdgeXWrapper (wrappedError : Error) : Error :=
  .wrapped (Kind wrappedError) "" wrappedError

/-! ## Data model (`go-mod-core-contracts/models`) -/

/-- `models.AdminState` is a Go string type. -/
abbrev AdminState := String

/-- `models.Locked`. -/
def Locked : AdminState := "LOCKED"

/-- `models.Unlocked`. -/
def Unlocked : AdminState := "UNLOCKED"

/-- `models.ProtocolProperties` keyed by protocol name; opaque connection parameters. -/
abbrev Protocols := List (String × List (String × String))

/-- `models.Device`, restricted to the attributes of the data model. -/
structure Device where
  Id : String
  Name : String
  Description : String
  AdminState : AdminState
  OperatingState : String
  Labels : List String
  ServiceName : String
  ProfileName : String
  Protocols : Protocols
  deriving DecidableEq, Repr

/-- `models.DeviceProfile`: resources and commands are kept by name. -/
structure DeviceProfile where
  Id : String
  Name : String
  Description : String
  DeviceResources : List String
  DeviceCommands : List String
  deriving DecidableEq, Repr

/-- `models.ProvisionWatcher`. -/
structure ProvisionWatcher where
  Id : String
  Name : String
  Labels : List String
  Identifiers : List (String × String)
  ServiceName : String
  ProfileName : String
  AdminState : AdminState
  deriving DecidableEq, Repr

/-- `models.DeviceService`: the record of the running instance. -/
structure DeviceServiceModel where
  Name : String
  AdminState : AdminState
  Labels : List String
  deriving DecidableEq, Repr

/-- The zero value of `models.Device` (`var newDevice models.Device`). -/
def Device.zero : Device :=
  { Id := "", Name := "", Description := "", AdminState := "", OperatingState := "",
    Labels := [], ServiceName := "", ProfileName := "", Protocols := [] }

/-- The zero value of `models.ProvisionWatcher`. -/
def ProvisionWatcher.zero : ProvisionWatcher :=
  { Id := "", Name := "", Labels := [], Identifiers := [], ServiceName := "",
    ProfileName := "", AdminState := "" }

/-! ## DTOs and requests (`go-mod-core-contracts/dtos`, `dtos/requests`)

The DTOs carry the same attributes as the models and the library conversions
copy them one to one, so a DTO is represented by the model type. -/

/-- `dtos.Device`. -/
abbrev DeviceDTO := Device

/-- `dtos.DeviceProfile`. -/
abbrev DeviceProfileDTO := DeviceProfile

/-- `dtos.ProvisionWatcher`. -/
abbrev ProvisionWatcherDTO := ProvisionWatcher

/-- `dtos.ToDeviceModel`. -/
def ToDeviceModel (d : DeviceDTO) : Device := d

/-- `dtos.FromDeviceModelToDTO`. -/
def FromDeviceModelToDTO (d : Device) : DeviceDTO := d

/-- `dtos.ToDeviceProfileModel`. -/
def ToDeviceProfileModel (p : DeviceProfileDTO) : DeviceProfile := p

/-- `dtos.FromDeviceProfileModelToDTO`. -/
def FromDeviceProfileModelToDTO (p : DeviceProfile) : DeviceProfileDTO := p

/-- `dtos.ToProvisionWatcherModel`. -/
def ToProvisionWatcherModel (p : ProvisionWatcherDTO) : ProvisionWatcher := p

/-- `dtos.FromProvisionWatcherModelToDTO`. -/
def FromProvisionWatcherModelToDTO (p : ProvisionWatcher) : ProvisionWatcherDTO := p

/-- `dtos.UpdateDevice`: every field is a pointer, `none` is the nil pointer. -/
structure UpdateDeviceDTO where
  Id : Option String
  Name : Option String
  Description : Option String
  AdminState : Option String
  OperatingState : Option String
  Labels : Option (List String)
  ServiceName : Option String
  ProfileName : Option String
  Protocols : Option Protocols
  deriving DecidableEq, Repr

/-- `dtos.UpdateProvisionWatcher`: every field is a pointer, `none` is the nil pointer. -/
structure UpdateProvisionWatcherDTO where
  Id : Option String
  Name : Option String
  Labels : Option (List String)
  Identifiers : Option (List (String × String))
  ServiceName : Option String
  ProfileName : Option String
  AdminState : Option String
  deriving DecidableEq, Repr

/-- `requests.AddDeviceRequest`. -/
structure AddDeviceRequest where
  Device : DeviceDTO
  deriving DecidableEq, Repr

/-- `requests.UpdateDeviceRequest`. -/
structure UpdateDeviceRequest where
  Device : UpdateDeviceDTO
  deriving DecidableEq, Repr

/-- `requests.DeviceProfileRequest`. -/
structure DeviceProfileRequest where
  Profile : DeviceProfileDTO
  deriving DecidableEq, Repr

/-- `requests.AddProvisionWatcherRequest`. -/
structure AddProvisionWatcherRequest where
  ProvisionWatcher : ProvisionWatcherDTO
  deriving DecidableEq, Repr

/-- `requests.UpdateProvisionWatcherRequest`. -/
structure UpdateProvisionWatcherRequest where
  ProvisionWatcher : UpdateProvisionWatcherDTO
  deriving DecidableEq, Repr

/-- `requests.NewAddDeviceRequest`. -/
def NewAddDeviceRequest (d : DeviceDTO) : AddDeviceRequest := { Device := d }

/-- `requests.NewDeviceProfileRequest`. -/
def NewDeviceProfileRequest (p : DeviceProfileDTO) : DeviceProfileRequest := { Profile := p }

/-- `requests.NewAddProvisionWatcherRequest`. -/
def NewAddProvisionWatcherRequest (p : ProvisionWatcherDTO) : AddProvisionWatcherRequest :=
  { ProvisionWatcher := p }

/-- `requests.NewUpdateProvisionWatcherRequest`. -/
def NewUpdateProvisionWatcherRequest (p : UpdateProvisionWatcherDTO) :
    UpdateProvisionWatcherRequest :=
  { ProvisionWatcher := p }

/-- `dtos.FromProvisionWatcherModelToUpdateDTO`: every pointer is set. -/
def FromProvisionWatcherModelToUpdateDTO (p : ProvisionWatcher) : UpdateProvisionWatcherDTO :=
  { Id := some p.Id, Name := some p.Name, Labels := some p.Labels,
    Identifiers := some p.Identifiers, ServiceName := some p.ServiceName,
    ProfileName := some p.ProfileName, AdminState := some p.AdminState }

/-- `responses.DeviceProfileResponse`. -/
structure DeviceProfileResponse where
  Profile : DeviceProfileDTO
  deriving DecidableEq, Repr

/-- `common.BaseWithIdResponse`. -/
structure BaseWithIdResponse where
  Id : String
  deriving DecidableEq, Repr

/-- The two patch functions of `dtos/requests` that overwrite a model with the
non-nil fields of an update DTO.  Their code is outside the repository, so the
engine takes them as parameters; a theorem stated for every `Patch` holds for every
behaviour of them. -/
structure Patch where
  ReplaceDeviceModelFieldsWithDTO : Device → UpdateDeviceDTO → Device
  ReplaceProvisionWatcherModelFieldsWithDTO :
    ProvisionWatcher → UpdateProvisionWatcherDTO → ProvisionWatcher

/-- The field-by-field patch, as the library's two functions do it: a non-nil field
of the DTO replaces the model's field; the name and the id are the identity of the
record and are not among the fields copied, so they stay as the model has them. -/
def Patch.fieldwise : Patch where
  ReplaceDeviceModelFieldsWithDTO d p :=
    { Id := d.Id, Name := d.Name,
      Description := p.Description.getD d.Description,
      AdminState := p.AdminState.getD d.AdminState,
      OperatingState := p.OperatingState.getD d.OperatingState,
      Labels := p.Labels.getD d.Labels,
      ServiceName := p.ServiceName.getD d.ServiceName,
      ProfileName := p.ProfileName.getD d.ProfileName,
      Protocols := p.Protocols.getD d.Protocols }
  ReplaceProvisionWatcherModelFieldsWithDTO d p :=
    { Id := d.Id, Name := d.Name,
      Labels := p.Labels.getD d.Labels,
      Identifiers := p.Identifiers.getD d.Identifiers,
      ServiceName := p.ServiceName.getD d.ServiceName,
      ProfileName := p.ProfileName.getD d.ProfileName,
      AdminState := p.AdminState.getD d.AdminState }

/-! ## The metadata cache store (`internal/cache`) -/

/-- The lookup key of a cached entity: its name. -/
class Named (α : Type) where
  name : α → String

instance : Named Device := ⟨Device.Name⟩
instance : Named DeviceProfile := ⟨DeviceProfile.Name⟩
instance : Named ProvisionWatcher := ⟨ProvisionWatcher.Name⟩

namespace cache

/-- Modelled from the spec: package `internal/cache` is not among the sources.
`ForName(name) → (entity, found)` never fails; `none` signals absence. -/
def ForName {α : Type} [Named α] (xs : List α) (n : String) : Option α :=
  xs.find? (fun e => decide (Named.name e = n))

/-- Modelled from the spec: package `internal/cache` is not among the sources.
`Add(entity)` fails with `DuplicateName` if an entity with the same name already
exists; otherwise inserts and succeeds. -/
def Add {α : Type} [Named α] (xs : List α) (e : α) : Except Error (List α) :=
  match ForName xs (Named.name e) with
  | some _ => .error (.common .KindDuplicateName ("name " ++ Named.name e ++ " duplicated in cache"))
  | none => .ok (xs ++ [e])

/-- Modelled from the spec: package `internal/cache` is not among the sources.
`Update(entity)` fails with `NotFound` if no entity with that name exists; otherwise
replaces the stored value. -/
def Update {α : Type} [Named α] (xs : List α) (e : α) : Except Error (List α) :=
  match ForName xs (Named.name e) with
  | none => .error (.common .KindEntityDoesNotExist ("name " ++ Named.name e ++ " not found in cache"))
  | some _ => .ok (xs.map (fun x => if Named.name x = Named.name e then e else x))

/-- Modelled from the spec: package `internal/cache` is not among the sources.
`RemoveByName(name)` fails with `NotFound` if absent; otherwise deletes. -/
def RemoveByName {α : Type} [Named α] (xs : List α) (n : String) : Except Error (List α) :=
  match ForName xs n with
  | none => .error (.common .KindEntityDoesNotExist ("name " ++ n ++ " not found in cache"))
  | some _ => .ok (xs.filter (fun x => !decide (Named.name x = n)))

/-- Modelled from the spec: package `internal/cache` is not among the sources.
`All()` is a snapshot of the family. -/
def All {α : Type} (xs : List α) : List α := xs

/-- Modelled from the spec: package `internal/cache` is not among the sources.
`CheckProfileNotUsed(profileName)` holds when no cached Device references the
profile name. -/
def CheckProfileNotUsed (devices : List Device) (profileName : String) : Bool :=
  devices.all (fun d => !decide (d.ProfileName = profileName))

end cache

/-! ## Collaborators and the state -/

/-- A call made to a collaborator: the registry clients, the protocol driver or the
auto-event manager. -/
inductive Call where
  | DeviceProfileByName (name : String)
  | DeviceProfileAdd (reqs : List DeviceProfileRequest)
  | DeviceProfileUpdate (reqs : List DeviceProfileRequest)
  | DeviceProfileDeleteByName (name : String)
  | ProvisionWatcherAdd (reqs : List AddProvisionWatcherRequest)
  | ProvisionWatcherUpdate (reqs : List UpdateProvisionWatcherRequest)
  | DeleteProvisionWatcherByName (name : String)
  | DriverAddDevice (name : String) (protocols : Protocols) (adminState : AdminState)
  | DriverUpdateDevice (name : String) (protocols : Protocols) (adminState : AdminState)
  | DriverRemoveDevice (name : String) (protocols : Protocols)
  | RestartForDevice (name : String)
  | StopForDevice (name : String)
  deriving DecidableEq, Repr

/-- The registry's device-profile client.  A response that the code discards is not
represented: such a call answers `none` (nil error) or `some err`. -/
structure DeviceProfileClient where
  DeviceProfileByName : String → Except Error DeviceProfileResponse
  Add : List DeviceProfileRequest → Except Error (List BaseWithIdResponse)
  Update : List DeviceProfileRequest → Option Error
  DeleteByName : String → Option Error

/-- The registry's provision-watcher client. -/
structure ProvisionWatcherClient where
  Add : List AddProvisionWatcherRequest → Except Error (List BaseWithIdResponse)
  Update : List UpdateProvisionWatcherRequest → Option Error
  DeleteProvisionWatcherByName : String → Option Error

/-- The protocol driver's device callbacks. -/
structure ProtocolDriver where
  AddDevice : String → Protocols → AdminState → Option Error
  UpdateDevice : String → Protocols → AdminState → Option Error
  RemoveDevice : String → Protocols → Option Error

/-- The part of the dependency-injection container (`dic`) that the engine reads. -/
structure Container where
  MetadataDeviceProfileClientFrom : DeviceProfileClient
  ProtocolDriverFrom : ProtocolDriver

/-- The state: the three cache families, the self device-service record
(`container.DeviceServiceFrom`) and the calls made so far, oldest first. -/
structure World where
  profiles : List DeviceProfile
  devices : List Device
  watchers : List ProvisionWatcher
  ds : DeviceServiceModel
  calls : List Call
  deriving DecidableEq, Repr

/-- Append a collaborator call to the record. -/
def World.record (w : World) (c : Call) : World :=
  { w with calls := w.calls ++ [c] }

/-- The calls made between state `w` and the later state `w2`. -/
def issued (w w2 : World) : List Call :=
  w2.calls.drop w.calls.length

/-- A call of the protocol driver's `AddDevice` callback. -/
def Call.isDriverAddDevice : Call → Bool
  | .DriverAddDevice _ _ _ => true
  | _ => false

/-- A call of the protocol driver's `UpdateDevice` callback. -/
def Call.isDriverUpdateDevice : Call → Bool
  | .DriverUpdateDevice _ _ _ => true
  | _ => false

/-- A call of the protocol driver's `RemoveDevice` callback. -/
def Call.isDriverRemoveDevice : Call → Bool
  | .DriverRemoveDevice _ _ => true
  | _ => false

/-- A call of the auto-event manager. -/
def Call.isScheduler : Call → Bool
  | .RestartForDevice _ => true
  | .StopForDevice _ => true
  | _ => false

/-- A call of one of the registry clients. -/
def Call.isRegistry : Call → Bool
  | .DeviceProfileByName _ => true
  | .DeviceProfileAdd _ => true
  | .DeviceProfileUpdate _ => true
  | .DeviceProfileDeleteByName _ => true
  | .ProvisionWatcherAdd _ => true
  | .ProvisionWatcherUpdate _ => true
  | .DeleteProvisionWatcherByName _ => true
  | _ => false

/-! ## The reconciliation engine (`internal/application/callback.go`) -/

namespace application

/-- `updateAssociatedProfile`: fetch the profile from the registry, then add it to
the cache when the name is absent and overwrite the cached one otherwise. -/
def updateAssociatedProfile (profileName : String) (dic : Container) (w : World) :
    World × Option Error :=
  let w0 := w.record (.DeviceProfileByName profileName)
  match dic.MetadataDeviceProfileClientFrom.DeviceProfileByName profileName with
  | .error err =>
    (w0, some (NewCommonEdgeX .KindInvalidId ("从元数据服务获取模型 " ++ profileName ++ " 失败") (some err)))
  | .ok res =>
    match cache.ForName w0.profiles profileName with
    | none =>
      match cache.Add w0.profiles (ToDeviceProfileModel res.Profile) with
      | .error err =>
        (w0, some (NewCommonEdgeX .KindServerError ("添加模型 " ++ profileName ++ " 失败") (some err)))
      | .ok ps => ({ w0 with profiles := ps }, none)
    | some _ =>
      match cache.Update w0.profiles (ToDeviceProfileModel res.Profile) with
      | .error err =>
        (w0, some (NewCommonEdgeX .KindServerError
          ("在缓存中更新模型 " ++ profileName ++ " 失败，使用旧数据") (some err)))
      | .ok ps => ({ w0 with profiles := ps }, none)

/-- `UpdateProfile`. -/
def UpdateProfile (profileRequest : DeviceProfileRequest) (w : World) : World × Option Error :=
  match cache.ForName w.profiles profileRequest.Profile.Name with
  | none =>
    (w, some (NewCommonEdgeX .KindInvalidId ("查找模型失败 " ++ profileRequest.Profile.Name) none))
  | some _ =>
    match cache.Update w.profiles (ToDeviceProfileModel profileRequest.Profile) with
    | .error err =>
      (w, some (NewCommonEdgeX .KindServerError ("更新模型失败 " ++ profileRequest.Profile.Name)
        (some err)))
    | .ok ps => ({ w with profiles := ps }, none)

/-- `AddDevice`. -/
def AddDevice (addDeviceRequest : AddDeviceRequest) (dic : Container) (w : World) :
    World × Option Error :=
  let device := ToDeviceModel addDeviceRequest.Device
  match updateAssociatedProfile device.ProfileName dic w with
  | (w1, some edgexErr) => (w1, some (NewCommonEdgeXWrapper edgexErr))
  | (w1, none) =>
    match cache.Add w1.devices device with
    | .error edgexErr =>
      (w1, some (NewCommonEdgeX .KindServerError ("添加模型 " ++ device.Name ++ " 失败")
        (some edgexErr)))
    | .ok devs =>
      let w2 := { w1 with devices := devs }
      let w3 := w2.record (.DriverAddDevice device.Name device.Protocols device.AdminState)
      match dic.ProtocolDriverFrom.AddDevice device.Name device.Protocols device.AdminState with
      | some err =>
        (w3, some (NewCommonEdgeX .KindServerError ("添加设备（" ++ device.Name ++ "）回调失败")
          (some err)))
      | none => (w3.record (.RestartForDevice device.Name), none)

/-- `DeleteDevice`. -/
def DeleteDevice (name : String) (dic : Container) (w : World) : World × Option Error :=
  match cache.ForName w.devices name with
  | none => (w, some (NewCommonEdgeX .KindInvalidId ("查找设备 " ++ name ++ " 失败") none))
  | some device =>
    let w1 := w.record (.StopForDevice device.Name)
    match cache.RemoveByName w1.devices name with
    | .error edgexErr =>
      (w1, some (NewCommonEdgeX .KindServerError ("删除设备 " ++ device.Name ++ " 失败")
        (some edgexErr)))
    | .ok devs =>
      let w2 := { w1 with devices := devs }
      let w3 := w2.record (.DriverRemoveDevice device.Name device.Protocols)
      match dic.ProtocolDriverFrom.RemoveDevice device.Name device.Protocols with
      | some err =>
        (w3, some (NewCommonEdgeX .KindServerError ("删除设备（" ++ device.Name ++ "）回调失败")
          (some err)))
      | none =>
        if cache.CheckProfileNotUsed w3.devices device.ProfileName then
          match cache.RemoveByName w3.profiles device.ProfileName with
          | .error _ => (w3, none)
          | .ok ps => ({ w3 with profiles := ps }, none)
        else (w3, none)

/-- `UpdateDevice`.  Dereferencing a nil `Name` or `ServiceName` pointer of the
request panics (`none`). -/
def UpdateDevice (lib : Patch) (updateDeviceRequest : UpdateDeviceRequest) (dic : Container)
    (w : World) : Option (World × Option Error) :=
  match updateDeviceRequest.Device.Name with
  | none => none
  | some reqName =>
    match cache.ForName w.devices reqName with
    | none =>
      match updateDeviceRequest.Device.ServiceName with
      | none => none
      | some reqServiceName =>
        if w.ds.Name = reqServiceName then
          let newDevice := lib.ReplaceDeviceModelFieldsWithDTO Device.zero updateDeviceRequest.Device
          let req := NewAddDeviceRequest (FromDeviceModelToDTO newDevice)
          some (AddDevice req dic w)
        else
          some (w, some (NewCommonEdgeX .KindEntityDoesNotExist
            ("查找设备 " ++ reqServiceName ++ " 失败") none))
    | some device0 =>
      match updateDeviceRequest.Device.ServiceName with
      | none => none
      | some reqServiceName =>
        if w.ds.Name ≠ reqServiceName then
          some (DeleteDevice reqName dic w)
        else
          let device := lib.ReplaceDeviceModelFieldsWithDTO device0 updateDeviceRequest.Device
          match updateAssociatedProfile device.ProfileName dic w with
          | (w1, some edgexErr) => some (w1, some (NewCommonEdgeXWrapper edgexErr))
          | (w1, none) =>
            match cache.Update w1.devices device with
            | .error edgexErr =>
              some (w1, some (NewCommonEdgeX .KindServerError
                ("更新设备 " ++ device.Name ++ " 失败") (some edgexErr)))
            | .ok devs =>
              let w2 := { w1 with devices := devs }
              let w3 := w2.record
                (.DriverUpdateDevice device.Name device.Protocols device.AdminState)
              match dic.ProtocolDriverFrom.UpdateDevice device.Name device.Protocols
                  device.AdminState with
              | some err =>
                some (w3, some (NewCommonEdgeX .KindServerError
                  ("更新设备（" ++ device.Name ++ "）回调失败") (some err)))
              | none =>
                if device.AdminState = Locked then
                  some (w3.record (.StopForDevice device.Name), none)
                else
                  some (w3.record (.RestartForDevice device.Name), none)

/-- `AddProvisionWatcher` of the engine. -/
def AddProvisionWatcher (addProvisionWatcherRequest : AddProvisionWatcherRequest)
    (dic : Container) (w : World) : World × Option Error :=
  let provisionWatcher := ToProvisionWatcherModel addProvisionWatcherRequest.ProvisionWatcher
  match updateAssociatedProfile provisionWatcher.ProfileName dic w with
  | (w1, some edgexErr) => (w1, some (NewCommonEdgeXWrapper edgexErr))
  | (w1, none) =>
    match cache.Add w1.watchers provisionWatcher with
    | .error edgexErr =>
      (w1, some (NewCommonEdgeX .KindServerError
        ("添加 provision watcher " ++ provisionWatcher.Name ++ " 失败") (some edgexErr)))
    | .ok pws => ({ w1 with watchers := pws }, none)

/-- `DeleteProvisionWatcher` of the engine. -/
def DeleteProvisionWatcher (name : String) (w : World) : World × Option Error :=
  match cache.RemoveByName w.watchers name with
  | .error err =>
    (w, some (NewCommonEdgeX .KindInvalidId ("删除 provision watcher " ++ name ++ " 失败")
      (some err)))
  | .ok pws => ({ w with watchers := pws }, none)

/-- `UpdateProvisionWatcher` of the engine.  Dereferencing a nil `Name` or
`ServiceName` pointer of the request panics (`none`). -/
def UpdateProvisionWatcher (lib : Patch)
    (updateProvisionWatcherRequest : UpdateProvisionWatcherRequest) (dic : Container)
    (w : World) : Option (World × Option Error) :=
  match updateProvisionWatcherRequest.ProvisionWatcher.Name with
  | none => none
  | some reqName =>
    match cache.ForName w.watchers reqName with
    | none =>
      match updateProvisionWatcherRequest.ProvisionWatcher.ServiceName with
      | none => none
      | some reqServiceName =>
        if w.ds.Name = reqServiceName then
          let newProvisionWatcher := lib.ReplaceProvisionWatcherModelFieldsWithDTO
            ProvisionWatcher.zero updateProvisionWatcherRequest.ProvisionWatcher
          let req := NewAddProvisionWatcherRequest
            (FromProvisionWatcherModelToDTO newProvisionWatcher)
          some (AddProvisionWatcher req dic w)
        else
          some (w, some (NewCommonEdgeX .KindEntityDoesNotExist
            ("查找 provision watcher " ++ reqServiceName ++ " 失败") none))
    | some provisionWatcher0 =>
      match updateProvisionWatcherRequest.ProvisionWatcher.ServiceName with
      | none => none
      | some reqServiceName =>
        if w.ds.Name ≠ reqServiceName then
          some (DeleteProvisionWatcher reqName w)
        else
          let provisionWatcher := lib.ReplaceProvisionWatcherModelFieldsWithDTO
            provisionWatcher0 updateProvisionWatcherRequest.ProvisionWatcher
          match updateAssociatedProfile provisionWatcher.ProfileName dic w with
          | (w1, some edgexErr) => some (w1, some (NewCommonEdgeXWrapper edgexErr))
          | (w1, none) =>
            match cache.Update w1.watchers provisionWatcher with
            | .error edgexErr =>
              some (w1, some (NewCommonEdgeX .KindServerError
                ("更新 provision watcher " ++ provisionWatcher.Name ++ " 失败")
                (some edgexErr)))
            | .ok pws => some ({ w1 with watchers := pws }, none)

/-- `dtos.UpdateDeviceService`, the fields read by `UpdateDeviceService`. -/
structure UpdateDeviceServiceDTO where
  Name : Option String
  AdminState : Option String
  Labels : List String
  deriving DecidableEq, Repr

/-- `requests.UpdateDeviceServiceRequest`. -/
structure UpdateDeviceServiceRequest where
  Service : UpdateDeviceServiceDTO
  deriving DecidableEq, Repr

/-- `UpdateDeviceService`.  Dereferencing a nil `Name` or `AdminState` pointer of the
request panics (`none`). -/
def UpdateDeviceService (updateDeviceServiceRequest : UpdateDeviceServiceRequest) (w : World) :
    Option (World × Option Error) :=
  match updateDeviceServiceRequest.Service.Name with
  | none => none
  | some reqName =>
    if w.ds.Name ≠ reqName then
      some (w, some (NewCommonEdgeX .KindEntityDoesNotExist ("鉴别驱动 " ++ reqName ++ " 失败") none))
    else
      match updateDeviceServiceRequest.Service.AdminState with
      | none => none
      | some reqAdminState =>
        some ({ w with ds := { w.ds with AdminState := reqAdminState,
                                          Labels := updateDeviceServiceRequest.Service.Labels } },
              none)

end application

/-! ## The managed-entity façade (`pkg/service`) -/

namespace service

/-- The registry clients held by the service (`s.edgexClients`). -/
structure EdgexClients where
  DeviceProfileClient : DeviceSdk.DeviceProfileClient
  ProvisionWatcherClient : DeviceSdk.ProvisionWatcherClient

/-- The receiver `s *DeviceService` of the façade methods. -/
structure DeviceService where
  ServiceName : String
  edgexClients : EdgexClients

/-- `AddDeviceProfile`.  The result is the returned id and error; indexing an empty
response list (`res[0]`) panics (`none`). -/
def AddDeviceProfile (s : DeviceService) (profile : DeviceProfile) (w : World) :
    Option (World × String × Option Error) :=
  match cache.ForName w.profiles profile.Name with
  | some p =>
    some (w, p.Id, some (NewCommonEdgeX .KindDuplicateName
      ("模型名称 " ++ profile.Name ++ " 已存在") none))
  | none =>
    let req := NewDeviceProfileRequest (FromDeviceProfileModelToDTO profile)
    let w1 := w.record (.DeviceProfileAdd [req])
    match s.edgexClients.DeviceProfileClient.Add [req] with
    | .error err => some (w1, "", some err)
    | .ok res =>
      match cache.Add w1.profiles profile with
      | .error err => some (w1, "", some err)
      | .ok ps =>
        match res with
        | [] => none
        | r :: _ => some ({ w1 with profiles := ps }, r.Id, none)

/-- `DeviceProfiles`. -/
def DeviceProfiles (w : World) : List DeviceProfile := cache.All w.profiles

/-- `RemoveDeviceProfileByName`. -/
def RemoveDeviceProfileByName (s : DeviceService) (name : String) (w : World) :
    World × Option Error :=
  match cache.ForName w.profiles name with
  | none => (w, some (NewCommonEdgeX .KindEntityDoesNotExist ("查找模型缓存 " ++ name ++ " 失") none))
  | some _ =>
    let w1 := w.record (.DeviceProfileDeleteByName name)
    match s.edgexClients.DeviceProfileClient.DeleteByName name with
    | some err => (w1, some err)
    | none =>
      match cache.RemoveByName w1.profiles name with
      | .error err => (w1, some err)
      | .ok ps => ({ w1 with profiles := ps }, none)

/-- `UpdateDeviceProfile`. -/
def UpdateDeviceProfile (s : DeviceService) (profile : DeviceProfile) (w : World) :
    World × Option Error :=
  match cache.ForName w.profiles profile.Name with
  | none =>
    (w, some (NewCommonEdgeX .KindEntityDoesNotExist ("查找模型缓存 " ++ profile.Name ++ " 失") none))
  | some _ =>
    let req := NewDeviceProfileRequest (FromDeviceProfileModelToDTO profile)
    let w1 := w.record (.DeviceProfileUpdate [req])
    match s.edgexClients.DeviceProfileClient.Update [req] with
    | some err => (w1, some err)
    | none => (w1, none)

/-- `AddProvisionWatcher` of the façade.  The result is the returned id and error;
indexing an empty response list (`res[0]`) panics (`none`). -/
def AddProvisionWatcher (s : DeviceService) (watcher : ProvisionWatcher) (w : World) :
    Option (World × String × Option Error) :=
  match cache.ForName w.watchers watcher.Name with
  | some pw =>
    some (w, pw.Id, some (NewCommonEdgeX .KindDuplicateName
      ("ProvisionWatcher " ++ watcher.Name ++ " 已存在") none))
  | none =>
    let resolved : Except (World × Error) World :=
      match cache.ForName w.profiles watcher.ProfileName with
      | some _ => .ok w
      | none =>
        let w1 := w.record (.DeviceProfileByName watcher.ProfileName)
        match s.edgexClients.DeviceProfileClient.DeviceProfileByName watcher.ProfileName with
        | .error err => .error (w1, err)
        | .ok res =>
          match cache.Add w1.profiles (ToDeviceProfileModel res.Profile) with
          | .error err =>
            .error (w1, NewCommonEdgeX .KindServerError
              ("缓存模型 " ++ res.Profile.Name ++ " 失败") (some err))
          | .ok ps => .ok { w1 with profiles := ps }
    match resolved with
    | .error (w1, err) => some (w1, "", some err)
    | .ok w2 =>
      let watcher1 := { watcher with ServiceName := s.ServiceName }
      let req := NewAddProvisionWatcherRequest (FromProvisionWatcherModelToDTO watcher1)
      let w3 := w2.record (.ProvisionWatcherAdd [req])
      match s.edgexClients.ProvisionWatcherClient.Add [req] with
      | .error err => some (w3, "", some err)
      | .ok res =>
        match res with
        | [] => none
        | r :: _ => some (w3, r.Id, none)

/-- `ProvisionWatchers`. -/
def ProvisionWatchers (w : World) : List ProvisionWatcher := cache.All w.watchers

/-- `RemoveProvisionWatcher`. -/
def RemoveProvisionWatcher (s : DeviceService) (name : String) (w : World) :
    World × Option Error :=
  match cache.ForName w.watchers name with
  | none =>
    (w, some (NewCommonEdgeX .KindEntityDoesNotExist
      ("查找ProvisionWatcher " ++ name ++ " 缓存失败") none))
  | some _ =>
    let w1 := w.record (.DeleteProvisionWatcherByName name)
    match s.edgexClients.ProvisionWatcherClient.DeleteProvisionWatcherByName name with
    | some err => (w1, some err)
    | none => (w1, none)

/-- `UpdateProvisionWatcher` of the façade: the request is the update DTO of the
watcher with its `Id` pointer cleared. -/
def UpdateProvisionWatcher (s : DeviceService) (watcher : ProvisionWatcher) (w : World) :
    World × Option Error :=
  match cache.ForName w.watchers watcher.Name with
  | none =>
    (w, some (NewCommonEdgeX .KindEntityDoesNotExist
      ("查找ProvisionWatcher " ++ watcher.Name ++ " 缓存失败") none))
  | some _ =>
    let req0 := NewUpdateProvisionWatcherRequest (FromProvisionWatcherModelToUpdateDTO watcher)
    let req : UpdateProvisionWatcherRequest :=
      { req0 with ProvisionWatcher := { req0.ProvisionWatcher with Id := none } }
    let w1 := w.record (.ProvisionWatcherUpdate [req])
    match s.edgexClients.ProvisionWatcherClient.Update [req] with
    | some err => (w1, some err)
    | none => (w1, none)

end service

/-! ## Numbers of the value transformer (`internal/transformer`)

Machine integers are `Nat` and `Int` with an explicit wrap-around at their width. A
float64 (and a float32) is an exact fraction or one of the IEEE special values:
rounding, overflow to infinity and the sign of zero are not modelled. -/

/-- The width of a sized integer type. -/
inductive Width where
  | w8
  | w16
  | w32
  | w64
  deriving DecidableEq, Repr

/-- The number of bits of a width. -/
def Width.bits : Width → Nat
  | .w8 => 8
  | .w16 => 16
  | .w32 => 32
  | .w64 => 64

/-- Conversion to the unsigned type of width `w`: the value modulo `2 ^ bits`. -/
def wrapU (w : Width) (n : Int) : Nat :=
  (n % 2 ^ w.bits).toNat

/-- Conversion to the signed type of width `w`: two's-complement wrap-around. -/
def wrapS (w : Width) (n : Int) : Int :=
  (n + 2 ^ (w.bits - 1)) % 2 ^ w.bits - 2 ^ (w.bits - 1)

/-- The largest value of the unsigned type (`math.MaxUint8`, ...). -/
def Width.maxU (w : Width) : Int := 2 ^ w.bits - 1

/-- The smallest value of the signed type (`math.MinInt8`, ...). -/
def Width.minS (w : Width) : Int := -(2 ^ (w.bits - 1))

/-- The largest value of the signed type (`math.MaxInt8`, ...). -/
def Width.maxS (w : Width) : Int := 2 ^ (w.bits - 1) - 1

/-- A fraction `num / den` with `den` positive; it need not be in lowest terms. -/
structure Frac where
  num : Int
  den : Nat
  deriving DecidableEq, Repr

/-- The fraction of an integer. -/
def Frac.ofInt (n : Int) : Frac := { num := n, den := 1 }

/-- Equality of the numbers two fractions denote. -/
def Frac.eq (a b : Frac) : Bool := decide (a.num * b.den = b.num * a.den)

/-- Order of the numbers two fractions denote. -/
def Frac.le (a b : Frac) : Bool := decide (a.num * b.den ≤ b.num * a.den)

/-- Strict order of the numbers two fractions denote. -/
def Frac.lt (a b : Frac) : Bool := decide (a.num * b.den < b.num * a.den)

/-- Sum of two fractions. -/
def Frac.add (a b : Frac) : Frac :=
  { num := a.num * b.den + b.num * a.den, den := a.den * b.den }

/-- Negation of a fraction. -/
def Frac.neg (a : Frac) : Frac := { num := -a.num, den := a.den }

/-- Product of two fractions. -/
def Frac.mul (a b : Frac) : Frac := { num := a.num * b.num, den := a.den * b.den }

/-- Quotient of two fractions, for a divisor that is not zero. -/
def Frac.div (a b : Frac) : Frac :=
  if b.num < 0 then { num := -(a.num * b.den), den := a.den * b.num.natAbs }
  else { num := a.num * b.den, den := a.den * b.num.natAbs }

/-- The integer part of a fraction: the fraction is discarded (truncation towards
zero), as in Go's conversion of a floating-point number to an integer. -/
def Frac.trunc (a : Frac) : Int := Int.tdiv a.num a.den

/-- A float64: a finite number, an infinity with its sign, or NaN. -/
inductive F64 where
  | fin (q : Frac)
  | inf (neg : Bool)
  | nan
  deriving DecidableEq, Repr

/-- The float64 of an integer (`float64(v)`). -/
def F64.ofInt (n : Int) : F64 := .fin (Frac.ofInt n)

/-- Go's `==` on floats: NaN equals nothing. -/
def F64.eq : F64 → F64 → Bool
  | .fin a, .fin b => a.eq b
  | .inf a, .inf b => a == b
  | _, _ => false

/-- Go's `<=` on floats: false when either side is NaN. -/
def F64.le : F64 → F64 → Bool
  | .fin a, .fin b => a.le b
  | .fin _, .inf neg => !neg
  | .inf neg, .fin _ => neg
  | .inf a, .inf b => a || !b
  | _, _ => false

/-- Go's `<` on floats: false when either side is NaN. -/
def F64.lt : F64 → F64 → Bool
  | .fin a, .fin b => a.lt b
  | .fin _, .inf neg => !neg
  | .inf neg, .fin _ => neg
  | .inf a, .inf b => a && !b
  | _, _ => false

/-- Negation of a float. -/
def F64.neg : F64 → F64
  | .fin a => .fin a.neg
  | .inf neg => .inf (!neg)
  | .nan => .nan

/-- Sum of two floats. -/
def F64.add : F64 → F64 → F64
  | .fin a, .fin b => .fin (a.add b)
  | .fin _, .inf neg => .inf neg
  | .inf neg, .fin _ => .inf neg
  | .inf a, .inf b => if a = b then .inf a else .nan
  | _, _ => .nan

/-- Difference of two floats. -/
def F64.sub (a b : F64) : F64 := a.add b.neg

/-- Product of two floats. -/
def F64.mul : F64 → F64 → F64
  | .fin a, .fin b => .fin (a.mul b)
  | .fin a, .inf neg => if a.num = 0 then .nan else .inf (xor neg (decide (a.num < 0)))
  | .inf neg, .fin b => if b.num = 0 then .nan else .inf (xor neg (decide (b.num < 0)))
  | .inf a, .inf b => .inf (xor a b)
  | _, _ => .nan

/-- Quotient of two floats: a finite number divided by zero is an infinity, and zero
divided by zero is NaN. -/
def F64.div : F64 → F64 → F64
  | .fin a, .fin b =>
    if b.num = 0 then (if a.num = 0 then .nan else .inf (decide (a.num < 0)))
    else .fin (a.div b)
  | .fin _, .inf _ => .fin (Frac.ofInt 0)
  | .inf neg, .fin b => .inf (xor neg (decide (b.num < 0)))
  | _, _ => .nan

/-- Absolute value of a float (`math.Abs`). -/
def F64.abs : F64 → F64
  | .fin a => .fin { num := a.num.natAbs, den := a.den }
  | .inf _ => .inf false
  | .nan => .nan

/-- The integer part of a float. For an infinity or NaN, where Go leaves the result
of a conversion to an integer type to the implementation, it is `0` here. -/
def F64.trunc : F64 → Int
  | .fin a => a.trunc
  | _ => 0

/-- The constant `math.MaxFloat32`. -/
def MaxFloat32 : F64 := F64.ofInt ((2 ^ 24 - 1) * 2 ^ 104)

/-- The constant `math.MaxFloat64`. -/
def MaxFloat64 : F64 := F64.ofInt ((2 ^ 53 - 1) * 2 ^ 971)

/-- A Go value held in an `interface{}`: the ten numeric types of the transformer,
the plain `int` that the transformer returns next to an overflow error, a string for
the non-numeric command values, and the nil interface. -/
inductive Value where
  | uint (w : Width) (v : Nat)
  | sint (w : Width) (v : Int)
  | float32 (v : F64)
  | float64 (v : F64)
  | int (v : Int)
  | str (s : String)
  | nil
  deriving DecidableEq, Repr

/-- The value is one of its Go type: an unsigned or signed integer within the range
of its width. -/
def Value.wellFormed : Value → Bool
  | .uint w v => decide ((v : Int) ≤ w.maxU)
  | .sint w v => decide (w.minS ≤ v) && decide (v ≤ w.maxS)
  | _ => true

/-- The name of the dynamic type, as `%T` prints it. -/
def Value.typeName : Value → String
  | .uint .w8 _ => "uint8"
  | .uint .w16 _ => "uint16"
  | .uint .w32 _ => "uint32"
  | .uint .w64 _ => "uint64"
  | .sint .w8 _ => "int8"
  | .sint .w16 _ => "int16"
  | .sint .w32 _ => "int32"
  | .sint .w64 _ => "int64"
  | .float32 _ => "float32"
  | .float64 _ => "float64"
  | .int _ => "int"
  | .str _ => "string"
  | .nil => "<nil>"

/-- Go's `==` on two interface values: the same dynamic type and equal values. -/
def Value.goEq : Value → Value → Bool
  | .uint w a, .uint w2 b => decide (w = w2) && decide (a = b)
  | .sint w a, .sint w2 b => decide (w = w2) && decide (a = b)
  | .float32 a, .float32 b => a.eq b
  | .float64 a, .float64 b => a.eq b
  | .int a, .int b => decide (a = b)
  | .str a, .str b => decide (a = b)
  | .nil, .nil => true
  | _, _ => false

/-- The first type switch of the transform functions: the value as a float64, which
stays `0` when the value is of none of the ten numeric types. -/
def Value.toFloat64 : Value → F64
  | .uint _ v => F64.ofInt v
  | .sint _ v => F64.ofInt v
  | .float32 v => v
  | .float64 v => v
  | _ => F64.ofInt 0

/-- Modelled from the spec: `checkTransformedValueInRange` is not among the sources.
By its name and its use it tells whether the transformed float64 lies within the
range of the type of the original value ("the product that was checked against the
type's range"); a value of no numeric type is never in range. -/
def checkTransformedValueInRange (origin : Value) (transformed : F64) : Bool :=
  match origin with
  | .uint w _ => (F64.ofInt 0).le transformed && transformed.le (F64.ofInt w.maxU)
  | .sint w _ => (F64.ofInt w.minS).le transformed && transformed.le (F64.ofInt w.maxS)
  | .float32 _ => transformed.abs.le MaxFloat32
  | .float64 _ => transformed.abs.le MaxFloat64
  | _ => false

/-! ## Number parsing (`strconv`) and the floating-point library -/

namespace strconv

/-- The value of a non-empty string of decimal digits. -/
def parseDigits (cs : List Char) : Option Nat :=
  match cs with
  | [] => none
  | _ =>
    if cs.all Char.isDigit then some (cs.foldl (fun n c => 10 * n + (c.toNat - 48)) 0)
    else none

/-- `strconv.ParseUint(s, 10, bitSize)`: decimal digits only, no sign; a value that
does not fit the width is a range error. -/
def ParseUint (s : String) (w : Width) : Except Error Nat :=
  match parseDigits s.toList with
  | none => .error (.plain ("strconv.ParseUint: parsing " ++ s ++ ": invalid syntax"))
  | some n =>
    if (n : Int) ≤ w.maxU then .ok n
    else .error (.plain ("strconv.ParseUint: parsing " ++ s ++ ": value out of range"))

/-- `strconv.ParseInt(s, 10, bitSize)`: an optional sign and decimal digits; a value
that does not fit the width is a range error. The result is an `int64`. -/
def ParseInt (s : String) (w : Width) : Except Error Int :=
  let signed : Bool × List Char :=
    match s.toList with
    | '+' :: cs => (false, cs)
    | '-' :: cs => (true, cs)
    | cs => (false, cs)
  match parseDigits signed.2 with
  | none => .error (.plain ("strconv.ParseInt: parsing " ++ s ++ ": invalid syntax"))
  | some n =>
    let v : Int := if signed.1 then -(n : Int) else (n : Int)
    if w.minS ≤ v ∧ v ≤ w.maxS then .ok v
    else .error (.plain ("strconv.ParseInt: parsing " ++ s ++ ": value out of range"))

/-- The decimal notation of `strconv.ParseFloat`: an optional sign, digits, and an
optional point followed by digits. -/
def parseDecimal (s : String) : Except Error F64 :=
  let signed : Bool × List Char :=
    match s.toList with
    | '+' :: cs => (false, cs)
    | '-' :: cs => (true, cs)
    | cs => (false, cs)
  let whole := signed.2.takeWhile (fun c => c != '.')
  let rest := signed.2.dropWhile (fun c => c != '.')
  let frac := rest.drop 1
  let bad : Except Error F64 :=
    .error (.plain ("strconv.ParseFloat: parsing " ++ s ++ ": invalid syntax"))
  if (whole ++ frac).isEmpty || !(whole ++ frac).all Char.isDigit then bad
  else
    let n : Int := ((whole ++ frac).foldl (fun n c => 10 * n + (c.toNat - 48)) 0 : Nat)
    .ok (.fin { num := if signed.1 then -n else n, den := 10 ^ frac.length })

end strconv

/-- The floating-point library functions used by the transformer,
`strconv.ParseFloat(s, bitSize)`, `math.Pow` and `math.Log`. They lie outside the
repository and are taken as parameters. -/
structure FloatLib where
  ParseFloat : String → Nat → Except Error F64
  Pow : F64 → F64 → F64
  Log : F64 → F64

/-! ## The value transformer (`internal/transformer`) -/

/-- `common.ValueTypeUint8`. -/
def ValueTypeUint8 : String := "Uint8"
/-- `common.ValueTypeUint16`. -/
def ValueTypeUint16 : String := "Uint16"
/-- `common.ValueTypeUint32`. -/
def ValueTypeUint32 : String := "Uint32"
/-- `common.ValueTypeUint64`. -/
def ValueTypeUint64 : String := "Uint64"
/-- `common.ValueTypeInt8`. -/
def ValueTypeInt8 : String := "Int8"
/-- `common.ValueTypeInt16`. -/
def ValueTypeInt16 : String := "Int16"
/-- `common.ValueTypeInt32`. -/
def ValueTypeInt32 : String := "Int32"
/-- `common.ValueTypeInt64`. -/
def ValueTypeInt64 : String := "Int64"
/-- `common.ValueTypeFloat32`. -/
def ValueTypeFloat32 : String := "Float32"
/-- `common.ValueTypeFloat64`. -/
def ValueTypeFloat64 : String := "Float64"

/-- `sdkModels.CommandValue`: the resource name, the declared value type (the field
`Type` of the source) and the value. -/
structure CommandValue where
  DeviceResourceName : String
  ValueType : String
  Value : Value
  deriving DecidableEq, Repr

/-- `models.ResourceProperties`, the attributes read by the transformer. -/
structure ResourceProperties where
  Minimum : String
  Maximum : String
  Mask : String
  Shift : String
  Scale : String
  Offset : String
  Base : String
  deriving DecidableEq, Repr

namespace transformer

/-- The constant `defaultBase`. -/
def defaultBase : String := "0"
/-- The constant `defaultScale`. -/
def defaultScale : String := "1.0"
/-- The constant `defaultOffset`. -/
def defaultOffset : String := "0.0"
/-- The constant `defaultMask`. -/
def defaultMask : String := "0"
/-- The constant `defaultShift`. -/
def defaultShift : String := "0"

/-- `isNumericValueType`. -/
def isNumericValueType (cv : CommandValue) : Bool :=
  decide (cv.ValueType = ValueTypeUint8) || decide (cv.ValueType = ValueTypeUint16)
    || decide (cv.ValueType = ValueTypeUint32) || decide (cv.ValueType = ValueTypeUint64)
    || decide (cv.ValueType = ValueTypeInt8) || decide (cv.ValueType = ValueTypeInt16)
    || decide (cv.ValueType = ValueTypeInt32) || decide (cv.ValueType = ValueTypeInt64)
    || decide (cv.ValueType = ValueTypeFloat32) || decide (cv.ValueType = ValueTypeFloat64)

/-- Modelled from the spec: the typed accessors of `CommandValue` (`Uint8Value`, ...,
`Float64Value`, package `pkg/models`) are not among the sources. An accessor answers
the stored value when it is of the Go type asked for, and an error otherwise. -/
def typedValue (cv : CommandValue) (isType : Value → Bool) (typeName : String) :
    Except Error Value :=
  if isType cv.Value then .ok cv.Value
  else .error (.common .KindServerError ("cannot convert CommandValue to " ++ typeName))

/-- The value is an unsigned integer of width `w`. -/
def isUint (w : Width) : Value → Bool
  | .uint w2 _ => decide (w2 = w)
  | _ => false

/-- The value is a signed integer of width `w`. -/
def isSint (w : Width) : Value → Bool
  | .sint w2 _ => decide (w2 = w)
  | _ => false

/-- The value is a float32. -/
def isFloat32 : Value → Bool
  | .float32 _ => true
  | _ => false

/-- The value is a float64. -/
def isFloat64 : Value → Bool
  | .float64 _ => true
  | _ => false

/-- `commandValueForTransform`: the value behind the accessor of the declared type;
a failing accessor gives the `int` zero with a wrapped error. -/
def commandValueForTransform (cv : CommandValue) : Value × Option Error :=
  let viaAccessor (r : Except Error Value) : Value × Option Error :=
    match r with
    | .ok v => (v, none)
    | .error err => (.int 0, some (NewCommonEdgeXWrapper err))
  if cv.ValueType = ValueTypeUint8 then viaAccessor (typedValue cv (isUint .w8) "Uint8")
  else if cv.ValueType = ValueTypeUint16 then viaAccessor (typedValue cv (isUint .w16) "Uint16")
  else if cv.ValueType = ValueTypeUint32 then viaAccessor (typedValue cv (isUint .w32) "Uint32")
  else if cv.ValueType = ValueTypeUint64 then viaAccessor (typedValue cv (isUint .w64) "Uint64")
  else if cv.ValueType = ValueTypeInt8 then viaAccessor (typedValue cv (isSint .w8) "Int8")
  else if cv.ValueType = ValueTypeInt16 then viaAccessor (typedValue cv (isSint .w16) "Int16")
  else if cv.ValueType = ValueTypeInt32 then viaAccessor (typedValue cv (isSint .w32) "Int32")
  else if cv.ValueType = ValueTypeInt64 then viaAccessor (typedValue cv (isSint .w64) "Int64")
  else if cv.ValueType = ValueTypeFloat32 then viaAccessor (typedValue cv isFloat32 "Float32")
  else if cv.ValueType = ValueTypeFloat64 then viaAccessor (typedValue cv isFloat64 "Float64")
  else (.nil, some (NewCommonEdgeX .KindServerError "不支持的数值类型" none))

/-- The value held is of the Go type that the declared value type names. -/
def wellTyped (cv : CommandValue) : Bool :=
  (decide (cv.ValueType = ValueTypeUint8) && isUint .w8 cv.Value)
    || (decide (cv.ValueType = ValueTypeUint16) && isUint .w16 cv.Value)
    || (decide (cv.ValueType = ValueTypeUint32) && isUint .w32 cv.Value)
    || (decide (cv.ValueType = ValueTypeUint64) && isUint .w64 cv.Value)
    || (decide (cv.ValueType = ValueTypeInt8) && isSint .w8 cv.Value)
    || (decide (cv.ValueType = ValueTypeInt16) && isSint .w16 cv.Value)
    || (decide (cv.ValueType = ValueTypeInt32) && isSint .w32 cv.Value)
    || (decide (cv.ValueType = ValueTypeInt64) && isSint .w64 cv.Value)
    || (decide (cv.ValueType = ValueTypeFloat32) && isFloat32 cv.Value)
    || (decide (cv.ValueType = ValueTypeFloat64) && isFloat64 cv.Value)

/-- `validateWriteMaximum`. The message of the contract-invalid error is a format
string without a verb, so `fmt.Sprintf` appends the unused argument to it. -/
def validateWriteMaximum (lib : FloatLib) (value : Value) (maximum : String) : Option Error :=
  let unparsable (err : Error) : Option Error :=
    some (NewCommonEdgeX .KindServerError
      ("属性配置的最大值 " ++ maximum ++ " 无法转换为 " ++ value.typeName) (some err))
  let exceeded : Option Error :=
    some (NewCommonEdgeX .KindContractInvalid
      ("设置命令参数值超出属性最大值" ++ "%!(EXTRA string=" ++ maximum ++ ")") none)
  match value with
  | .uint w v =>
    match strconv.ParseUint maximum w with
    | .error err => unparsable err
    | .ok max => if v > wrapU w max then exceeded else none
  | .sint w v =>
    match strconv.ParseInt maximum w with
    | .error err => unparsable err
    | .ok max => if v > wrapS w max then exceeded else none
  | .float32 v =>
    match lib.ParseFloat maximum 32 with
    | .error err => unparsable err
    | .ok max => if max.lt v then exceeded else none
  | .float64 v =>
    match lib.ParseFloat maximum 64 with
    | .error err => unparsable err
    | .ok max => if max.lt v then exceeded else none
  | _ => none

/-- `validateWriteMinimum`. -/
def validateWriteMinimum (lib : FloatLib) (value : Value) (minimum : String) : Option Error :=
  let unparsable (err : Error) : Option Error :=
    some (NewCommonEdgeX .KindServerError
      ("属性配置的最小值 " ++ minimum ++ " 无法转换为 " ++ value.typeName) (some err))
  let exceeded : Option Error :=
    some (NewCommonEdgeX .KindContractInvalid
      ("设置命令参数值超出属性最小值" ++ "%!(EXTRA string=" ++ minimum ++ ")") none)
  match value with
  | .uint w v =>
    match strconv.ParseUint minimum w with
    | .error err => unparsable err
    | .ok min => if v < wrapU w min then exceeded else none
  | .sint w v =>
    match strconv.ParseInt minimum w with
    | .error err => unparsable err
    | .ok min => if v < wrapS w min then exceeded else none
  | .float32 v =>
    match lib.ParseFloat minimum 32 with
    | .error err => unparsable err
    | .ok min => if v.lt min then exceeded else none
  | .float64 v =>
    match lib.ParseFloat minimum 64 with
    | .error err => unparsable err
    | .ok min => if v.lt min then exceeded else none
  | _ => none

/-- `transformBase`. -/
def transformBase (lib : FloatLib) (value : Value) (base : String) (read : Bool) :
    Value × Option Error :=
  match lib.ParseFloat base 64 with
  | .error err =>
    (value, some (NewCommonEdgeX .KindServerError (" " ++ base ++ " 基数无法转换为浮点") (some err)))
  | .ok b =>
    let valueFloat64 :=
      if read then lib.Pow b value.toFloat64
      else (lib.Log value.toFloat64).div (lib.Log b)
    if !checkTransformedValueInRange value valueFloat64 then
      (.int 0, some (NewCommonEdgeX .KindOverflowError
        ("数值超出原始数据 (" ++ value.typeName ++ ") 范围") none))
    else
      match value with
      | .uint w _ => (.uint w (wrapU w valueFloat64.trunc), none)
      | .sint w _ => (.sint w (wrapS w valueFloat64.trunc), none)
      | .float32 _ => (.float32 valueFloat64, none)
      | .float64 _ => (.float64 valueFloat64, none)
      | other => (other, none)

/-- `transformScale`. The range check is made on the float64 product or quotient; the
result is computed in the type of the value with the scale converted to that type.
An integer division by zero panics (`none`). -/
def transformScale (lib : FloatLib) (value : Value) (scale : String) (read : Bool) :
    Option (Value × Option Error) :=
  match lib.ParseFloat scale 64 with
  | .error err =>
    some (value, some (NewCommonEdgeX .KindServerError
      ("属性缩放配置值 " ++ scale ++ " 无法转换为浮点") (some err)))
  | .ok s =>
    let valueFloat64 := if read then value.toFloat64.mul s else value.toFloat64.div s
    if !checkTransformedValueInRange value valueFloat64 then
      some (.int 0, some (NewCommonEdgeX .KindOverflowError
        ("数值值超出原始数据 (" ++ value.typeName ++ ") 范围") none))
    else
      match value with
      | .uint w v =>
        if read then some (.uint w (wrapU w ((v : Int) * (wrapU w s.trunc : Nat))), none)
        else if wrapU w s.trunc = 0 then none
        else some (.uint w (v / wrapU w s.trunc), none)
      | .sint w v =>
        if read then some (.sint w (wrapS w (v * wrapS w s.trunc)), none)
        else if wrapS w s.trunc = 0 then none
        else some (.sint w (wrapS w (Int.tdiv v (wrapS w s.trunc))), none)
      | .float32 v => some (.float32 (if read then v.mul s else v.div s), none)
      | .float64 v => some (.float64 (if read then v.mul s else v.div s), none)
      | other => some (other, none)

/-- `transformOffset`. In the write direction the float64 that is range-checked is
the value minus the literal `0` (source line 297). -/
def transformOffset (lib : FloatLib) (value : Value) (offset : String) (read : Bool) :
    Value × Option Error :=
  match lib.ParseFloat offset 64 with
  | .error err =>
    (value, some (NewCommonEdgeX .KindServerError
      ("属性偏移配置值 " ++ offset ++ " 无法转换为浮点") (some err)))
  | .ok o =>
    let valueFloat64 :=
      if read then value.toFloat64.add o else value.toFloat64.sub (F64.ofInt 0)
    if !checkTransformedValueInRange value valueFloat64 then
      (.int 0, some (NewCommonEdgeX .KindOverflowError
        ("数值超出原始数据 (" ++ value.typeName ++ ") 范围") none))
    else
      match value with
      | .uint w v =>
        if read then (.uint w (wrapU w ((v : Int) + (wrapU w o.trunc : Nat))), none)
        else (.uint w (wrapU w ((v : Int) - (wrapU w o.trunc : Nat))), none)
      | .sint w v =>
        if read then (.sint w (wrapS w (v + wrapS w o.trunc)), none)
        else (.sint w (wrapS w (v - wrapS w o.trunc)), none)
      | .float32 v => (.float32 (if read then v.add o else v.sub o), none)
      | .float64 v => (.float64 (if read then v.add o else v.sub o), none)
      | other => (other, none)

/-- `transformReadMask`. -/
def transformReadMask (value : Value) (mask : String) : Value × Option Error :=
  match value with
  | .uint w v =>
    match strconv.ParseUint mask w with
    | .error err =>
      (value, some (NewCommonEdgeX .KindServerError
        ("属性mask配置值 " ++ mask ++ " 无法转换为 " ++ value.typeName) (some err)))
    | .ok m => (.uint w (v &&& wrapU w m), none)
  | other => (other, none)

/-- The shift `v << c` in the unsigned type of width `w`: the bits shifted out are
lost. -/
def shiftLeft (w : Width) (v c : Nat) : Nat :=
  if w.bits ≤ c then 0 else (v * 2 ^ c) % 2 ^ w.bits

/-- The shift `v >> c` in the unsigned type of width `w`. -/
def shiftRight (w : Width) (v c : Nat) : Nat :=
  if w.bits ≤ c then 0 else v / 2 ^ c

/-- `transformReadShift`. The shift is parsed as a signed integer of the value's
width and held in an `int64`; `-s` is the negation in `int64`, and a shift by a
negative count panics (`none`). -/
def transformReadShift (value : Value) (shift : String) : Option (Value × Option Error) :=
  match value with
  | .uint w v =>
    match strconv.ParseInt shift w with
    | .error err =>
      some (value, some (NewCommonEdgeX .KindServerError
        ("属性位移配置值 " ++ shift ++ " 无法转换为 " ++ value.typeName) (some err)))
    | .ok s =>
      if s > 0 then some (.uint w (shiftLeft w v s.toNat), none)
      else if wrapS .w64 (-s) < 0 then none
      else some (.uint w (shiftRight w v (wrapS .w64 (-s)).toNat), none)
  | other => some (other, none)

/-- `TransformWriteParameter`: the command value after the call and the returned
error. The error of `commandValueForTransform` is overwritten unread. -/
def TransformWriteParameter (lib : FloatLib) (cv : CommandValue) (pv : ResourceProperties) :
    Option (CommandValue × Option Error) :=
  if !isNumericValueType cv then some (cv, none)
  else
    let value := (commandValueForTransform cv).1
    match (if pv.Maximum ≠ "" then validateWriteMaximum lib value pv.Maximum else none) with
    | some err => some (cv, some (NewCommonEdgeXWrapper err))
    | none =>
      match (if pv.Minimum ≠ "" then validateWriteMinimum lib value pv.Minimum else none) with
      | some err => some (cv, some (NewCommonEdgeXWrapper err))
      | none =>
        match (if pv.Offset ≠ "" ∧ pv.Offset ≠ defaultOffset
               then transformOffset lib value pv.Offset false else (value, none)) with
        | (_, some err) => some (cv, some (NewCommonEdgeXWrapper err))
        | (v1, none) =>
          match (if pv.Scale ≠ "" ∧ pv.Scale ≠ defaultScale
                 then transformScale lib v1 pv.Scale false else some (v1, none)) with
          | none => none
          | some (_, some err) => some (cv, some (NewCommonEdgeXWrapper err))
          | some (v2, none) =>
            match (if pv.Base ≠ "" ∧ pv.Base ≠ defaultBase
                   then transformBase lib v2 pv.Base false else (v2, none)) with
            | (_, some err) => some (cv, some (NewCommonEdgeXWrapper err))
            | (v3, none) =>
              if value.goEq v3 then some (cv, none)
              else some ({ cv with Value := v3 }, none)

/-- Modelled from the spec: `isNaN` is not among the sources. By its name and its use
it tells whether a float32 or float64 command value holds NaN, reading the value
through the typed accessor, whose error it passes on; a value of any other type is
not NaN. -/
def isNaN (cv : CommandValue) : Bool × Option Error :=
  if cv.ValueType = ValueTypeFloat32 then
    match typedValue cv isFloat32 "Float32" with
    | .error err => (false, some (NewCommonEdgeXWrapper err))
    | .ok (.float32 v) => (decide (v = .nan), none)
    | .ok _ => (false, none)
  else if cv.ValueType = ValueTypeFloat64 then
    match typedValue cv isFloat64 "Float64" with
    | .error err => (false, some (NewCommonEdgeXWrapper err))
    | .ok (.float64 v) => (decide (v = .nan), none)
    | .ok _ => (false, none)
  else (false, none)

/-- The declared type is one of the four unsigned integer types: the condition under
which `TransformReadResult` applies the mask and the shift. -/
def isUnsignedType (cv : CommandValue) : Bool :=
  decide (cv.ValueType = ValueTypeUint8) || decide (cv.ValueType = ValueTypeUint16)
    || decide (cv.ValueType = ValueTypeUint32) || decide (cv.ValueType = ValueTypeUint64)

/-- `TransformReadResult`: the command value after the call and the returned error.
The error of `commandValueForTransform` is overwritten unread. -/
def TransformReadResult (lib : FloatLib) (cv : CommandValue) (pv : ResourceProperties) :
    Option (CommandValue × Option Error) :=
  if !isNumericValueType cv then some (cv, none)
  else
    match isNaN cv with
    | (_, some err) => some (cv, some (NewCommonEdgeXWrapper err))
    | (true, none) =>
      some (cv, some (NewCommonEdgeX .KindNaNError
        ("属性 " ++ cv.DeviceResourceName ++ " 为 NaN") none))
    | (false, none) =>
      let value := (commandValueForTransform cv).1
      match (if pv.Mask ≠ "" ∧ pv.Mask ≠ defaultMask ∧ isUnsignedType cv = true
             then transformReadMask value pv.Mask else (value, none)) with
      | (_, some err) => some (cv, some (NewCommonEdgeXWrapper err))
      | (v1, none) =>
        match (if pv.Shift ≠ "" ∧ pv.Shift ≠ defaultShift ∧ isUnsignedType cv = true
               then transformReadShift v1 pv.Shift else some (v1, none)) with
        | none => none
        | some (_, some err) => some (cv, some (NewCommonEdgeXWrapper err))
        | some (v2, none) =>
          match (if pv.Base ≠ "" ∧ pv.Base ≠ defaultBase
                 then transformBase lib v2 pv.Base true else (v2, none)) with
          | (_, some err) => some (cv, some (NewCommonEdgeXWrapper err))
          | (v3, none) =>
            match (if pv.Scale ≠ "" ∧ pv.Scale ≠ defaultScale
                   then transformScale lib v3 pv.Scale true else some (v3, none)) with
            | none => none
            | some (_, some err) => some (cv, some (NewCommonEdgeXWrapper err))
            | some (v4, none) =>
              match (if pv.Offset ≠ "" ∧ pv.Offset ≠ defaultOffset
                     then transformOffset lib v4 pv.Offset true else (v4, none)) with
              | (_, some err) => some (cv, some (NewCommonEdgeXWrapper err))
              | (v5, none) =>
                if value.goEq v5 then some (cv, none)
                else some ({ cv with Value := v5 }, none)

end transformer

/-! ## Predicates and reference definitions of the specification -/

/-- Every cached Device has a ProfileName that resolves to a cached Profile. -/
def DevicesResolve (w : World) : Prop :=
  ∀ d ∈ w.devices, (cache.ForName w.profiles d.ProfileName).isSome = true

/-- Every cached Provision Watcher has a ProfileName that resolves to a cached Profile. -/
def WatchersResolve (w : World) : Prop :=
  ∀ p ∈ w.watchers, (cache.ForName w.profiles p.ProfileName).isSome = true

/-- The profile-resolution invariant of the data model. -/
def ProfilesResolve (w : World) : Prop :=
  DevicesResolve w ∧ WatchersResolve w

instance (w : World) : Decidable (DevicesResolve w) :=
  inferInstanceAs (Decidable (∀ d ∈ w.devices, _))

instance (w : World) : Decidable (WatchersResolve w) :=
  inferInstanceAs (Decidable (∀ p ∈ w.watchers, _))

instance (w : World) : Decidable (ProfilesResolve w) :=
  inferInstanceAs (Decidable (_ ∧ _))

/-- The registry answers a successful fetch by name with the profile of that name. -/
def FetchesByName (c : DeviceProfileClient) : Prop :=
  ∀ n res, c.DeviceProfileByName n = .ok res → res.Profile.Name = n

/-- The `NotFound` class of the error taxonomy: an entity absent where presence is
required, which includes the "wrong owning service" and "unknown id" cases. -/
def ErrKind.isNotFound : ErrKind → Bool
  | .KindEntityDoesNotExist => true
  | .KindInvalidId => true
  | _ => false

/-- Between `w` and `w2` the device family is unchanged and no call to the protocol
driver or to the auto-event manager has been made. -/
def NoDeviceEffects (w w2 : World) : Prop :=
  w2.devices = w.devices
    ∧ ∀ c ∈ issued w w2,
        c.isDriverAddDevice = false ∧ c.isDriverUpdateDevice = false
          ∧ c.isDriverRemoveDevice = false ∧ c.isScheduler = false

instance (w w2 : World) : Decidable (NoDeviceEffects w w2) :=
  inferInstanceAs (Decidable (_ ∧ ∀ c ∈ issued w w2, _))

namespace Spec

/-- The device that the migration-in branch of `UpdateDevice` hands to `AddDevice`:
the zero-value record overwritten by the library's patch function. -/
def synthesizeDevice (lib : Patch) (dto : UpdateDeviceDTO) : Device :=
  lib.ReplaceDeviceModelFieldsWithDTO Device.zero dto

/-- The device synthesized from the request's fields, as the specification words
migration-in ("synthesize a full Device"): every field is the request's, the name and
the id included; a field the request leaves unset is empty. -/
def deviceOfRequest (dto : UpdateDeviceDTO) : Device :=
  { Id := dto.Id.getD "", Name := dto.Name.getD "",
    Description := dto.Description.getD "",
    AdminState := dto.AdminState.getD "",
    OperatingState := dto.OperatingState.getD "",
    Labels := dto.Labels.getD [],
    ServiceName := dto.ServiceName.getD "",
    ProfileName := dto.ProfileName.getD "",
    Protocols := dto.Protocols.getD [] }

/-- The provision watcher synthesized from the request's fields, the name and the id
included; a field the request leaves unset is empty. -/
def watcherOfRequest (dto : UpdateProvisionWatcherDTO) : ProvisionWatcher :=
  { Id := dto.Id.getD "", Name := dto.Name.getD "",
    Labels := dto.Labels.getD [],
    Identifiers := dto.Identifiers.getD [],
    ServiceName := dto.ServiceName.getD "",
    ProfileName := dto.ProfileName.getD "",
    AdminState := dto.AdminState.getD "" }

end Spec

namespace Spec

/-- A step of a transform pipeline: whether it is enabled, and what it does to a
value (a new value or an error; `none` is a panic). -/
structure Step where
  enabled : Bool
  run : Value → Option (Value × Option Error)

/-- A step is enabled when its property is neither empty nor its default. -/
def isEnabled (property default : String) : Bool :=
  decide (property ≠ "") && decide (property ≠ default)

/-- Apply the enabled steps in the order of the list, each to the output of the one
before; the first error (or panic) ends the run. -/
def runSteps : List Step → Value → Option (Value × Option Error)
  | [], v => some (v, none)
  | st :: rest, v =>
    if st.enabled then
      match st.run v with
      | none => none
      | some (v1, some err) => some (v1, some err)
      | some (v1, none) => runSteps rest v1
    else runSteps rest v

/-- The read pipeline: mask, shift, base, scale, offset, with mask and shift for the
unsigned integer types only. -/
def readSteps (lib : FloatLib) (cv : CommandValue) (pv : ResourceProperties) : List Step :=
  [ { enabled := isEnabled pv.Mask transformer.defaultMask && transformer.isUnsignedType cv,
      run := fun v => some (transformer.transformReadMask v pv.Mask) },
    { enabled := isEnabled pv.Shift transformer.defaultShift && transformer.isUnsignedType cv,
      run := fun v => transformer.transformReadShift v pv.Shift },
    { enabled := isEnabled pv.Base transformer.defaultBase,
      run := fun v => some (transformer.transformBase lib v pv.Base true) },
    { enabled := isEnabled pv.Scale transformer.defaultScale,
      run := fun v => transformer.transformScale lib v pv.Scale true },
    { enabled := isEnabled pv.Offset transformer.defaultOffset,
      run := fun v => some (transformer.transformOffset lib v pv.Offset true) } ]

/-- The write pipeline: offset, scale, base, the reverse of the read order. -/
def writeSteps (lib : FloatLib) (pv : ResourceProperties) : List Step :=
  [ { enabled := isEnabled pv.Offset transformer.defaultOffset,
      run := fun v => some (transformer.transformOffset lib v pv.Offset false) },
    { enabled := isEnabled pv.Scale transformer.defaultScale,
      run := fun v => transformer.transformScale lib v pv.Scale false },
    { enabled := isEnabled pv.Base transformer.defaultBase,
      run := fun v => some (transformer.transformBase lib v pv.Base false) } ]

/-- The end of a transform: an error of the pipeline is returned wrapped and the
command value is left as it is; otherwise the final value is stored in the command
value, unless it equals the value the pipeline started from. -/
def finish (cv : CommandValue) (value : Value) (r : Option (Value × Option Error)) :
    Option (CommandValue × Option Error) :=
  match r with
  | none => none
  | some (_, some err) => some (cv, some (NewCommonEdgeXWrapper err))
  | some (final, none) =>
    if value.goEq final then some (cv, none) else some ({ cv with Value := final }, none)

end Spec

/-! ## Concrete data for evaluating the definitions -/

namespace Sample

/-- A profile named `P`. -/
def profileP : DeviceProfile :=
  { Id := "pid", Name := "P", Description := "", DeviceResources := ["r1"],
    DeviceCommands := ["c1"] }

/-- An unlocked device `A` on profile `P`, owned by service `svcA`. -/
def deviceA : Device :=
  { Id := "a-id", Name := "A", Description := "", AdminState := Unlocked,
    OperatingState := "UP", Labels := [], ServiceName := "svcA", ProfileName := "P",
    Protocols := [("modbus", [("Address", "1")])] }

/-- A second device `B` on the same profile `P`. -/
def deviceB : Device :=
  { Id := "b-id", Name := "B", Description := "", AdminState := Unlocked,
    OperatingState := "UP", Labels := [], ServiceName := "svcA", ProfileName := "P",
    Protocols := [] }

/-- A provision watcher `W` on profile `P`. -/
def watcherW : ProvisionWatcher :=
  { Id := "w-id", Name := "W", Labels := [], Identifiers := [("port", "502")],
    ServiceName := "", ProfileName := "P", AdminState := Unlocked }

/-- The error a failing collaborator answers with. -/
def refused : Error := .common .KindServerError "registry unreachable"

/-- A profile client that knows profile `P` only and accepts every write. -/
def profileClient : DeviceProfileClient where
  DeviceProfileByName n :=
    if n = "P" then .ok { Profile := profileP }
    else .error (.common .KindEntityDoesNotExist "no such profile")
  Add _ := .ok [{ Id := "new-profile-id" }]
  Update _ := none
  DeleteByName _ := none

/-- A profile client that knows profile `P` and refuses every write. -/
def profileClientDown : DeviceProfileClient where
  DeviceProfileByName n :=
    if n = "P" then .ok { Profile := profileP }
    else .error (.common .KindEntityDoesNotExist "no such profile")
  Add _ := .error refused
  Update _ := some refused
  DeleteByName _ := some refused

/-- A provision-watcher client that accepts every write. -/
def watcherClient : ProvisionWatcherClient where
  Add _ := .ok [{ Id := "new-watcher-id" }]
  Update _ := none
  DeleteProvisionWatcherByName _ := none

/-- A provision-watcher client that refuses every write. -/
def watcherClientDown : ProvisionWatcherClient where
  Add _ := .error refused
  Update _ := some refused
  DeleteProvisionWatcherByName _ := some refused

/-- A protocol driver whose callbacks all succeed. -/
def driver : ProtocolDriver where
  AddDevice _ _ _ := none
  UpdateDevice _ _ _ := none
  RemoveDevice _ _ := none

/-- The container with the working registry and driver. -/
def dic : Container :=
  { MetadataDeviceProfileClientFrom := profileClient, ProtocolDriverFrom := driver }

/-- The façade receiver of service `svcA` with a working registry. -/
def svc : service.DeviceService :=
  { ServiceName := "svcA",
    edgexClients := { DeviceProfileClient := profileClient,
                      ProvisionWatcherClient := watcherClient } }

/-- The façade receiver of service `svcA` whose registry refuses every write. -/
def svcDown : service.DeviceService :=
  { ServiceName := "svcA",
    edgexClients := { DeviceProfileClient := profileClientDown,
                      ProvisionWatcherClient := watcherClientDown } }

/-- The self record of service `svcA`. -/
def self : DeviceServiceModel := { Name := "svcA", AdminState := Unlocked, Labels := [] }

/-- The empty cache of service `svcA`. -/
def empty : World :=
  { profiles := [], devices := [], watchers := [], ds := self, calls := [] }

/-- The cache holding profile `P` and the devices `A` and `B`. -/
def twoDevices : World :=
  { profiles := [profileP], devices := [deviceA, deviceB], watchers := [], ds := self,
    calls := [] }

/-- The cache holding profile `P` and the watcher `W`. -/
def oneWatcher : World :=
  { profiles := [profileP], devices := [], watchers := [watcherW], ds := self, calls := [] }

/-- An update request that moves device `A` to service `svcB`. -/
def moveA : UpdateDeviceRequest :=
  { Device := { Id := none, Name := some "A", Description := none, AdminState := none,
                OperatingState := none, Labels := none, ServiceName := some "svcB",
                ProfileName := none, Protocols := none } }

/-- An update request that locks device `A`, still owned by `svcA`. -/
def lockA : UpdateDeviceRequest :=
  { Device := { Id := none, Name := some "A", Description := none,
                AdminState := some Locked, OperatingState := none, Labels := none,
                ServiceName := some "svcA", ProfileName := none, Protocols := none } }

/-- The cache after `DeleteDevice` of `A` from `twoDevices`. -/
def afterA : World := (application.DeleteDevice "A" dic twoDevices).1

/-- The cache after `DeleteDevice` of `A` and then of `B`. -/
def afterAB : World := (application.DeleteDevice "B" dic afterA).1

/-- An update request for a device `X` that is cached nowhere, owned by `svcB`. -/
def strangerX : UpdateDeviceRequest :=
  { Device := { Id := none, Name := some "X", Description := none, AdminState := none,
                OperatingState := none, Labels := none, ServiceName := some "svcB",
                ProfileName := none, Protocols := none } }

/-- An update request that brings a device `X` on profile `P` to service `svcA`. -/
def arriveX : UpdateDeviceRequest :=
  { Device := { Id := some "x-id", Name := some "X", Description := none,
                AdminState := some Unlocked, OperatingState := none, Labels := none,
                ServiceName := some "svcA", ProfileName := some "P", Protocols := none } }

/-- A protocol driver whose callbacks all fail. -/
def driverDown : ProtocolDriver where
  AddDevice _ _ _ := some (.plain "device unreachable")
  UpdateDevice _ _ _ := some (.plain "device unreachable")
  RemoveDevice _ _ := some (.plain "device unreachable")

/-- The container with the working registry and the failing driver. -/
def dicDriverDown : Container :=
  { MetadataDeviceProfileClientFrom := profileClient, ProtocolDriverFrom := driverDown }

/-- The cache holding profile `P`, device `A` and watcher `W`, both on `P`. -/
def deviceAndWatcher : World :=
  { profiles := [profileP], devices := [deviceA], watchers := [watcherW], ds := self,
    calls := [] }

/-- A profile named `Q`. -/
def profileQ : DeviceProfile :=
  { Id := "qid", Name := "Q", Description := "", DeviceResources := [], DeviceCommands := [] }

/-- A profile client that answers every fetch with profile `Q`, whatever name is asked. -/
def profileClientQ : DeviceProfileClient where
  DeviceProfileByName _ := .ok { Profile := profileQ }
  Add _ := .ok [{ Id := "new-profile-id" }]
  Update _ := none
  DeleteByName _ := none

/-- The container whose registry answers every fetch with profile `Q`. -/
def dicQ : Container :=
  { MetadataDeviceProfileClientFrom := profileClientQ, ProtocolDriverFrom := driver }

/-- A newer copy of profile `P`, as the registry may hold it. -/
def profileP2 : DeviceProfile :=
  { Id := "pid", Name := "P", Description := "revised", DeviceResources := ["r1", "r2"],
    DeviceCommands := ["c1"] }

/-- A profile client that serves the newer copy of `P`. -/
def profileClient2 : DeviceProfileClient where
  DeviceProfileByName n :=
    if n = "P" then .ok { Profile := profileP2 }
    else .error (.common .KindEntityDoesNotExist "no such profile")
  Add _ := .ok [{ Id := "new-profile-id" }]
  Update _ := none
  DeleteByName _ := none

/-- The container whose registry serves the newer copy of `P`. -/
def dic2 : Container :=
  { MetadataDeviceProfileClientFrom := profileClient2, ProtocolDriverFrom := driver }

/-- The cache after `AddDevice` of `A` into the empty cache. -/
def afterAddA : World := (application.AddDevice { Device := deviceA } dic empty).1

/-- The cache after the update `lockA` of `twoDevices`. -/
def afterLockA : World :=
  match application.UpdateDevice Patch.fieldwise lockA dic twoDevices with
  | some r => r.1
  | none => twoDevices

/-- The cache holding device `A` on profile `P`, but no profile. -/
def deviceWithoutProfile : World :=
  { profiles := [], devices := [deviceA], watchers := [], ds := self, calls := [] }

/-- A service update request for `svcA` that locks it and labels it. -/
def lockService : application.UpdateDeviceServiceRequest :=
  { Service := { Name := some "svcA", AdminState := some Locked, Labels := ["floor-1"] } }

/-- A service update request addressed to another service, `svcB`. -/
def lockOtherService : application.UpdateDeviceServiceRequest :=
  { Service := { Name := some "svcB", AdminState := some Locked, Labels := ["floor-1"] } }

/-- An update request that moves watcher `W` to service `svcB`. -/
def moveW : UpdateProvisionWatcherRequest :=
  { ProvisionWatcher := { Id := none, Name := some "W", Labels := none, Identifiers := none,
                          ServiceName := some "svcB", ProfileName := none,
                          AdminState := none } }

/-- An update request that locks watcher `W`, still owned by `svcA`. -/
def lockW : UpdateProvisionWatcherRequest :=
  { ProvisionWatcher := { Id := none, Name := some "W", Labels := none, Identifiers := none,
                          ServiceName := some "svcA", ProfileName := none,
                          AdminState := some Locked } }

/-- An update request that brings a watcher `V` on profile `P` to service `svcA`. -/
def arriveV : UpdateProvisionWatcherRequest :=
  { ProvisionWatcher := { Id := some "v-id", Name := some "V", Labels := none,
                          Identifiers := none, ServiceName := some "svcA",
                          ProfileName := some "P", AdminState := some Unlocked } }

/-- An update request for a watcher `V` that is cached nowhere, owned by `svcB`. -/
def strangerV : UpdateProvisionWatcherRequest :=
  { ProvisionWatcher := { Id := none, Name := some "V", Labels := none, Identifiers := none,
                          ServiceName := some "svcB", ProfileName := none,
                          AdminState := none } }

/-- A floating-point library that reads decimal notation; its `Pow` knows natural
exponents only and its `Log` knows nothing (NaN). -/
def floatLib : FloatLib where
  ParseFloat s _ := strconv.parseDecimal s
  Pow b x :=
    match b, x with
    | .fin q, .fin e =>
      if e.den = 1 ∧ 0 ≤ e.num then .fin { num := q.num ^ e.num.toNat, den := q.den ^ e.num.toNat }
      else .nan
    | _, _ => .nan
  Log _ := .nan

/-- No transform configured. -/
def plainProperties : ResourceProperties :=
  { Minimum := "", Maximum := "", Mask := "", Shift := "", Scale := "", Offset := "",
    Base := "" }

/-- A uint8 command value holding `10`. -/
def ten : CommandValue :=
  { DeviceResourceName := "speed", ValueType := ValueTypeUint8, Value := .uint .w8 10 }

/-- A uint8 command value holding `5`. -/
def five : CommandValue :=
  { DeviceResourceName := "speed", ValueType := ValueTypeUint8, Value := .uint .w8 5 }

/-- Every read step configured: mask `6`, shift left by one, base `2`, scale `3`,
offset `1`. -/
def readProperties : ResourceProperties :=
  { plainProperties with Mask := "6", Shift := "1", Base := "2", Scale := "3", Offset := "1" }

/-- Two write steps configured: offset `2` and scale `2`. -/
def writeProperties : ResourceProperties :=
  { plainProperties with Offset := "2", Scale := "2" }

/-- A command value of a type that is not numeric. -/
def label : CommandValue :=
  { DeviceResourceName := "mode", ValueType := "String", Value := .str "on" }

/-- A float64 command value holding NaN. -/
def notANumber : CommandValue :=
  { DeviceResourceName := "level", ValueType := ValueTypeFloat64, Value := .float64 .nan }

end Sample

/-! ## Lemmas on the cache store -/

section StoreLemmas

variable {α : Type} [Named α]

theorem ForName_name {xs : List α} {n : String} {e : α} (h : cache.ForName xs n = some e) :
    Named.name e = n := by
  have := List.find?_some h
  simpa using this

theorem ForName_append_single (xs : List α) (e : α) (n : String) :
    cache.ForName (xs ++ [e]) n
      = (cache.ForName xs n).or (if Named.name e = n then some e else none) := by
  unfold cache.ForName
  rw [List.find?_append]
  congr 1
  by_cases h : Named.name e = n <;> simp [List.find?, h]

theorem ForName_removed (xs : List α) (n : String) :
    cache.ForName (xs.filter (fun x => !decide (Named.name x = n))) n = none := by
  unfold cache.ForName
  rw [List.find?_eq_none]
  intro x hx
  have := (List.mem_filter.mp hx).2
  simpa using this

theorem ForName_removed_other (xs : List α) {n m : String} (h : m ≠ n) :
    cache.ForName (xs.filter (fun x => !decide (Named.name x = n))) m = cache.ForName xs m := by
  unfold cache.ForName
  rw [List.find?_filter]
  congr 1
  funext a
  by_cases ha : Named.name a = m
  · have : Named.name a ≠ n := fun hn => h (ha.symm.trans hn)
    simp [ha, h]
  · simp [ha]

theorem ForName_updated (xs : List α) (e : α) {n : String} (hn : Named.name e = n)
    (h : (cache.ForName xs n).isSome) :
    cache.ForName (xs.map (fun x => if Named.name x = Named.name e then e else x)) n
      = some e := by
  unfold cache.ForName at *
  subst hn
  induction xs with
  | nil => simp at h
  | cons x xs ih =>
    rw [List.map_cons, List.find?_cons]
    by_cases hx : Named.name x = Named.name e
    · simp [hx]
    · rw [List.find?_cons] at h
      simp only [hx, decide_False] at h
      simp only [hx, if_false, decide_False]
      exact ih h

theorem ForName_updated_other (xs : List α) (e : α) {m : String} (h : m ≠ Named.name e) :
    cache.ForName (xs.map (fun x => if Named.name x = Named.name e then e else x)) m
      = cache.ForName xs m := by
  unfold cache.ForName
  induction xs with
  | nil => rfl
  | cons x xs ih =>
    rw [List.map_cons, List.find?_cons, List.find?_cons]
    by_cases hx : Named.name x = Named.name e
    · have hxm : ¬ Named.name x = m := fun hm => h (hm.symm.trans hx)
      have hem : ¬ Named.name e = m := fun hm => h hm.symm
      simp only [hx, if_true, hem, decide_False]
      rw [← hx] at ih
      simpa [hx, hem] using ih
    · simp only [hx, if_false]
      by_cases hm : Named.name x = m
      · simp [hm]
      · simpa [hm] using ih

theorem issued_append (w w2 : World) (l : List Call) (h : w2.calls = w.calls ++ l) :
    issued w w2 = l := by
  simp [issued, h]

end StoreLemmas

/-! ## Lemmas on `updateAssociatedProfile` -/

/-- Profile association makes exactly one registry fetch and touches no family other
than the profiles. -/
theorem updateAssociatedProfile_frame (pn : String) (dic : Container) (w : World) :
    (application.updateAssociatedProfile pn dic w).1.calls
        = w.calls ++ [.DeviceProfileByName pn]
      ∧ (application.updateAssociatedProfile pn dic w).1.devices = w.devices
      ∧ (application.updateAssociatedProfile pn dic w).1.watchers = w.watchers
      ∧ (application.updateAssociatedProfile pn dic w).1.ds = w.ds := by
  simp only [application.updateAssociatedProfile, World.record]
  split
  · simp
  · split
    · split <;> simp
    · split <;> simp

/-! ## Lemmas on `DeleteDevice` -/

/-- What `DeleteDevice` does to the device family and to the call record when the
device is cached: every entry of that name is removed, the scheduler is stopped and
the driver's remove callback is invoked, whatever the callback answers. -/
theorem DeleteDevice_of_cached (n : String) (dic : Container) (w : World) (D : Device)
    (hD : cache.ForName w.devices n = some D) :
    (application.DeleteDevice n dic w).1.devices
        = w.devices.filter (fun x => !decide (Named.name x = n))
      ∧ (application.DeleteDevice n dic w).1.calls
        = w.calls ++ [.StopForDevice n, .DriverRemoveDevice n D.Protocols]
      ∧ (application.DeleteDevice n dic w).1.watchers = w.watchers
      ∧ (application.DeleteDevice n dic w).1.ds = w.ds := by
  have hname : D.Name = n := ForName_name hD
  simp only [application.DeleteDevice, hD, World.record, cache.RemoveByName, hname]
  cases hdrv : dic.ProtocolDriverFrom.RemoveDevice n D.Protocols with
  | some err => simp
  | none =>
    simp only []
    split
    · split <;> simp
    · simp

/-- Removing a name that is not in the store leaves the list as it is. -/
theorem filter_absent {α : Type} [Named α] (xs : List α) (n : String)
    (h : cache.ForName xs n = none) :
    xs.filter (fun x => !decide (Named.name x = n)) = xs := by
  unfold cache.ForName at h
  rw [List.find?_eq_none] at h
  rw [List.filter_eq_self]
  intro x hx
  simpa using h x hx

/-- When the driver's remove callback fails, `DeleteDevice` of a cached device
returns a server error. -/
theorem DeleteDevice_driver_failed (n : String) (dic : Container) (w : World) (D : Device)
    (err : Error) (hD : cache.ForName w.devices n = some D)
    (hdrv : dic.ProtocolDriverFrom.RemoveDevice n D.Protocols = some err) :
    (application.DeleteDevice n dic w).2
      = some (NewCommonEdgeX .KindServerError ("删除设备（" ++ n ++ "）回调失败") (some err)) := by
  have hname : D.Name = n := ForName_name hD
  simp [application.DeleteDevice, hD, World.record, cache.RemoveByName, hname, hdrv]

/-- When the driver's remove callback succeeds, `DeleteDevice` of a cached device
returns no error, and the profile family loses the device's profile name exactly when
no remaining device references it. -/
theorem DeleteDevice_driver_ok (n : String) (dic : Container) (w : World) (D : Device)
    (hD : cache.ForName w.devices n = some D)
    (hdrv : dic.ProtocolDriverFrom.RemoveDevice n D.Protocols = none) :
    (application.DeleteDevice n dic w).2 = none
      ∧ (application.DeleteDevice n dic w).1.profiles
        = if cache.CheckProfileNotUsed
              (w.devices.filter (fun x => !decide (Named.name x = n))) D.ProfileName
          then w.profiles.filter (fun x => !decide (Named.name x = D.ProfileName))
          else w.profiles := by
  have hname : D.Name = n := ForName_name hD
  simp only [application.DeleteDevice, hD, World.record, cache.RemoveByName, hname, hdrv]
  by_cases hc : cache.CheckProfileNotUsed
      (w.devices.filter (fun x => !decide (Named.name x = n))) D.ProfileName = true
  · simp only [hc, if_true]
    cases hp : cache.ForName w.profiles D.ProfileName with
    | none => simp [filter_absent _ _ hp]
    | some p => simp
  · simp [hc]

/-- The profile-not-used check holds exactly when no device of the list references
the profile name. -/
theorem CheckProfileNotUsed_iff (devs : List Device) (pn : String) :
    cache.CheckProfileNotUsed devs pn = true ↔ ∀ x ∈ devs, x.ProfileName ≠ pn := by
  simp [cache.CheckProfileNotUsed, List.all_eq_true]

/-! ## The reconciliation engine: device operations -/

/-- C1. AddDevice success: when neither the device's name nor its profile name is
cached, the registry returns the profile for that name and the driver's add callback
succeeds, `AddDevice` returns no error, the fetched profile and the device of the
request are then found in the cache, and among the calls made the driver's
`AddDevice` callback occurs exactly once, with the device's name, protocols and
admin state. -/
theorem addDevice_success (req : AddDeviceRequest) (dic : Container) (w : World)
    (res : DeviceProfileResponse)
    (hdev : cache.ForName w.devices req.Device.Name = none)
    (hprof : cache.ForName w.profiles req.Device.ProfileName = none)
    (hfetch : dic.MetadataDeviceProfileClientFrom.DeviceProfileByName req.Device.ProfileName
      = .ok res)
    (hname : res.Profile.Name = req.Device.ProfileName)
    (hdrv : dic.ProtocolDriverFrom.AddDevice req.Device.Name req.Device.Protocols
      req.Device.AdminState = none) :
    ∃ w2, application.AddDevice req dic w = (w2, none)
      ∧ cache.ForName w2.profiles req.Device.ProfileName
          = some (ToDeviceProfileModel res.Profile)
      ∧ cache.ForName w2.devices req.Device.Name = some (ToDeviceModel req.Device)
      ∧ issued w w2 =
          [.DeviceProfileByName req.Device.ProfileName,
           .DriverAddDevice req.Device.Name req.Device.Protocols req.Device.AdminState,
           .RestartForDevice req.Device.Name]
      ∧ (issued w w2).filter Call.isDriverAddDevice =
          [.DriverAddDevice req.Device.Name req.Device.Protocols req.Device.AdminState] := by
  have hprof2 : cache.ForName w.profiles res.Profile.Name = none := by rw [hname]; exact hprof
  have hup : application.updateAssociatedProfile req.Device.ProfileName dic w
      = ({ w with profiles := w.profiles ++ [res.Profile],
                  calls := w.calls ++ [.DeviceProfileByName req.Device.ProfileName] }, none) := by
    simp [application.updateAssociatedProfile, hfetch, World.record, hprof, cache.Add,
      ToDeviceProfileModel, Named.name, hprof2]
  refine ⟨{ w with profiles := w.profiles ++ [res.Profile],
                   devices := w.devices ++ [req.Device],
                   calls := w.calls ++
                     [.DeviceProfileByName req.Device.ProfileName,
                      .DriverAddDevice req.Device.Name req.Device.Protocols req.Device.AdminState,
                      .RestartForDevice req.Device.Name] }, ?_, ?_, ?_, ?_, ?_⟩
  · simp [application.AddDevice, ToDeviceModel, hup, cache.Add, Named.name, hdev, hdrv,
      World.record]
  · simp [ForName_append_single, hprof, Named.name, hname, ToDeviceProfileModel]
  · simp [ForName_append_single, hdev, Named.name, ToDeviceModel]
  · simp [issued]
  · simp [issued, List.filter, Call.isDriverAddDevice]

theorem addDevice_success_witness :
    ∃ w2, application.AddDevice { Device := Sample.deviceA } Sample.dic Sample.empty = (w2, none)
      ∧ cache.ForName w2.profiles "P" = some Sample.profileP
      ∧ cache.ForName w2.devices "A" = some Sample.deviceA
      ∧ issued Sample.empty w2 =
          [.DeviceProfileByName "P",
           .DriverAddDevice "A" [("modbus", [("Address", "1")])] Unlocked,
           .RestartForDevice "A"]
      ∧ (issued Sample.empty w2).filter Call.isDriverAddDevice =
          [.DriverAddDevice "A" [("modbus", [("Address", "1")])] Unlocked] :=
  addDevice_success { Device := Sample.deviceA } Sample.dic Sample.empty
    { Profile := Sample.profileP } (by decide) (by decide) rfl rfl rfl

/-- C2. UpdateDevice migration-out: for a cached device `D` and an update request for
`D` whose service name differs from the self service's name, `UpdateDevice` returns
exactly what `DeleteDevice` returns for that name; afterwards `D` is not in the
cache, the calls made are one scheduler stop and one driver `RemoveDevice` callback,
and no driver `AddDevice` or `UpdateDevice` callback is made. -/
theorem updateDevice_migration_out (lib : Patch) (req : UpdateDeviceRequest) (dic : Container)
    (w : World) (n s : String) (D : Device)
    (hn : req.Device.Name = some n) (hs : req.Device.ServiceName = some s)
    (hD : cache.ForName w.devices n = some D) (hne : w.ds.Name ≠ s) :
    application.UpdateDevice lib req dic w = some (application.DeleteDevice n dic w)
      ∧ cache.ForName (application.DeleteDevice n dic w).1.devices n = none
      ∧ issued w (application.DeleteDevice n dic w).1
          = [.StopForDevice n, .DriverRemoveDevice n D.Protocols]
      ∧ (issued w (application.DeleteDevice n dic w).1).filter Call.isDriverRemoveDevice
          = [.DriverRemoveDevice n D.Protocols]
      ∧ (issued w (application.DeleteDevice n dic w).1).filter Call.isDriverAddDevice = []
      ∧ (issued w (application.DeleteDevice n dic w).1).filter Call.isDriverUpdateDevice = [] := by
  obtain ⟨hdev, hcalls, -, -⟩ := DeleteDevice_of_cached n dic w D hD
  have hiss := issued_append w _ _ hcalls
  refine ⟨?_, ?_, hiss, ?_, ?_, ?_⟩
  · simp [application.UpdateDevice, hn, hs, hD, hne]
  · rw [hdev]; exact ForName_removed _ _
  · rw [hiss]; simp [List.filter, Call.isDriverRemoveDevice]
  · rw [hiss]; simp [List.filter, Call.isDriverAddDevice]
  · rw [hiss]; simp [List.filter, Call.isDriverUpdateDevice]

theorem updateDevice_migration_out_witness :
    application.UpdateDevice Patch.fieldwise Sample.moveA Sample.dic Sample.twoDevices
        = some (application.DeleteDevice "A" Sample.dic Sample.twoDevices)
      ∧ cache.ForName (application.DeleteDevice "A" Sample.dic Sample.twoDevices).1.devices "A"
          = none
      ∧ issued Sample.twoDevices (application.DeleteDevice "A" Sample.dic Sample.twoDevices).1
          = [.StopForDevice "A", .DriverRemoveDevice "A" Sample.deviceA.Protocols]
      ∧ (issued Sample.twoDevices
            (application.DeleteDevice "A" Sample.dic Sample.twoDevices).1).filter
          Call.isDriverRemoveDevice = [.DriverRemoveDevice "A" Sample.deviceA.Protocols]
      ∧ (issued Sample.twoDevices
            (application.DeleteDevice "A" Sample.dic Sample.twoDevices).1).filter
          Call.isDriverAddDevice = []
      ∧ (issued Sample.twoDevices
            (application.DeleteDevice "A" Sample.dic Sample.twoDevices).1).filter
          Call.isDriverUpdateDevice = [] :=
  updateDevice_migration_out Patch.fieldwise Sample.moveA Sample.dic Sample.twoDevices
    "A" "svcB" Sample.deviceA rfl rfl (by decide) (by decide)

/-- C3. UpdateDevice admin-state switch: for a cached device owned by this service and
an update with the same service name for which profile resolution, the cache update
and the driver callback succeed, `UpdateDevice` returns no error and its only
scheduler call is `StopForDevice` when the merged admin state is Locked (one stop,
no restart for the device) and `RestartForDevice` otherwise (one restart, no stop). -/
theorem updateDevice_admin_state_switch (lib : Patch) (req : UpdateDeviceRequest)
    (dic : Container) (w w1 : World) (n s : String) (D : Device) (devs : List Device)
    (hn : req.Device.Name = some n) (hs : req.Device.ServiceName = some s)
    (hD : cache.ForName w.devices n = some D) (hself : w.ds.Name = s)
    (hres : application.updateAssociatedProfile
      (lib.ReplaceDeviceModelFieldsWithDTO D req.Device).ProfileName dic w = (w1, none))
    (hupd : cache.Update w1.devices (lib.ReplaceDeviceModelFieldsWithDTO D req.Device)
      = .ok devs)
    (hdrv : dic.ProtocolDriverFrom.UpdateDevice
      (lib.ReplaceDeviceModelFieldsWithDTO D req.Device).Name
      (lib.ReplaceDeviceModelFieldsWithDTO D req.Device).Protocols
      (lib.ReplaceDeviceModelFieldsWithDTO D req.Device).AdminState = none) :
    ∃ w2, application.UpdateDevice lib req dic w = some (w2, none)
      ∧ ((lib.ReplaceDeviceModelFieldsWithDTO D req.Device).AdminState = Locked →
          (issued w w2).filter Call.isScheduler
              = [.StopForDevice (lib.ReplaceDeviceModelFieldsWithDTO D req.Device).Name]
            ∧ (issued w w2).count
                (.StopForDevice (lib.ReplaceDeviceModelFieldsWithDTO D req.Device).Name) = 1
            ∧ (issued w w2).count
                (.RestartForDevice (lib.ReplaceDeviceModelFieldsWithDTO D req.Device).Name) = 0)
      ∧ ((lib.ReplaceDeviceModelFieldsWithDTO D req.Device).AdminState ≠ Locked →
          (issued w w2).filter Call.isScheduler
              = [.RestartForDevice (lib.ReplaceDeviceModelFieldsWithDTO D req.Device).Name]
            ∧ (issued w w2).count
                (.RestartForDevice (lib.ReplaceDeviceModelFieldsWithDTO D req.Device).Name) = 1
            ∧ (issued w w2).count
                (.StopForDevice (lib.ReplaceDeviceModelFieldsWithDTO D req.Device).Name) = 0) := by
  have hcalls : w1.calls = w.calls ++
      [.DeviceProfileByName (lib.ReplaceDeviceModelFieldsWithDTO D req.Device).ProfileName] := by
    have := (updateAssociatedProfile_frame
      (lib.ReplaceDeviceModelFieldsWithDTO D req.Device).ProfileName dic w).1
    rw [hres] at this
    exact this
  generalize hdevice : lib.ReplaceDeviceModelFieldsWithDTO D req.Device = device
    at hres hupd hdrv hcalls ⊢
  by_cases hl : device.AdminState = Locked
  · refine ⟨(({ w1 with devices := devs } : World).record
        (.DriverUpdateDevice device.Name device.Protocols device.AdminState)).record
        (.StopForDevice device.Name), ?_, ?_, ?_⟩
    · have hdrv2 := hdrv
      rw [hl] at hdrv2
      simp [application.UpdateDevice, hn, hs, hD, hself, hdevice, hres, hupd, hdrv2, hl]
    · intro _
      simp [issued, World.record, hcalls, List.filter, Call.isScheduler]
    · intro h; exact absurd hl h
  · refine ⟨(({ w1 with devices := devs } : World).record
        (.DriverUpdateDevice device.Name device.Protocols device.AdminState)).record
        (.RestartForDevice device.Name), ?_, ?_, ?_⟩
    · simp [application.UpdateDevice, hn, hs, hD, hself, hdevice, hres, hupd, hdrv, hl]
    · intro h; exact absurd h hl
    · intro _
      simp [issued, World.record, hcalls, List.filter, Call.isScheduler]

theorem updateDevice_admin_state_switch_witness :
    ∃ w2, application.UpdateDevice Patch.fieldwise Sample.lockA Sample.dic Sample.twoDevices
        = some (w2, none)
      ∧ (issued Sample.twoDevices w2).filter Call.isScheduler = [.StopForDevice "A"]
      ∧ (issued Sample.twoDevices w2).count (.StopForDevice "A") = 1
      ∧ (issued Sample.twoDevices w2).count (.RestartForDevice "A") = 0 :=
  match updateDevice_admin_state_switch Patch.fieldwise Sample.lockA Sample.dic
      Sample.twoDevices (application.updateAssociatedProfile "P" Sample.dic Sample.twoDevices).1
      "A" "svcA" Sample.deviceA
      [{ Sample.deviceA with AdminState := Locked }, Sample.deviceB]
      rfl rfl (by decide) (by decide) rfl rfl rfl with
  | ⟨w2, h1, h2, _⟩ => ⟨w2, h1, h2 (by decide)⟩

/-- C4. DeleteDevice orphan reclamation: for a cached device `D` with profile name `P`,
after `DeleteDevice` returns success the profile family is untouched (so `P` is still
cached if it was) when a remaining cached device references `P`, and `P` is absent
from the cache when no remaining cached device references `P`. -/
theorem deleteDevice_orphan_reclamation (n : String) (dic : Container) (w w2 : World)
    (D : Device) (hD : cache.ForName w.devices n = some D)
    (hok : application.DeleteDevice n dic w = (w2, none)) :
    ((∃ x ∈ w2.devices, x.ProfileName = D.ProfileName) →
        w2.profiles = w.profiles
          ∧ cache.ForName w2.profiles D.ProfileName = cache.ForName w.profiles D.ProfileName)
      ∧ ((∀ x ∈ w2.devices, x.ProfileName ≠ D.ProfileName) →
        cache.ForName w2.profiles D.ProfileName = none) := by
  have hdevs : w2.devices = w.devices.filter (fun x => !decide (Named.name x = n)) := by
    have := (DeleteDevice_of_cached n dic w D hD).1
    rw [hok] at this
    exact this
  cases hdrv : dic.ProtocolDriverFrom.RemoveDevice n D.Protocols with
  | some err =>
    have := DeleteDevice_driver_failed n dic w D err hD hdrv
    rw [hok] at this
    cases this
  | none =>
    have hprof := (DeleteDevice_driver_ok n dic w D hD hdrv).2
    rw [hok, ← hdevs] at hprof
    simp only at hprof
    constructor
    · intro ⟨x, hx, hxp⟩
      have hc : ¬ cache.CheckProfileNotUsed w2.devices D.ProfileName = true := by
        rw [CheckProfileNotUsed_iff]
        intro hall
        exact hall x hx hxp
      rw [if_neg hc] at hprof
      exact ⟨hprof, by rw [hprof]⟩
    · intro hall
      have hc : cache.CheckProfileNotUsed w2.devices D.ProfileName = true :=
        (CheckProfileNotUsed_iff _ _).mpr hall
      rw [if_pos hc] at hprof
      rw [hprof]
      exact ForName_removed _ _

theorem deleteDevice_orphan_reclamation_witness :
    (Sample.afterA.profiles = Sample.twoDevices.profiles
        ∧ cache.ForName Sample.afterA.profiles "P" = some Sample.profileP)
      ∧ cache.ForName Sample.afterAB.profiles "P" = none :=
  ⟨(deleteDevice_orphan_reclamation "A" Sample.dic Sample.twoDevices Sample.afterA
      Sample.deviceA (by decide) rfl).1 ⟨Sample.deviceB, by decide, rfl⟩,
   (deleteDevice_orphan_reclamation "B" Sample.dic Sample.afterA Sample.afterAB
      Sample.deviceB (by decide) rfl).2 (by decide)⟩

/-! ## The managed-entity façade -/

/-- C5. Façade AddProvisionWatcher at a watcher `W` whose name is not cached, with
profile resolution and the registry create call succeeding: the call returns the
registry-assigned id and no error, yet `W` is not found in the provision-watcher
cache afterwards (the method never writes to that family). -/
theorem facade_addProvisionWatcher_leaves_watcher_uncached :
    cache.ForName Sample.empty.watchers "W" = none
      ∧ ∃ w2, service.AddProvisionWatcher Sample.svc Sample.watcherW Sample.empty
          = some (w2, "new-watcher-id", none)
        ∧ cache.ForName w2.watchers "W" = none
        ∧ w2.watchers = [] :=
  ⟨rfl, _, rfl, rfl, rfl⟩

/-- C6. Façade RemoveProvisionWatcher at a cached watcher `W` with the registry delete
call succeeding: the call returns no error, yet `W` is still found in the
provision-watcher cache afterwards (the method never writes to that family). -/
theorem facade_removeProvisionWatcher_leaves_watcher_cached :
    cache.ForName Sample.oneWatcher.watchers "W" = some Sample.watcherW
      ∧ ∃ w2, service.RemoveProvisionWatcher Sample.svc "W" Sample.oneWatcher = (w2, none)
        ∧ cache.ForName w2.watchers "W" = some Sample.watcherW :=
  ⟨rfl, _, rfl, rfl⟩

/-- C7. Façade AddDeviceProfile is registry-first: for a profile whose name is not
cached, if the registry create call fails then that error is returned with an empty
id and the three cache families are exactly what they were; if the registry call
succeeds (answering with a response that carries the assigned id) then the profile is
found in the cache afterwards and the assigned id is returned with no error. -/
theorem facade_addDeviceProfile_registry_first (s : service.DeviceService)
    (profile : DeviceProfile) (w : World)
    (hnew : cache.ForName w.profiles profile.Name = none) :
    (∀ e, s.edgexClients.DeviceProfileClient.Add
          [NewDeviceProfileRequest (FromDeviceProfileModelToDTO profile)] = .error e →
        ∃ w2, service.AddDeviceProfile s profile w = some (w2, "", some e)
          ∧ w2.profiles = w.profiles ∧ w2.devices = w.devices ∧ w2.watchers = w.watchers)
      ∧ (∀ r rs, s.edgexClients.DeviceProfileClient.Add
          [NewDeviceProfileRequest (FromDeviceProfileModelToDTO profile)] = .ok (r :: rs) →
        ∃ w2, service.AddDeviceProfile s profile w = some (w2, r.Id, none)
          ∧ cache.ForName w2.profiles profile.Name = some profile
          ∧ w2.profiles = w.profiles ++ [profile]) := by
  constructor
  · intro e he
    exact ⟨w.record (.DeviceProfileAdd
        [NewDeviceProfileRequest (FromDeviceProfileModelToDTO profile)]),
      by simp [service.AddDeviceProfile, hnew, he], rfl, rfl, rfl⟩
  · intro r rs hr
    refine ⟨{ w with profiles := w.profiles ++ [profile],
                     calls := w.calls ++ [.DeviceProfileAdd
                       [NewDeviceProfileRequest (FromDeviceProfileModelToDTO profile)]] },
      ?_, ?_, rfl⟩
    · simp [service.AddDeviceProfile, hnew, hr, cache.Add, World.record, Named.name]
    · simp [ForName_append_single, hnew, Named.name]

theorem facade_addDeviceProfile_registry_first_witness :
    (∃ w2, service.AddDeviceProfile Sample.svcDown Sample.profileP Sample.empty
          = some (w2, "", some Sample.refused)
        ∧ w2.profiles = [] ∧ w2.devices = [] ∧ w2.watchers = [])
      ∧ (∃ w2, service.AddDeviceProfile Sample.svc Sample.profileP Sample.empty
          = some (w2, "new-profile-id", none)
        ∧ cache.ForName w2.profiles "P" = some Sample.profileP
        ∧ w2.profiles = [Sample.profileP]) :=
  ⟨(facade_addDeviceProfile_registry_first Sample.svcDown Sample.profileP Sample.empty rfl).1
      Sample.refused rfl,
   (facade_addDeviceProfile_registry_first Sample.svc Sample.profileP Sample.empty rfl).2
      { Id := "new-profile-id" } [] rfl⟩

/-- C8, as stated, fails: with an empty cache, a registry that serves profile `P` and
refuses the watcher create call, façade AddProvisionWatcher returns the registry's
error, but the profile family has been changed: it now holds `P`. -/
theorem facade_addProvisionWatcher_registry_failure_mutates_profiles :
    ∃ w2, service.AddProvisionWatcher Sample.svcDown Sample.watcherW Sample.empty
        = some (w2, "", some Sample.refused)
      ∧ Sample.empty.profiles = []
      ∧ w2.profiles = [Sample.profileP]
      ∧ w2.profiles ≠ Sample.empty.profiles :=
  ⟨_, rfl, rfl, rfl, by decide⟩

/-- C8, amended. Whenever the registry create call for the watcher is made and fails
(the watcher's name is not cached and profile resolution has passed), façade
AddProvisionWatcher returns that error with an empty id and leaves the device and
provision-watcher families unchanged; the profile family is unchanged when the
watcher's profile name was already cached, and otherwise has gained exactly the
profile fetched from the registry. -/
theorem facade_addProvisionWatcher_registry_failure (s : service.DeviceService)
    (watcher : ProvisionWatcher) (w : World) (e : Error)
    (hnew : cache.ForName w.watchers watcher.Name = none)
    (hfail : s.edgexClients.ProvisionWatcherClient.Add
      [NewAddProvisionWatcherRequest (FromProvisionWatcherModelToDTO
        { watcher with ServiceName := s.ServiceName })] = .error e) :
    (∀ p, cache.ForName w.profiles watcher.ProfileName = some p →
        ∃ w2, service.AddProvisionWatcher s watcher w = some (w2, "", some e)
          ∧ w2.profiles = w.profiles ∧ w2.devices = w.devices ∧ w2.watchers = w.watchers)
      ∧ (∀ res, cache.ForName w.profiles watcher.ProfileName = none →
          s.edgexClients.DeviceProfileClient.DeviceProfileByName watcher.ProfileName = .ok res →
          cache.ForName w.profiles res.Profile.Name = none →
        ∃ w2, service.AddProvisionWatcher s watcher w = some (w2, "", some e)
          ∧ w2.profiles = w.profiles ++ [ToDeviceProfileModel res.Profile]
          ∧ w2.devices = w.devices ∧ w2.watchers = w.watchers) := by
  constructor
  · intro p hp
    exact ⟨w.record (.ProvisionWatcherAdd
        [NewAddProvisionWatcherRequest (FromProvisionWatcherModelToDTO
          { watcher with ServiceName := s.ServiceName })]),
      by simp [service.AddProvisionWatcher, hnew, hp, hfail], rfl, rfl, rfl⟩
  · intro res hp hres hadd
    refine ⟨{ w with profiles := w.profiles ++ [ToDeviceProfileModel res.Profile],
                     calls := w.calls ++ [.DeviceProfileByName watcher.ProfileName,
                       .ProvisionWatcherAdd
                         [NewAddProvisionWatcherRequest (FromProvisionWatcherModelToDTO
                           { watcher with ServiceName := s.ServiceName })]] },
      ?_, rfl, rfl, rfl⟩
    simp [service.AddProvisionWatcher, hnew, hp, hres, hfail, cache.Add, World.record,
      Named.name, ToDeviceProfileModel, hadd]

theorem facade_addProvisionWatcher_registry_failure_witness :
    (∃ w2, service.AddProvisionWatcher Sample.svcDown
          { Sample.watcherW with Name := "W2" } Sample.oneWatcher
          = some (w2, "", some Sample.refused)
        ∧ w2.profiles = [Sample.profileP] ∧ w2.devices = [] ∧ w2.watchers = [Sample.watcherW])
      ∧ (∃ w2, service.AddProvisionWatcher Sample.svcDown Sample.watcherW Sample.empty
          = some (w2, "", some Sample.refused)
        ∧ w2.profiles = [] ++ [Sample.profileP] ∧ w2.devices = [] ∧ w2.watchers = []) :=
  ⟨(facade_addProvisionWatcher_registry_failure Sample.svcDown
      { Sample.watcherW with Name := "W2" } Sample.oneWatcher Sample.refused rfl rfl).1
      Sample.profileP rfl,
   (facade_addProvisionWatcher_registry_failure Sample.svcDown Sample.watcherW Sample.empty
      Sample.refused rfl rfl).2 { Profile := Sample.profileP } rfl rfl rfl⟩

/-- C9. Façade updates do not touch the cache: for every cache state and argument,
whatever the registry update call answers (and also when it is not made),
`UpdateDeviceProfile` and `UpdateProvisionWatcher` leave the profile, device and
provision-watcher families exactly as they were. -/
theorem facade_updates_leave_cache (s : service.DeviceService) (profile : DeviceProfile)
    (watcher : ProvisionWatcher) (w : World) :
    ((service.UpdateDeviceProfile s profile w).1.profiles = w.profiles
        ∧ (service.UpdateDeviceProfile s profile w).1.devices = w.devices
        ∧ (service.UpdateDeviceProfile s profile w).1.watchers = w.watchers)
      ∧ ((service.UpdateProvisionWatcher s watcher w).1.profiles = w.profiles
        ∧ (service.UpdateProvisionWatcher s watcher w).1.devices = w.devices
        ∧ (service.UpdateProvisionWatcher s watcher w).1.watchers = w.watchers) := by
  constructor
  · simp only [service.UpdateDeviceProfile, World.record]
    split
    · simp
    · split <;> simp
  · simp only [service.UpdateProvisionWatcher, World.record]
    split
    · simp
    · split <;> simp

/-- C10. Façade RemoveDeviceProfileByName: for a cached profile name `n`, if the
registry delete call fails its error is returned and the profile family is unchanged;
if it succeeds no error is returned, `n` is no longer found in the cache and the
lookup of every other profile name is unchanged. -/
theorem facade_removeDeviceProfileByName (s : service.DeviceService) (n : String) (w : World)
    (p : DeviceProfile) (hp : cache.ForName w.profiles n = some p) :
    (∀ e, s.edgexClients.DeviceProfileClient.DeleteByName n = some e →
        (service.RemoveDeviceProfileByName s n w).2 = some e
          ∧ (service.RemoveDeviceProfileByName s n w).1.profiles = w.profiles)
      ∧ (s.edgexClients.DeviceProfileClient.DeleteByName n = none →
        (service.RemoveDeviceProfileByName s n w).2 = none
          ∧ cache.ForName (service.RemoveDeviceProfileByName s n w).1.profiles n = none
          ∧ ∀ m, m ≠ n →
              cache.ForName (service.RemoveDeviceProfileByName s n w).1.profiles m
                = cache.ForName w.profiles m) := by
  constructor
  · intro e he
    simp [service.RemoveDeviceProfileByName, hp, he, World.record]
  · intro hok
    have hres : service.RemoveDeviceProfileByName s n w
        = ({ w with profiles := w.profiles.filter (fun x => !decide (Named.name x = n)),
                    calls := w.calls ++ [.DeviceProfileDeleteByName n] }, none) := by
      simp [service.RemoveDeviceProfileByName, hp, hok, World.record, cache.RemoveByName]
    rw [hres]
    refine ⟨rfl, ForName_removed _ _, ?_⟩
    intro m hm
    exact ForName_removed_other _ hm

theorem facade_removeDeviceProfileByName_witness :
    ((service.RemoveDeviceProfileByName Sample.svcDown "P" Sample.twoDevices).2
          = some Sample.refused
        ∧ (service.RemoveDeviceProfileByName Sample.svcDown "P" Sample.twoDevices).1.profiles
          = [Sample.profileP])
      ∧ ((service.RemoveDeviceProfileByName Sample.svc "P" Sample.twoDevices).2 = none
        ∧ cache.ForName
            (service.RemoveDeviceProfileByName Sample.svc "P" Sample.twoDevices).1.profiles "P"
          = none) :=
  ⟨(facade_removeDeviceProfileByName Sample.svcDown "P" Sample.twoDevices Sample.profileP
      rfl).1 Sample.refused rfl,
   ((facade_removeDeviceProfileByName Sample.svc "P" Sample.twoDevices Sample.profileP
      rfl).2 rfl).1,
   ((facade_removeDeviceProfileByName Sample.svc "P" Sample.twoDevices Sample.profileP
      rfl).2 rfl).2.1⟩

/-- C11. Façade local precondition failures have no effects: `AddDeviceProfile` and
`AddProvisionWatcher` called with a cached name return a DuplicateName error, and
`UpdateDeviceProfile`, `UpdateProvisionWatcher`, `RemoveDeviceProfileByName` and
`RemoveProvisionWatcher` called with a name that is not cached return an
entity-does-not-exist error; in each case the returned state is the input state, so
the cache is unchanged and no call (to the registry or anyone else) is recorded. -/
theorem facade_local_precondition_failures (s : service.DeviceService) (w : World) :
    (∀ (profile p : DeviceProfile), cache.ForName w.profiles profile.Name = some p →
        ∃ e, service.AddDeviceProfile s profile w = some (w, p.Id, some e)
          ∧ Kind e = .KindDuplicateName)
      ∧ (∀ (watcher pw : ProvisionWatcher), cache.ForName w.watchers watcher.Name = some pw →
        ∃ e, service.AddProvisionWatcher s watcher w = some (w, pw.Id, some e)
          ∧ Kind e = .KindDuplicateName)
      ∧ (∀ (profile : DeviceProfile), cache.ForName w.profiles profile.Name = none →
        ∃ e, service.UpdateDeviceProfile s profile w = (w, some e)
          ∧ Kind e = .KindEntityDoesNotExist)
      ∧ (∀ (watcher : ProvisionWatcher), cache.ForName w.watchers watcher.Name = none →
        ∃ e, service.UpdateProvisionWatcher s watcher w = (w, some e)
          ∧ Kind e = .KindEntityDoesNotExist)
      ∧ (∀ (n : String), cache.ForName w.profiles n = none →
        ∃ e, service.RemoveDeviceProfileByName s n w = (w, some e)
          ∧ Kind e = .KindEntityDoesNotExist)
      ∧ (∀ (n : String), cache.ForName w.watchers n = none →
        ∃ e, service.RemoveProvisionWatcher s n w = (w, some e)
          ∧ Kind e = .KindEntityDoesNotExist)
      ∧ (issued w w).filter Call.isRegistry = [] := by
  refine ⟨?_, ?_, ?_, ?_, ?_, ?_, ?_⟩
  · intro profile p h
    exact ⟨NewCommonEdgeX .KindDuplicateName ("模型名称 " ++ profile.Name ++ " 已存在") none,
      by simp only [service.AddDeviceProfile, h], rfl⟩
  · intro watcher pw h
    exact ⟨NewCommonEdgeX .KindDuplicateName
        ("ProvisionWatcher " ++ watcher.Name ++ " 已存在") none,
      by simp only [service.AddProvisionWatcher, h], rfl⟩
  · intro profile h
    exact ⟨NewCommonEdgeX .KindEntityDoesNotExist ("查找模型缓存 " ++ profile.Name ++ " 失") none,
      by simp only [service.UpdateDeviceProfile, h], rfl⟩
  · intro watcher h
    exact ⟨NewCommonEdgeX .KindEntityDoesNotExist
        ("查找ProvisionWatcher " ++ watcher.Name ++ " 缓存失败") none,
      by simp only [service.UpdateProvisionWatcher, h], rfl⟩
  · intro n h
    exact ⟨NewCommonEdgeX .KindEntityDoesNotExist ("查找模型缓存 " ++ n ++ " 失") none,
      by simp only [service.RemoveDeviceProfileByName, h], rfl⟩
  · intro n h
    exact ⟨NewCommonEdgeX .KindEntityDoesNotExist
        ("查找ProvisionWatcher " ++ n ++ " 缓存失败") none,
      by simp only [service.RemoveProvisionWatcher, h], rfl⟩
  · simp [issued]

theorem facade_local_precondition_failures_witness :
    (∃ e, service.AddDeviceProfile Sample.svc Sample.profileP Sample.oneWatcher
          = some (Sample.oneWatcher, "pid", some e) ∧ Kind e = .KindDuplicateName)
      ∧ (∃ e, service.AddProvisionWatcher Sample.svc Sample.watcherW Sample.oneWatcher
          = some (Sample.oneWatcher, "w-id", some e) ∧ Kind e = .KindDuplicateName)
      ∧ (∃ e, service.UpdateDeviceProfile Sample.svc Sample.profileP Sample.empty
          = (Sample.empty, some e) ∧ Kind e = .KindEntityDoesNotExist)
      ∧ (∃ e, service.UpdateProvisionWatcher Sample.svc Sample.watcherW Sample.empty
          = (Sample.empty, some e) ∧ Kind e = .KindEntityDoesNotExist)
      ∧ (∃ e, service.RemoveDeviceProfileByName Sample.svc "P" Sample.empty
          = (Sample.empty, some e) ∧ Kind e = .KindEntityDoesNotExist)
      ∧ (∃ e, service.RemoveProvisionWatcher Sample.svc "W" Sample.empty
          = (Sample.empty, some e) ∧ Kind e = .KindEntityDoesNotExist) :=
  ⟨(facade_local_precondition_failures Sample.svc Sample.oneWatcher).1
      Sample.profileP Sample.profileP rfl,
   (facade_local_precondition_failures Sample.svc Sample.oneWatcher).2.1
      Sample.watcherW Sample.watcherW rfl,
   (facade_local_precondition_failures Sample.svc Sample.empty).2.2.1 Sample.profileP rfl,
   (facade_local_precondition_failures Sample.svc Sample.empty).2.2.2.1 Sample.watcherW rfl,
   (facade_local_precondition_failures Sample.svc Sample.empty).2.2.2.2.1 "P" rfl,
   (facade_local_precondition_failures Sample.svc Sample.empty).2.2.2.2.2.1 "W" rfl⟩

/-! ## Lemmas on which names a store resolves -/

section ResolveLemmas

variable {α : Type} [Named α]

theorem ForName_isSome_iff (xs : List α) (n : String) :
    (cache.ForName xs n).isSome = true ↔ ∃ x ∈ xs, Named.name x = n := by
  simp [cache.ForName, List.find?_isSome]

theorem Add_ok {xs ps : List α} {e : α} (h : cache.Add xs e = .ok ps) : ps = xs ++ [e] := by
  unfold cache.Add at h
  split at h
  · cases h
  · cases h; rfl

theorem Update_ok {xs ps : List α} {e : α} (h : cache.Update xs e = .ok ps) :
    ps = xs.map (fun x => if Named.name x = Named.name e then e else x) := by
  unfold cache.Update at h
  split at h
  · cases h
  · cases h; rfl

theorem RemoveByName_ok {xs ps : List α} {n : String} (h : cache.RemoveByName xs n = .ok ps) :
    ps = xs.filter (fun x => !decide (Named.name x = n)) := by
  unfold cache.RemoveByName at h
  split at h
  · cases h
  · cases h; rfl

theorem isSome_append_single (xs : List α) (e : α) (m : String) :
    (cache.ForName (xs ++ [e]) m).isSome = true
      ↔ (cache.ForName xs m).isSome = true ∨ Named.name e = m := by
  simp only [ForName_isSome_iff, List.mem_append, List.mem_singleton]
  constructor
  · rintro ⟨x, hx | hx, hn⟩
    · exact Or.inl ⟨x, hx, hn⟩
    · exact Or.inr (hx ▸ hn)
  · rintro (⟨x, hx, hn⟩ | hn)
    · exact ⟨x, Or.inl hx, hn⟩
    · exact ⟨e, Or.inr rfl, hn⟩

theorem isSome_updated (xs : List α) (e : α) (m : String) :
    (cache.ForName (xs.map (fun x => if Named.name x = Named.name e then e else x)) m).isSome
        = true
      ↔ (cache.ForName xs m).isSome = true := by
  simp only [ForName_isSome_iff, List.mem_map]
  constructor
  · rintro ⟨y, ⟨x, hx, rfl⟩, hn⟩
    refine ⟨x, hx, ?_⟩
    by_cases hxe : Named.name x = Named.name e
    · rw [if_pos hxe] at hn; rw [hxe]; exact hn
    · rw [if_neg hxe] at hn; exact hn
  · rintro ⟨x, hx, hn⟩
    refine ⟨_, ⟨x, hx, rfl⟩, ?_⟩
    by_cases hxe : Named.name x = Named.name e
    · rw [if_pos hxe, ← hxe]; exact hn
    · rw [if_neg hxe]; exact hn

end ResolveLemmas

/-- Profile association never makes a resolvable profile name unresolvable. -/
theorem updateAssociatedProfile_mono (pn : String) (dic : Container) (w : World) (m : String)
    (hm : (cache.ForName w.profiles m).isSome = true) :
    (cache.ForName (application.updateAssociatedProfile pn dic w).1.profiles m).isSome
      = true := by
  simp only [application.updateAssociatedProfile, World.record]
  split
  · exact hm
  · split
    · split
      · exact hm
      · rename_i ps hadd
        simp only [Add_ok hadd]
        exact (isSome_append_single _ _ _).mpr (Or.inl hm)
    · split
      · exact hm
      · rename_i ps hupd
        simp only [Update_ok hupd]
        exact (isSome_updated _ _ _).mpr hm

/-- After a successful profile association with a registry that answers by name, the
requested profile name resolves. -/
theorem updateAssociatedProfile_resolves (pn : String) (dic : Container) (w : World)
    (hreg : FetchesByName dic.MetadataDeviceProfileClientFrom)
    (hok : (application.updateAssociatedProfile pn dic w).2 = none) :
    (cache.ForName (application.updateAssociatedProfile pn dic w).1.profiles pn).isSome
      = true := by
  revert hok
  simp only [application.updateAssociatedProfile, World.record]
  split
  · intro h; cases h
  · rename_i res hres
    have hname : res.Profile.Name = pn := hreg pn res hres
    split
    · split
      · intro h; cases h
      · rename_i ps hadd
        intro _
        simp only [Add_ok hadd]
        exact (isSome_append_single _ _ _).mpr (Or.inr hname)
    · rename_i p hp
      split
      · intro h; cases h
      · rename_i ps hupd
        intro _
        simp only [Update_ok hupd]
        refine (isSome_updated _ _ _).mpr ?_
        simp [hp]

/-! ## What each engine operation does to the three families -/

theorem AddDevice_families (req : AddDeviceRequest) (dic : Container) (w : World) :
    (application.AddDevice req dic w).1.profiles
        = (application.updateAssociatedProfile req.Device.ProfileName dic w).1.profiles
      ∧ (application.AddDevice req dic w).1.watchers = w.watchers
      ∧ ((application.AddDevice req dic w).1.devices = w.devices
        ∨ ((application.updateAssociatedProfile req.Device.ProfileName dic w).2 = none
          ∧ (application.AddDevice req dic w).1.devices = w.devices ++ [req.Device])) := by
  obtain ⟨-, hdev, hwat, -⟩ := updateAssociatedProfile_frame req.Device.ProfileName dic w
  simp only [application.AddDevice, ToDeviceModel, World.record]
  generalize application.updateAssociatedProfile req.Device.ProfileName dic w = r at hdev hwat ⊢
  obtain ⟨w1, e⟩ := r
  simp only at hdev hwat
  cases e with
  | some e => exact ⟨rfl, hwat, Or.inl hdev⟩
  | none =>
    simp only
    split
    · exact ⟨rfl, hwat, Or.inl hdev⟩
    · rename_i devs hadd
      have hdevs : devs = w.devices ++ [req.Device] := by rw [Add_ok hadd, hdev]
      split
      · exact ⟨rfl, hwat, Or.inr ⟨trivial, hdevs⟩⟩
      · exact ⟨rfl, hwat, Or.inr ⟨trivial, hdevs⟩⟩

theorem AddProvisionWatcher_families (req : AddProvisionWatcherRequest) (dic : Container)
    (w : World) :
    (application.AddProvisionWatcher req dic w).1.profiles
        = (application.updateAssociatedProfile req.ProvisionWatcher.ProfileName dic w).1.profiles
      ∧ (application.AddProvisionWatcher req dic w).1.devices = w.devices
      ∧ ((application.AddProvisionWatcher req dic w).1.watchers = w.watchers
        ∨ ((application.updateAssociatedProfile req.ProvisionWatcher.ProfileName dic w).2 = none
          ∧ (application.AddProvisionWatcher req dic w).1.watchers
              = w.watchers ++ [req.ProvisionWatcher]))
      ∧ (application.AddProvisionWatcher req dic w).1.calls
          = w.calls ++ [.DeviceProfileByName req.ProvisionWatcher.ProfileName] := by
  obtain ⟨hcalls, hdev, hwat, -⟩ :=
    updateAssociatedProfile_frame req.ProvisionWatcher.ProfileName dic w
  simp only [application.AddProvisionWatcher, ToProvisionWatcherModel]
  generalize application.updateAssociatedProfile req.ProvisionWatcher.ProfileName dic w = r
    at hcalls hdev hwat ⊢
  obtain ⟨w1, e⟩ := r
  simp only at hcalls hdev hwat
  cases e with
  | some e => exact ⟨rfl, hdev, Or.inl hwat, hcalls⟩
  | none =>
    simp only
    split
    · exact ⟨rfl, hdev, Or.inl hwat, hcalls⟩
    · rename_i pws hadd
      exact ⟨rfl, hdev, Or.inr ⟨trivial, by rw [Add_ok hadd, hwat]⟩, hcalls⟩

theorem DeleteDevice_absent (n : String) (dic : Container) (w : World)
    (hD : cache.ForName w.devices n = none) :
    application.DeleteDevice n dic w
      = (w, some (NewCommonEdgeX .KindInvalidId ("查找设备 " ++ n ++ " 失败") none)) := by
  simp only [application.DeleteDevice, hD]

theorem DeleteDevice_families (n : String) (dic : Container) (w : World) :
    (application.DeleteDevice n dic w).1.watchers = w.watchers
      ∧ (∀ d ∈ (application.DeleteDevice n dic w).1.devices, d ∈ w.devices)
      ∧ ((application.DeleteDevice n dic w).1.profiles = w.profiles
        ∨ ∃ D, cache.ForName w.devices n = some D
            ∧ cache.CheckProfileNotUsed (application.DeleteDevice n dic w).1.devices
                D.ProfileName = true
            ∧ (application.DeleteDevice n dic w).1.profiles
                = w.profiles.filter (fun x => !decide (Named.name x = D.ProfileName))) := by
  cases hD : cache.ForName w.devices n with
  | none =>
    rw [DeleteDevice_absent n dic w hD]
    exact ⟨rfl, fun d hd => hd, Or.inl rfl⟩
  | some D =>
    obtain ⟨hdev, -, hwat, -⟩ := DeleteDevice_of_cached n dic w D hD
    refine ⟨hwat, ?_, ?_⟩
    · intro d hd
      rw [hdev] at hd
      exact (List.mem_filter.mp hd).1
    · cases hdrv : dic.ProtocolDriverFrom.RemoveDevice n D.Protocols with
      | some err =>
        left
        have hname : D.Name = n := ForName_name hD
        simp [application.DeleteDevice, hD, World.record, cache.RemoveByName, hname, hdrv]
      | none =>
        have hprof := (DeleteDevice_driver_ok n dic w D hD hdrv).2
        rw [← hdev] at hprof
        by_cases hc : cache.CheckProfileNotUsed (application.DeleteDevice n dic w).1.devices
            D.ProfileName = true
        · rw [if_pos hc] at hprof
          exact Or.inr ⟨D, rfl, hc, hprof⟩
        · rw [if_neg hc] at hprof
          exact Or.inl hprof

/-- `DeleteDevice` keeps every cached device resolvable, and every cached watcher
whose profile name is not the deleted device's. -/
theorem DeleteDevice_preserves (n : String) (dic : Container) (w : World)
    (hinv : ProfilesResolve w) :
    DevicesResolve (application.DeleteDevice n dic w).1
      ∧ ∀ p ∈ (application.DeleteDevice n dic w).1.watchers,
          (∀ D, cache.ForName w.devices n = some D → p.ProfileName ≠ D.ProfileName) →
          (cache.ForName (application.DeleteDevice n dic w).1.profiles p.ProfileName).isSome
            = true := by
  obtain ⟨hwat, hsub, hprof⟩ := DeleteDevice_families n dic w
  constructor
  · intro d hd
    have hres := hinv.1 d (hsub d hd)
    rcases hprof with h | ⟨D, -, hc, h⟩
    · rw [h]; exact hres
    · rw [h, ForName_removed_other _ ((CheckProfileNotUsed_iff _ _).mp hc d hd)]
      exact hres
  · intro p hp hne
    rw [hwat] at hp
    have hres := hinv.2 p hp
    rcases hprof with h | ⟨D, hD, -, h⟩
    · rw [h]; exact hres
    · rw [h, ForName_removed_other _ (hne D hD)]
      exact hres

theorem AddDevice_preserves (req : AddDeviceRequest) (dic : Container) (w : World)
    (hreg : FetchesByName dic.MetadataDeviceProfileClientFrom) (hinv : ProfilesResolve w) :
    ProfilesResolve (application.AddDevice req dic w).1 := by
  obtain ⟨hprof, hwat, hdev⟩ := AddDevice_families req dic w
  constructor
  · intro d hd
    rw [hprof]
    rcases hdev with h | ⟨hok, h⟩
    · rw [h] at hd
      exact updateAssociatedProfile_mono _ _ _ _ (hinv.1 d hd)
    · rw [h] at hd
      rcases List.mem_append.mp hd with hd | hd
      · exact updateAssociatedProfile_mono _ _ _ _ (hinv.1 d hd)
      · rw [List.mem_singleton.mp hd]
        exact updateAssociatedProfile_resolves _ _ _ hreg hok
  · intro p hp
    rw [hprof]
    rw [hwat] at hp
    exact updateAssociatedProfile_mono _ _ _ _ (hinv.2 p hp)

theorem AddProvisionWatcher_preserves (req : AddProvisionWatcherRequest) (dic : Container)
    (w : World) (hreg : FetchesByName dic.MetadataDeviceProfileClientFrom)
    (hinv : ProfilesResolve w) :
    ProfilesResolve (application.AddProvisionWatcher req dic w).1 := by
  obtain ⟨hprof, hdev, hwat, -⟩ := AddProvisionWatcher_families req dic w
  constructor
  · intro d hd
    rw [hprof]
    rw [hdev] at hd
    exact updateAssociatedProfile_mono _ _ _ _ (hinv.1 d hd)
  · intro p hp
    rw [hprof]
    rcases hwat with h | ⟨hok, h⟩
    · rw [h] at hp
      exact updateAssociatedProfile_mono _ _ _ _ (hinv.2 p hp)
    · rw [h] at hp
      rcases List.mem_append.mp hp with hp | hp
      · exact updateAssociatedProfile_mono _ _ _ _ (hinv.2 p hp)
      · rw [List.mem_singleton.mp hp]
        exact updateAssociatedProfile_resolves _ _ _ hreg hok

theorem UpdateDevice_merge_families (lib : Patch) (req : UpdateDeviceRequest) (dic : Container)
    (w w2 : World) (r : Option Error) (n s : String) (D : Device)
    (hn : req.Device.Name = some n) (hs : req.Device.ServiceName = some s)
    (hD : cache.ForName w.devices n = some D) (hself : w.ds.Name = s)
    (h : application.UpdateDevice lib req dic w = some (w2, r)) :
    w2.profiles = (application.updateAssociatedProfile
        (lib.ReplaceDeviceModelFieldsWithDTO D req.Device).ProfileName dic w).1.profiles
      ∧ w2.watchers = w.watchers
      ∧ (w2.devices = w.devices
        ∨ ((application.updateAssociatedProfile
              (lib.ReplaceDeviceModelFieldsWithDTO D req.Device).ProfileName dic w).2 = none
          ∧ w2.devices = w.devices.map (fun x =>
              if Named.name x = Named.name (lib.ReplaceDeviceModelFieldsWithDTO D req.Device)
              then lib.ReplaceDeviceModelFieldsWithDTO D req.Device else x))) := by
  obtain ⟨-, hdev, hwat, -⟩ := updateAssociatedProfile_frame
    (lib.ReplaceDeviceModelFieldsWithDTO D req.Device).ProfileName dic w
  simp only [application.UpdateDevice, hn, hD, hs, hself, ne_eq, not_true_eq_false, if_false,
    World.record] at h
  generalize application.updateAssociatedProfile
    (lib.ReplaceDeviceModelFieldsWithDTO D req.Device).ProfileName dic w = r0 at hdev hwat h ⊢
  obtain ⟨w1, e⟩ := r0
  simp only at hdev hwat
  cases e with
  | some e =>
    simp only [Option.some.injEq, Prod.mk.injEq] at h
    obtain ⟨rfl, -⟩ := h
    exact ⟨rfl, hwat, Or.inl hdev⟩
  | none =>
    simp only at h
    split at h
    · simp only [Option.some.injEq, Prod.mk.injEq] at h
      obtain ⟨rfl, -⟩ := h
      exact ⟨rfl, hwat, Or.inl hdev⟩
    · rename_i devs hupd
      have hdevs := Update_ok hupd
      rw [hdev] at hdevs
      split at h
      · simp only [Option.some.injEq, Prod.mk.injEq] at h
        obtain ⟨rfl, -⟩ := h
        exact ⟨rfl, hwat, Or.inr ⟨rfl, hdevs⟩⟩
      · split at h
        · simp only [Option.some.injEq, Prod.mk.injEq] at h
          obtain ⟨rfl, -⟩ := h
          exact ⟨rfl, hwat, Or.inr ⟨rfl, hdevs⟩⟩
        · simp only [Option.some.injEq, Prod.mk.injEq] at h
          obtain ⟨rfl, -⟩ := h
          exact ⟨rfl, hwat, Or.inr ⟨rfl, hdevs⟩⟩

theorem UpdateDevice_preserves (lib : Patch) (req : UpdateDeviceRequest) (dic : Container)
    (w w2 : World) (r : Option Error)
    (hreg : FetchesByName dic.MetadataDeviceProfileClientFrom) (hinv : ProfilesResolve w)
    (h : application.UpdateDevice lib req dic w = some (w2, r)) :
    DevicesResolve w2
      ∧ (WatchersResolve w2
        ∨ ∃ n s D, req.Device.Name = some n ∧ req.Device.ServiceName = some s
            ∧ cache.ForName w.devices n = some D ∧ w.ds.Name ≠ s
            ∧ (w2, r) = application.DeleteDevice n dic w) := by
  cases hn : req.Device.Name with
  | none => simp [application.UpdateDevice, hn] at h
  | some n =>
    cases hs : req.Device.ServiceName with
    | none =>
      cases hD : cache.ForName w.devices n <;> simp [application.UpdateDevice, hn, hs, hD] at h
    | some s =>
      cases hD : cache.ForName w.devices n with
      | none =>
        by_cases hself : w.ds.Name = s
        · simp only [application.UpdateDevice, hn, hD, hs, hself, if_true, Option.some.injEq] at h
          have hp := AddDevice_preserves (NewAddDeviceRequest (FromDeviceModelToDTO
            (lib.ReplaceDeviceModelFieldsWithDTO Device.zero req.Device))) dic w hreg hinv
          rw [h] at hp
          exact ⟨hp.1, Or.inl hp.2⟩
        · simp only [application.UpdateDevice, hn, hD, hs, hself, if_false, Option.some.injEq,
            Prod.mk.injEq] at h
          obtain ⟨rfl, -⟩ := h
          exact ⟨hinv.1, Or.inl hinv.2⟩
      | some D =>
        by_cases hself : w.ds.Name = s
        · obtain ⟨hprof, hwat, hdev⟩ :=
            UpdateDevice_merge_families lib req dic w w2 r n s D hn hs hD hself h
          constructor
          · intro d hd
            rw [hprof]
            rcases hdev with hd2 | ⟨hok, hd2⟩
            · rw [hd2] at hd
              exact updateAssociatedProfile_mono _ _ _ _ (hinv.1 d hd)
            · rw [hd2] at hd
              obtain ⟨x, hx, hxd⟩ := List.mem_map.mp hd
              by_cases hxe : Named.name x
                  = Named.name (lib.ReplaceDeviceModelFieldsWithDTO D req.Device)
              · rw [if_pos hxe] at hxd
                rw [← hxd]
                exact updateAssociatedProfile_resolves _ _ _ hreg hok
              · rw [if_neg hxe] at hxd
                rw [← hxd]
                exact updateAssociatedProfile_mono _ _ _ _ (hinv.1 x hx)
          · left
            intro p hp
            rw [hprof]
            rw [hwat] at hp
            exact updateAssociatedProfile_mono _ _ _ _ (hinv.2 p hp)
        · have hne : w.ds.Name ≠ s := hself
          simp only [application.UpdateDevice, hn, hD, hs, hne, ne_eq, not_false_eq_true,
            if_true, Option.some.injEq] at h
          refine ⟨?_, Or.inr ⟨n, s, D, rfl, rfl, hD, hne, h.symm⟩⟩
          have := (DeleteDevice_preserves n dic w hinv).1
          rw [h] at this
          exact this

theorem DeleteProvisionWatcher_families (n : String) (w : World) :
    (application.DeleteProvisionWatcher n w).1.profiles = w.profiles
      ∧ (application.DeleteProvisionWatcher n w).1.devices = w.devices
      ∧ (application.DeleteProvisionWatcher n w).1.calls = w.calls
      ∧ ∀ p ∈ (application.DeleteProvisionWatcher n w).1.watchers, p ∈ w.watchers := by
  simp only [application.DeleteProvisionWatcher]
  split
  · exact ⟨rfl, rfl, rfl, fun p hp => hp⟩
  · rename_i pws hrem
    refine ⟨rfl, rfl, rfl, ?_⟩
    intro p hp
    simp only [RemoveByName_ok hrem] at hp
    exact (List.mem_filter.mp hp).1

theorem DeleteProvisionWatcher_preserves (n : String) (w : World) (hinv : ProfilesResolve w) :
    ProfilesResolve (application.DeleteProvisionWatcher n w).1 := by
  obtain ⟨hprof, hdev, -, hsub⟩ := DeleteProvisionWatcher_families n w
  constructor
  · intro d hd
    rw [hprof]
    rw [hdev] at hd
    exact hinv.1 d hd
  · intro p hp
    rw [hprof]
    exact hinv.2 p (hsub p hp)

theorem UpdateProfile_families (req : DeviceProfileRequest) (w : World) :
    (application.UpdateProfile req w).1.devices = w.devices
      ∧ (application.UpdateProfile req w).1.watchers = w.watchers
      ∧ (application.UpdateProfile req w).1.calls = w.calls
      ∧ ((application.UpdateProfile req w).1.profiles = w.profiles
        ∨ (application.UpdateProfile req w).1.profiles
            = w.profiles.map (fun x =>
                if Named.name x = Named.name req.Profile then req.Profile else x)) := by
  simp only [application.UpdateProfile, ToDeviceProfileModel]
  split
  · exact ⟨rfl, rfl, rfl, Or.inl rfl⟩
  · split
    · exact ⟨rfl, rfl, rfl, Or.inl rfl⟩
    · rename_i ps hupd
      exact ⟨rfl, rfl, rfl, Or.inr (Update_ok hupd)⟩

theorem UpdateProfile_preserves (req : DeviceProfileRequest) (w : World)
    (hinv : ProfilesResolve w) :
    ProfilesResolve (application.UpdateProfile req w).1 := by
  obtain ⟨hdev, hwat, -, hprof⟩ := UpdateProfile_families req w
  have key : ∀ m, (cache.ForName w.profiles m).isSome = true →
      (cache.ForName (application.UpdateProfile req w).1.profiles m).isSome = true := by
    intro m hm
    rcases hprof with h | h
    · rw [h]; exact hm
    · rw [h]; exact (isSome_updated _ _ _).mpr hm
  constructor
  · intro d hd
    rw [hdev] at hd
    exact key _ (hinv.1 d hd)
  · intro p hp
    rw [hwat] at hp
    exact key _ (hinv.2 p hp)

theorem UpdateProvisionWatcher_merge_families (lib : Patch)
    (req : UpdateProvisionWatcherRequest) (dic : Container) (w w2 : World) (r : Option Error)
    (n s : String) (P : ProvisionWatcher)
    (hn : req.ProvisionWatcher.Name = some n) (hs : req.ProvisionWatcher.ServiceName = some s)
    (hP : cache.ForName w.watchers n = some P) (hself : w.ds.Name = s)
    (h : application.UpdateProvisionWatcher lib req dic w = some (w2, r)) :
    w2.profiles = (application.updateAssociatedProfile
        (lib.ReplaceProvisionWatcherModelFieldsWithDTO P req.ProvisionWatcher).ProfileName
        dic w).1.profiles
      ∧ w2.devices = w.devices
      ∧ w2.calls = w.calls ++ [.DeviceProfileByName
          (lib.ReplaceProvisionWatcherModelFieldsWithDTO P req.ProvisionWatcher).ProfileName]
      ∧ (w2.watchers = w.watchers
        ∨ ((application.updateAssociatedProfile
              (lib.ReplaceProvisionWatcherModelFieldsWithDTO P req.ProvisionWatcher).ProfileName
              dic w).2 = none
          ∧ r = none
          ∧ w2.watchers = w.watchers.map (fun x =>
              if Named.name x
                  = Named.name (lib.ReplaceProvisionWatcherModelFieldsWithDTO P
                      req.ProvisionWatcher)
              then lib.ReplaceProvisionWatcherModelFieldsWithDTO P req.ProvisionWatcher
              else x))) := by
  obtain ⟨hcalls, hdev, hwat, -⟩ := updateAssociatedProfile_frame
    (lib.ReplaceProvisionWatcherModelFieldsWithDTO P req.ProvisionWatcher).ProfileName dic w
  simp only [application.UpdateProvisionWatcher, hn, hP, hs, hself, ne_eq, not_true_eq_false,
    if_false] at h
  generalize application.updateAssociatedProfile
    (lib.ReplaceProvisionWatcherModelFieldsWithDTO P req.ProvisionWatcher).ProfileName dic w
    = r0 at hcalls hdev hwat h ⊢
  obtain ⟨w1, e⟩ := r0
  simp only at hcalls hdev hwat
  cases e with
  | some e =>
    simp only [Option.some.injEq, Prod.mk.injEq] at h
    obtain ⟨rfl, -⟩ := h
    exact ⟨rfl, hdev, hcalls, Or.inl hwat⟩
  | none =>
    simp only at h
    split at h
    · simp only [Option.some.injEq, Prod.mk.injEq] at h
      obtain ⟨rfl, -⟩ := h
      exact ⟨rfl, hdev, hcalls, Or.inl hwat⟩
    · rename_i pws hupd
      have hpws := Update_ok hupd
      rw [hwat] at hpws
      simp only [Option.some.injEq, Prod.mk.injEq] at h
      obtain ⟨rfl, rfl⟩ := h
      exact ⟨rfl, hdev, hcalls, Or.inr ⟨rfl, rfl, hpws⟩⟩

theorem UpdateProvisionWatcher_preserves (lib : Patch) (req : UpdateProvisionWatcherRequest)
    (dic : Container) (w w2 : World) (r : Option Error)
    (hreg : FetchesByName dic.MetadataDeviceProfileClientFrom) (hinv : ProfilesResolve w)
    (h : application.UpdateProvisionWatcher lib req dic w = some (w2, r)) :
    ProfilesResolve w2 := by
  cases hn : req.ProvisionWatcher.Name with
  | none => simp [application.UpdateProvisionWatcher, hn] at h
  | some n =>
    cases hs : req.ProvisionWatcher.ServiceName with
    | none =>
      cases hP : cache.ForName w.watchers n <;>
        simp [application.UpdateProvisionWatcher, hn, hs, hP] at h
    | some s =>
      cases hP : cache.ForName w.watchers n with
      | none =>
        by_cases hself : w.ds.Name = s
        · simp only [application.UpdateProvisionWatcher, hn, hP, hs, hself, if_true,
            Option.some.injEq] at h
          have hp := AddProvisionWatcher_preserves (NewAddProvisionWatcherRequest
            (FromProvisionWatcherModelToDTO (lib.ReplaceProvisionWatcherModelFieldsWithDTO
              ProvisionWatcher.zero req.ProvisionWatcher))) dic w hreg hinv
          rw [h] at hp
          exact hp
        · simp only [application.UpdateProvisionWatcher, hn, hP, hs, hself, if_false,
            Option.some.injEq, Prod.mk.injEq] at h
          obtain ⟨rfl, -⟩ := h
          exact hinv
      | some P =>
        by_cases hself : w.ds.Name = s
        · obtain ⟨hprof, hdev, -, hwat⟩ :=
            UpdateProvisionWatcher_merge_families lib req dic w w2 r n s P hn hs hP hself h
          constructor
          · intro d hd
            rw [hprof]
            rw [hdev] at hd
            exact updateAssociatedProfile_mono _ _ _ _ (hinv.1 d hd)
          · intro p hp
            rw [hprof]
            rcases hwat with hw2 | ⟨hok, -, hw2⟩
            · rw [hw2] at hp
              exact updateAssociatedProfile_mono _ _ _ _ (hinv.2 p hp)
            · rw [hw2] at hp
              obtain ⟨x, hx, hxp⟩ := List.mem_map.mp hp
              by_cases hxe : Named.name x
                  = Named.name (lib.ReplaceProvisionWatcherModelFieldsWithDTO P
                      req.ProvisionWatcher)
              · rw [if_pos hxe] at hxp
                rw [← hxp]
                exact updateAssociatedProfile_resolves _ _ _ hreg hok
              · rw [if_neg hxe] at hxp
                rw [← hxp]
                exact updateAssociatedProfile_mono _ _ _ _ (hinv.2 x hx)
        · have hne : w.ds.Name ≠ s := hself
          simp only [application.UpdateProvisionWatcher, hn, hP, hs, hne, ne_eq,
            not_false_eq_true, if_true, Option.some.injEq] at h
          have := DeleteProvisionWatcher_preserves n w hinv
          rw [h] at this
          exact this

/-! ## The profile-resolution invariant -/

theorem Sample.profileClient_fetchesByName : FetchesByName Sample.profileClient := by
  intro n res h
  simp only [Sample.profileClient] at h
  split at h
  · rename_i hn
    cases h
    exact hn.symm
  · cases h

/-- C12, as stated, fails. With device `A` and watcher `W` both on profile `P`, the
invariant holds, `DeleteDevice` of `A` succeeds and reclaims `P` because no Device
references it any more, and watcher `W` is left with a profile name that does not
resolve. It also fails when the registry answers a fetch of `P` with a profile of
another name: `AddDevice` then caches the device without its profile. -/
theorem engine_profile_resolution_broken :
    (ProfilesResolve Sample.deviceAndWatcher
        ∧ (application.DeleteDevice "A" Sample.dic Sample.deviceAndWatcher).2 = none
        ∧ (application.DeleteDevice "A" Sample.dic Sample.deviceAndWatcher).1.watchers
            = [Sample.watcherW]
        ∧ cache.ForName
            (application.DeleteDevice "A" Sample.dic Sample.deviceAndWatcher).1.profiles "P"
            = none
        ∧ ¬ ProfilesResolve (application.DeleteDevice "A" Sample.dic Sample.deviceAndWatcher).1)
      ∧ (ProfilesResolve Sample.empty
        ∧ (application.AddDevice { Device := Sample.deviceA } Sample.dicQ Sample.empty).2 = none
        ∧ ¬ ProfilesResolve
            (application.AddDevice { Device := Sample.deviceA } Sample.dicQ Sample.empty).1) :=
  ⟨⟨by decide, rfl, rfl, rfl, by decide⟩, by decide, rfl, by decide⟩

/-- C12, amended. If every cached Device and every cached Provision Watcher has a
profile name that resolves to a cached Profile, and the registry answers a fetch by
name with the profile of that name, then the same holds after `AddDevice`,
`AddProvisionWatcher`, `UpdateProvisionWatcher`, `DeleteProvisionWatcher`,
`UpdateProfile`, and `UpdateDevice` outside its migration-out path; after
`DeleteDevice` (and the migration-out path of `UpdateDevice`, which is `DeleteDevice`)
every cached Device still resolves, and so does every cached Provision Watcher whose
profile name is not the deleted device's. -/
theorem engine_profile_resolution (lib : Patch) (dic : Container) (w : World)
    (hreg : FetchesByName dic.MetadataDeviceProfileClientFrom) (hinv : ProfilesResolve w) :
    (∀ req, ProfilesResolve (application.AddDevice req dic w).1)
      ∧ (∀ req w2 r, application.UpdateDevice lib req dic w = some (w2, r) →
          DevicesResolve w2
            ∧ (WatchersResolve w2
              ∨ ∃ n s D, req.Device.Name = some n ∧ req.Device.ServiceName = some s
                  ∧ cache.ForName w.devices n = some D ∧ w.ds.Name ≠ s
                  ∧ (w2, r) = application.DeleteDevice n dic w))
      ∧ (∀ n, DevicesResolve (application.DeleteDevice n dic w).1
          ∧ ∀ p ∈ (application.DeleteDevice n dic w).1.watchers,
              (∀ D, cache.ForName w.devices n = some D → p.ProfileName ≠ D.ProfileName) →
              (cache.ForName (application.DeleteDevice n dic w).1.profiles
                p.ProfileName).isSome = true)
      ∧ (∀ req, ProfilesResolve (application.AddProvisionWatcher req dic w).1)
      ∧ (∀ req w2 r, application.UpdateProvisionWatcher lib req dic w = some (w2, r) →
          ProfilesResolve w2)
      ∧ (∀ n, ProfilesResolve (application.DeleteProvisionWatcher n w).1)
      ∧ (∀ req, ProfilesResolve (application.UpdateProfile req w).1) :=
  ⟨fun req => AddDevice_preserves req dic w hreg hinv,
   fun req w2 r h => UpdateDevice_preserves lib req dic w w2 r hreg hinv h,
   fun n => DeleteDevice_preserves n dic w hinv,
   fun req => AddProvisionWatcher_preserves req dic w hreg hinv,
   fun req w2 r h => UpdateProvisionWatcher_preserves lib req dic w w2 r hreg hinv h,
   fun n => DeleteProvisionWatcher_preserves n w hinv,
   fun req => UpdateProfile_preserves req w hinv⟩

theorem engine_profile_resolution_witness :
    ProfilesResolve Sample.deviceAndWatcher
      ∧ ProfilesResolve
          (application.AddDevice { Device := Sample.deviceB } Sample.dic
            Sample.deviceAndWatcher).1
      ∧ DevicesResolve (application.DeleteDevice "A" Sample.dic Sample.deviceAndWatcher).1
      ∧ ProfilesResolve (application.DeleteProvisionWatcher "W" Sample.deviceAndWatcher).1 :=
  ⟨by decide,
   (engine_profile_resolution Patch.fieldwise Sample.dic Sample.deviceAndWatcher
      Sample.profileClient_fetchesByName (by decide)).1 { Device := Sample.deviceB },
   ((engine_profile_resolution Patch.fieldwise Sample.dic Sample.deviceAndWatcher
      Sample.profileClient_fetchesByName (by decide)).2.2.1 "A").1,
   (engine_profile_resolution Patch.fieldwise Sample.dic Sample.deviceAndWatcher
      Sample.profileClient_fetchesByName (by decide)).2.2.2.2.2.1 "W"⟩

/-! ## Profile association -/

/-- C13. Profile association is last-fetch-wins: when the registry returns the profile
for name `n`, `updateAssociatedProfile n` succeeds and the cache entry for `n` is
exactly the fetched copy (appended if `n` was absent, overwriting the cached one with
no merge otherwise), while the lookup of every other profile name and the other two
families are unchanged; when the registry fetch fails an error is returned and the
three families are unchanged. -/
theorem updateAssociatedProfile_last_fetch_wins (n : String) (dic : Container) (w : World) :
    (∀ res, dic.MetadataDeviceProfileClientFrom.DeviceProfileByName n = .ok res →
        res.Profile.Name = n →
        ∃ w1, application.updateAssociatedProfile n dic w = (w1, none)
          ∧ cache.ForName w1.profiles n = some (ToDeviceProfileModel res.Profile)
          ∧ (cache.ForName w.profiles n = none →
              w1.profiles = w.profiles ++ [ToDeviceProfileModel res.Profile])
          ∧ (∀ m, m ≠ n → cache.ForName w1.profiles m = cache.ForName w.profiles m)
          ∧ w1.devices = w.devices ∧ w1.watchers = w.watchers)
      ∧ (∀ err, dic.MetadataDeviceProfileClientFrom.DeviceProfileByName n = .error err →
        ∃ w1 e, application.updateAssociatedProfile n dic w = (w1, some e)
          ∧ Kind e = .KindInvalidId
          ∧ w1.profiles = w.profiles ∧ w1.devices = w.devices ∧ w1.watchers = w.watchers) := by
  constructor
  · intro res hres hname
    cases hp : cache.ForName w.profiles n with
    | none =>
      have hp2 : cache.ForName w.profiles res.Profile.Name = none := by rw [hname]; exact hp
      refine ⟨{ w with profiles := w.profiles ++ [res.Profile],
                       calls := w.calls ++ [.DeviceProfileByName n] }, ?_, ?_, ?_, ?_, rfl, rfl⟩
      · simp [application.updateAssociatedProfile, hres, World.record, hp, cache.Add,
          ToDeviceProfileModel, Named.name, hp2]
      · simp [ForName_append_single, hp, Named.name, hname, ToDeviceProfileModel]
      · intro _; rfl
      · intro m hm
        have hne : ¬ res.Profile.Name = m := fun h => hm (h.symm.trans hname)
        simp [ForName_append_single, Named.name, hne]
    | some p =>
      have hp2 : cache.ForName w.profiles res.Profile.Name = some p := by rw [hname]; exact hp
      refine ⟨{ w with profiles := w.profiles.map (fun x =>
                         if Named.name x = Named.name res.Profile then res.Profile else x),
                       calls := w.calls ++ [.DeviceProfileByName n] }, ?_, ?_, ?_, ?_, rfl, rfl⟩
      · simp [application.updateAssociatedProfile, hres, World.record, hp, cache.Update,
          ToDeviceProfileModel, Named.name, hp2]
      · exact ForName_updated w.profiles res.Profile hname (by simp [hp])
      · intro h; cases h
      · intro m hm
        exact ForName_updated_other w.profiles res.Profile
          (fun h => hm (h.trans hname))
  · intro err herr
    exact ⟨w.record (.DeviceProfileByName n),
      NewCommonEdgeX .KindInvalidId ("从元数据服务获取模型 " ++ n ++ " 失败") (some err),
      by simp [application.updateAssociatedProfile, herr], rfl, rfl, rfl, rfl⟩

theorem updateAssociatedProfile_last_fetch_wins_witness :
    (∃ w1, application.updateAssociatedProfile "P" Sample.dic2 Sample.twoDevices = (w1, none)
        ∧ cache.ForName w1.profiles "P" = some Sample.profileP2
        ∧ (cache.ForName Sample.twoDevices.profiles "P" = none →
            w1.profiles = Sample.twoDevices.profiles ++ [Sample.profileP2])
        ∧ (∀ m, m ≠ "P" →
            cache.ForName w1.profiles m = cache.ForName Sample.twoDevices.profiles m)
        ∧ w1.devices = Sample.twoDevices.devices ∧ w1.watchers = Sample.twoDevices.watchers)
      ∧ (∃ w1 e, application.updateAssociatedProfile "Z" Sample.dic2 Sample.twoDevices
            = (w1, some e)
          ∧ Kind e = .KindInvalidId
          ∧ w1.profiles = Sample.twoDevices.profiles ∧ w1.devices = Sample.twoDevices.devices
          ∧ w1.watchers = Sample.twoDevices.watchers) :=
  ⟨(updateAssociatedProfile_last_fetch_wins "P" Sample.dic2 Sample.twoDevices).1
      { Profile := Sample.profileP2 } rfl rfl,
   (updateAssociatedProfile_last_fetch_wins "Z" Sample.dic2 Sample.twoDevices).2
      (.common .KindEntityDoesNotExist "no such profile") rfl⟩

/-! ## Calls made by the device operations -/

theorem AddDevice_success_calls (req : AddDeviceRequest) (dic : Container) (w w2 : World)
    (h : application.AddDevice req dic w = (w2, none)) :
    w2.calls = w.calls ++
      [.DeviceProfileByName req.Device.ProfileName,
       .DriverAddDevice req.Device.Name req.Device.Protocols req.Device.AdminState,
       .RestartForDevice req.Device.Name] := by
  obtain ⟨hcalls, -, -, -⟩ := updateAssociatedProfile_frame req.Device.ProfileName dic w
  simp only [application.AddDevice, ToDeviceModel, World.record] at h
  generalize application.updateAssociatedProfile req.Device.ProfileName dic w = r at hcalls h
  obtain ⟨w1, e⟩ := r
  simp only at hcalls
  cases e with
  | some e => simp at h
  | none =>
    simp only at h
    split at h
    · simp at h
    · split at h
      · simp at h
      · simp only [Prod.mk.injEq, and_true] at h
        rw [← h]
        simp [hcalls]

theorem DeleteDevice_success_calls (n : String) (dic : Container) (w w2 : World)
    (h : application.DeleteDevice n dic w = (w2, none)) :
    ∃ D, cache.ForName w.devices n = some D
      ∧ w2.calls = w.calls ++ [.StopForDevice n, .DriverRemoveDevice n D.Protocols] := by
  cases hD : cache.ForName w.devices n with
  | none =>
    rw [DeleteDevice_absent n dic w hD] at h
    simp at h
  | some D =>
    have := (DeleteDevice_of_cached n dic w D hD).2.1
    rw [h] at this
    exact ⟨D, rfl, this⟩

theorem UpdateDevice_merge_success_calls (lib : Patch) (req : UpdateDeviceRequest)
    (dic : Container) (w w2 : World) (n s : String) (D : Device)
    (hn : req.Device.Name = some n) (hs : req.Device.ServiceName = some s)
    (hD : cache.ForName w.devices n = some D) (hself : w.ds.Name = s)
    (h : application.UpdateDevice lib req dic w = some (w2, none)) :
    w2.calls = w.calls ++
      [.DeviceProfileByName (lib.ReplaceDeviceModelFieldsWithDTO D req.Device).ProfileName,
       .DriverUpdateDevice (lib.ReplaceDeviceModelFieldsWithDTO D req.Device).Name
         (lib.ReplaceDeviceModelFieldsWithDTO D req.Device).Protocols
         (lib.ReplaceDeviceModelFieldsWithDTO D req.Device).AdminState,
       if (lib.ReplaceDeviceModelFieldsWithDTO D req.Device).AdminState = Locked
       then .StopForDevice (lib.ReplaceDeviceModelFieldsWithDTO D req.Device).Name
       else .RestartForDevice (lib.ReplaceDeviceModelFieldsWithDTO D req.Device).Name] := by
  obtain ⟨hcalls, -, -, -⟩ := updateAssociatedProfile_frame
    (lib.ReplaceDeviceModelFieldsWithDTO D req.Device).ProfileName dic w
  simp only [application.UpdateDevice, hn, hD, hs, hself, ne_eq, not_true_eq_false, if_false,
    World.record] at h
  generalize application.updateAssociatedProfile
    (lib.ReplaceDeviceModelFieldsWithDTO D req.Device).ProfileName dic w = r0 at hcalls h
  obtain ⟨w1, e⟩ := r0
  simp only at hcalls
  cases e with
  | some e => simp at h
  | none =>
    simp only at h
    split at h
    · simp at h
    · split at h
      · simp at h
      · split at h
        · rename_i hl
          simp only [Option.some.injEq, Prod.mk.injEq, and_true] at h
          rw [← h]
          simp [hcalls, hl]
        · rename_i hl
          simp only [Option.some.injEq, Prod.mk.injEq, and_true] at h
          rw [← h]
          simp [hcalls, hl]

theorem scheduler_of_calls (w w2 : World) (l : List Call) (h : w2.calls = w.calls ++ l) :
    (issued w w2).filter Call.isScheduler = l.filter Call.isScheduler := by
  rw [issued_append w w2 l h]

/-- C14. Exactly one scheduler decision per accepted transition: a successful
`AddDevice` makes exactly one scheduler call, `RestartForDevice` of the device; a
successful `DeleteDevice` exactly one, `StopForDevice` of the device; a successful
`UpdateDevice` exactly one: a restart of the synthesized device on migration-in, a
stop of the device on migration-out, and on the merge path a stop when the merged
admin state is Locked and a restart otherwise. -/
theorem one_scheduler_decision (lib : Patch) (dic : Container) (w w2 : World) :
    (∀ req, application.AddDevice req dic w = (w2, none) →
        (issued w w2).filter Call.isScheduler = [.RestartForDevice req.Device.Name])
      ∧ (∀ n, application.DeleteDevice n dic w = (w2, none) →
        (issued w w2).filter Call.isScheduler = [.StopForDevice n])
      ∧ (∀ req, application.UpdateDevice lib req dic w = some (w2, none) →
        ∃ n s, req.Device.Name = some n ∧ req.Device.ServiceName = some s
          ∧ ((cache.ForName w.devices n = none ∧ w.ds.Name = s
              ∧ (issued w w2).filter Call.isScheduler
                  = [.RestartForDevice (Spec.synthesizeDevice lib req.Device).Name])
            ∨ (∃ D, cache.ForName w.devices n = some D ∧ w.ds.Name ≠ s
              ∧ (issued w w2).filter Call.isScheduler = [.StopForDevice n])
            ∨ (∃ D, cache.ForName w.devices n = some D ∧ w.ds.Name = s
              ∧ (((lib.ReplaceDeviceModelFieldsWithDTO D req.Device).AdminState = Locked
                  ∧ (issued w w2).filter Call.isScheduler
                      = [.StopForDevice (lib.ReplaceDeviceModelFieldsWithDTO D req.Device).Name])
                ∨ ((lib.ReplaceDeviceModelFieldsWithDTO D req.Device).AdminState ≠ Locked
                  ∧ (issued w w2).filter Call.isScheduler
                      = [.RestartForDevice
                          (lib.ReplaceDeviceModelFieldsWithDTO D req.Device).Name]))))) := by
  refine ⟨?_, ?_, ?_⟩
  · intro req h
    rw [scheduler_of_calls w w2 _ (AddDevice_success_calls req dic w w2 h)]
    simp [List.filter, Call.isScheduler]
  · intro n h
    obtain ⟨D, -, hc⟩ := DeleteDevice_success_calls n dic w w2 h
    rw [scheduler_of_calls w w2 _ hc]
    simp [List.filter, Call.isScheduler]
  · intro req h
    cases hn : req.Device.Name with
    | none => simp [application.UpdateDevice, hn] at h
    | some n =>
      cases hs : req.Device.ServiceName with
      | none =>
        cases hD : cache.ForName w.devices n <;> simp [application.UpdateDevice, hn, hs, hD] at h
      | some s =>
        refine ⟨n, s, rfl, rfl, ?_⟩
        cases hD : cache.ForName w.devices n with
        | none =>
          left
          by_cases hself : w.ds.Name = s
          · simp only [application.UpdateDevice, hn, hD, hs, hself, if_true,
              Option.some.injEq] at h
            refine ⟨rfl, hself, ?_⟩
            rw [scheduler_of_calls w w2 _ (AddDevice_success_calls _ dic w w2 h)]
            simp [List.filter, Call.isScheduler, NewAddDeviceRequest, FromDeviceModelToDTO,
              Spec.synthesizeDevice]
          · simp [application.UpdateDevice, hn, hD, hs, hself] at h
        | some D =>
          right
          by_cases hself : w.ds.Name = s
          · right
            refine ⟨D, rfl, hself, ?_⟩
            have hc := UpdateDevice_merge_success_calls lib req dic w w2 n s D hn hs hD hself h
            rw [scheduler_of_calls w w2 _ hc]
            by_cases hl : (lib.ReplaceDeviceModelFieldsWithDTO D req.Device).AdminState = Locked
            · left
              exact ⟨hl, by simp [List.filter, Call.isScheduler, hl]⟩
            · right
              exact ⟨hl, by simp [List.filter, Call.isScheduler, hl]⟩
          · left
            have hne : w.ds.Name ≠ s := hself
            simp only [application.UpdateDevice, hn, hD, hs, hne, ne_eq, not_false_eq_true,
              if_true, Option.some.injEq] at h
            obtain ⟨D2, -, hc⟩ := DeleteDevice_success_calls n dic w w2 h
            refine ⟨D, rfl, hne, ?_⟩
            rw [scheduler_of_calls w w2 _ hc]
            simp [List.filter, Call.isScheduler]

theorem one_scheduler_decision_witness :
    (issued Sample.empty Sample.afterAddA).filter Call.isScheduler = [.RestartForDevice "A"]
      ∧ (issued Sample.twoDevices Sample.afterA).filter Call.isScheduler
          = [.StopForDevice "A"]
      ∧ ∃ n s, Sample.lockA.Device.Name = some n ∧ Sample.lockA.Device.ServiceName = some s
          ∧ ((cache.ForName Sample.twoDevices.devices n = none ∧ Sample.twoDevices.ds.Name = s
              ∧ (issued Sample.twoDevices Sample.afterLockA).filter Call.isScheduler
                  = [.RestartForDevice
                      (Spec.synthesizeDevice Patch.fieldwise Sample.lockA.Device).Name])
            ∨ (∃ D, cache.ForName Sample.twoDevices.devices n = some D
              ∧ Sample.twoDevices.ds.Name ≠ s
              ∧ (issued Sample.twoDevices Sample.afterLockA).filter Call.isScheduler
                  = [.StopForDevice n])
            ∨ (∃ D, cache.ForName Sample.twoDevices.devices n = some D
              ∧ Sample.twoDevices.ds.Name = s
              ∧ (((Patch.fieldwise.ReplaceDeviceModelFieldsWithDTO D
                      Sample.lockA.Device).AdminState = Locked
                  ∧ (issued Sample.twoDevices Sample.afterLockA).filter Call.isScheduler
                      = [.StopForDevice (Patch.fieldwise.ReplaceDeviceModelFieldsWithDTO D
                          Sample.lockA.Device).Name])
                ∨ ((Patch.fieldwise.ReplaceDeviceModelFieldsWithDTO D
                      Sample.lockA.Device).AdminState ≠ Locked
                  ∧ (issued Sample.twoDevices Sample.afterLockA).filter Call.isScheduler
                      = [.RestartForDevice (Patch.fieldwise.ReplaceDeviceModelFieldsWithDTO D
                          Sample.lockA.Device).Name])))) :=
  ⟨(one_scheduler_decision Patch.fieldwise Sample.dic Sample.empty Sample.afterAddA).1
      { Device := Sample.deviceA } rfl,
   (one_scheduler_decision Patch.fieldwise Sample.dic Sample.twoDevices Sample.afterA).2.1
      "A" rfl,
   (one_scheduler_decision Patch.fieldwise Sample.dic Sample.twoDevices Sample.afterLockA).2.2
      Sample.lockA rfl⟩

/-! ## Failure paths of the device operations -/

theorem Add_ok_absent {α : Type} [Named α] {xs ps : List α} {e : α}
    (h : cache.Add xs e = .ok ps) : cache.ForName xs (Named.name e) = none := by
  unfold cache.Add at h
  split at h
  · cases h
  · rename_i hnone; exact hnone

theorem Update_ok_present {α : Type} [Named α] {xs ps : List α} {e : α}
    (h : cache.Update xs e = .ok ps) : (cache.ForName xs (Named.name e)).isSome = true := by
  unfold cache.Update at h
  split at h
  · cases h
  · rename_i x hsome; simp [hsome]

/-- C15. Driver-callback failure is not rolled back. When profile resolution and the
cache write have succeeded and the driver's callback fails, `AddDevice` returns a
server error and the device is found in the cache; `UpdateDevice` on its merge path
returns a server error and the cache holds the merged record; and `DeleteDevice` of a
cached device returns a server error and the device is absent from the cache. -/
theorem driver_failure_not_rolled_back (lib : Patch) (dic : Container) (w : World) :
    (∀ req w1 devs err,
        application.updateAssociatedProfile req.Device.ProfileName dic w = (w1, none) →
        cache.Add w1.devices (ToDeviceModel req.Device) = .ok devs →
        dic.ProtocolDriverFrom.AddDevice req.Device.Name req.Device.Protocols
          req.Device.AdminState = some err →
        ∃ w2 e, application.AddDevice req dic w = (w2, some e)
          ∧ Kind e = .KindServerError
          ∧ cache.ForName w2.devices req.Device.Name = some (ToDeviceModel req.Device))
      ∧ (∀ req n s D w1 devs err,
        req.Device.Name = some n → req.Device.ServiceName = some s →
        cache.ForName w.devices n = some D → w.ds.Name = s →
        application.updateAssociatedProfile
          (lib.ReplaceDeviceModelFieldsWithDTO D req.Device).ProfileName dic w = (w1, none) →
        cache.Update w1.devices (lib.ReplaceDeviceModelFieldsWithDTO D req.Device) = .ok devs →
        dic.ProtocolDriverFrom.UpdateDevice
          (lib.ReplaceDeviceModelFieldsWithDTO D req.Device).Name
          (lib.ReplaceDeviceModelFieldsWithDTO D req.Device).Protocols
          (lib.ReplaceDeviceModelFieldsWithDTO D req.Device).AdminState = some err →
        ∃ w2 e, application.UpdateDevice lib req dic w = some (w2, some e)
          ∧ Kind e = .KindServerError
          ∧ cache.ForName w2.devices (lib.ReplaceDeviceModelFieldsWithDTO D req.Device).Name
              = some (lib.ReplaceDeviceModelFieldsWithDTO D req.Device))
      ∧ (∀ n D err, cache.ForName w.devices n = some D →
        dic.ProtocolDriverFrom.RemoveDevice n D.Protocols = some err →
        ∃ e, (application.DeleteDevice n dic w).2 = some e
          ∧ Kind e = .KindServerError
          ∧ cache.ForName (application.DeleteDevice n dic w).1.devices n = none) := by
  refine ⟨?_, ?_, ?_⟩
  · intro req w1 devs err hres hadd hdrv
    refine ⟨({ w1 with devices := devs } : World).record
        (.DriverAddDevice req.Device.Name req.Device.Protocols req.Device.AdminState),
      NewCommonEdgeX .KindServerError ("添加设备（" ++ req.Device.Name ++ "）回调失败") (some err),
      ?_, rfl, ?_⟩
    · simp only [ToDeviceModel] at hadd
      simp only [application.AddDevice, ToDeviceModel, hres, hadd, hdrv]
    · have habs := Add_ok_absent hadd
      rw [Add_ok hadd]
      simp only [World.record, ForName_append_single]
      simp only [ToDeviceModel, Named.name] at habs ⊢
      simp [habs]
  · intro req n s D w1 devs err hn hs hD hself hres hupd hdrv
    generalize hdevice : lib.ReplaceDeviceModelFieldsWithDTO D req.Device = device
      at hres hupd hdrv ⊢
    refine ⟨({ w1 with devices := devs } : World).record
        (.DriverUpdateDevice device.Name device.Protocols device.AdminState),
      NewCommonEdgeX .KindServerError ("更新设备（" ++ device.Name ++ "）回调失败") (some err),
      ?_, rfl, ?_⟩
    · simp [application.UpdateDevice, hn, hs, hD, hself, hdevice, hres, hupd, hdrv]
    · rw [Update_ok hupd]
      exact ForName_updated w1.devices device rfl (Update_ok_present hupd)
  · intro n D err hD hdrv
    refine ⟨_, DeleteDevice_driver_failed n dic w D err hD hdrv, rfl, ?_⟩
    rw [(DeleteDevice_of_cached n dic w D hD).1]
    exact ForName_removed _ _

theorem driver_failure_not_rolled_back_witness :
    (∃ w2 e, application.AddDevice { Device := Sample.deviceA } Sample.dicDriverDown
          Sample.empty = (w2, some e)
        ∧ Kind e = .KindServerError
        ∧ cache.ForName w2.devices "A" = some Sample.deviceA)
      ∧ (∃ w2 e, application.UpdateDevice Patch.fieldwise Sample.lockA Sample.dicDriverDown
          Sample.twoDevices = some (w2, some e)
        ∧ Kind e = .KindServerError
        ∧ cache.ForName w2.devices "A" = some { Sample.deviceA with AdminState := Locked })
      ∧ (∃ e, (application.DeleteDevice "A" Sample.dicDriverDown Sample.twoDevices).2 = some e
        ∧ Kind e = .KindServerError
        ∧ cache.ForName
            (application.DeleteDevice "A" Sample.dicDriverDown Sample.twoDevices).1.devices "A"
            = none) :=
  ⟨(driver_failure_not_rolled_back Patch.fieldwise Sample.dicDriverDown Sample.empty).1
      { Device := Sample.deviceA }
      (application.updateAssociatedProfile "P" Sample.dicDriverDown Sample.empty).1
      [Sample.deviceA] (.plain "device unreachable") rfl rfl rfl,
   (driver_failure_not_rolled_back Patch.fieldwise Sample.dicDriverDown Sample.twoDevices).2.1
      Sample.lockA "A" "svcA" Sample.deviceA
      (application.updateAssociatedProfile "P" Sample.dicDriverDown Sample.twoDevices).1
      [{ Sample.deviceA with AdminState := Locked }, Sample.deviceB]
      (.plain "device unreachable") rfl rfl rfl rfl rfl rfl rfl,
   (driver_failure_not_rolled_back Patch.fieldwise Sample.dicDriverDown Sample.twoDevices).2.2
      "A" Sample.deviceA (.plain "device unreachable") rfl rfl⟩

/-! ## `UpdateDevice` for a device that is not cached -/

/-- Migration-in never caches the requested name. For every patch function that
leaves the name as the model has it, every request with a non-empty name that is not
cached and with the self service's name, and every outcome of `UpdateDevice`, the
requested name is still not found afterwards. -/
theorem UpdateDevice_migration_in_name_absent (lib : Patch)
    (hname : ∀ d dto, (lib.ReplaceDeviceModelFieldsWithDTO d dto).Name = d.Name)
    (req : UpdateDeviceRequest) (dic : Container) (w : World) (n s : String)
    (hn : req.Device.Name = some n) (hs : req.Device.ServiceName = some s)
    (hD : cache.ForName w.devices n = none) (hself : w.ds.Name = s) (hne : n ≠ "")
    (w2 : World) (r : Option Error)
    (h : application.UpdateDevice lib req dic w = some (w2, r)) :
    cache.ForName w2.devices n = none := by
  simp only [application.UpdateDevice, hn, hD, hs, hself, if_true, NewAddDeviceRequest,
    FromDeviceModelToDTO, Option.some.injEq] at h
  have hfam := (AddDevice_families
    { Device := lib.ReplaceDeviceModelFieldsWithDTO Device.zero req.Device } dic w).2.2
  rw [h] at hfam
  rcases hfam with hdev | ⟨-, hdev⟩
  · simp only at hdev
    rw [hdev]; exact hD
  · simp only at hdev
    rw [hdev, ForName_append_single, hD]
    have hz : Named.name (lib.ReplaceDeviceModelFieldsWithDTO Device.zero req.Device) ≠ n := by
      show (lib.ReplaceDeviceModelFieldsWithDTO Device.zero req.Device).Name ≠ n
      rw [hname]
      exact fun e => hne e.symm
    simp only [hz, if_false, Option.or]

/-- C16. `UpdateDevice` migration-in, at the cache holding the devices `A` and `B`, the
request for a device `X` on profile `P` owned by the self service `svcA`, and the
library's patch function. The name `X` is not cached and the service names agree, so
this is a migration-in. The call returns no error, yet `X` is still not found
afterwards: the device is cached under the empty name with an empty id, and the
driver's add callback and the scheduler are called for the empty name. `AddDevice`
applied to the device synthesized from the request's fields returns no error, caches
that device under `X` and calls the driver and the scheduler for `X`. The two
outcomes differ. -/
theorem updateDevice_migration_in_drops_name :
    cache.ForName Sample.twoDevices.devices "X" = none
      ∧ Sample.arriveX.Device.Name = some "X"
      ∧ Sample.arriveX.Device.ServiceName = some Sample.twoDevices.ds.Name
      ∧ (∃ w2, application.UpdateDevice Patch.fieldwise Sample.arriveX Sample.dic
            Sample.twoDevices = some (w2, none)
          ∧ cache.ForName w2.devices "X" = none
          ∧ cache.ForName w2.devices ""
              = some { Spec.deviceOfRequest Sample.arriveX.Device with Id := "", Name := "" }
          ∧ issued Sample.twoDevices w2
              = [.DeviceProfileByName "P", .DriverAddDevice "" [] Unlocked,
                 .RestartForDevice ""])
      ∧ (∃ w3, application.AddDevice
            { Device := Spec.deviceOfRequest Sample.arriveX.Device } Sample.dic
            Sample.twoDevices = (w3, none)
          ∧ cache.ForName w3.devices "X" = some (Spec.deviceOfRequest Sample.arriveX.Device)
          ∧ cache.ForName w3.devices "" = none
          ∧ issued Sample.twoDevices w3
              = [.DeviceProfileByName "P", .DriverAddDevice "X" [] Unlocked,
                 .RestartForDevice "X"])
      ∧ application.UpdateDevice Patch.fieldwise Sample.arriveX Sample.dic Sample.twoDevices
          ≠ some (application.AddDevice
              { Device := Spec.deviceOfRequest Sample.arriveX.Device } Sample.dic
              Sample.twoDevices) :=
  ⟨rfl, rfl, rfl, ⟨_, rfl, rfl, rfl, rfl⟩, ⟨_, rfl, rfl, rfl, rfl⟩,
   fun h => absurd
     (congrArg (fun r => Option.map (fun p => cache.ForName p.1.devices "X") r) h)
     (by decide)⟩

/-- C17. UpdateDevice for an unknown device owned elsewhere: for an update request
whose device name is not cached and whose service name differs from the self
service's name, `UpdateDevice` fails with an entity-does-not-exist error and returns
the input state, so the cache is unchanged and no registry fetch, driver callback or
scheduler call is recorded. -/
theorem updateDevice_unknown_elsewhere (lib : Patch) (req : UpdateDeviceRequest)
    (dic : Container) (w : World) (n s : String)
    (hn : req.Device.Name = some n) (hs : req.Device.ServiceName = some s)
    (hD : cache.ForName w.devices n = none) (hne : w.ds.Name ≠ s) :
    ∃ e, application.UpdateDevice lib req dic w = some (w, some e)
      ∧ Kind e = .KindEntityDoesNotExist
      ∧ (Kind e).isNotFound = true
      ∧ issued w w = [] := by
  refine ⟨NewCommonEdgeX .KindEntityDoesNotExist ("查找设备 " ++ s ++ " 失败") none,
    ?_, rfl, rfl, ?_⟩
  · simp only [application.UpdateDevice, hn, hD, hs, hne, if_false]
  · simp [issued]

theorem updateDevice_unknown_elsewhere_witness :
    ∃ e, application.UpdateDevice Patch.fieldwise Sample.strangerX Sample.dic Sample.twoDevices
        = some (Sample.twoDevices, some e)
      ∧ Kind e = .KindEntityDoesNotExist
      ∧ (Kind e).isNotFound = true
      ∧ issued Sample.twoDevices Sample.twoDevices = [] :=
  updateDevice_unknown_elsewhere Patch.fieldwise Sample.strangerX Sample.dic Sample.twoDevices
    "X" "svcB" rfl rfl (by decide) (by decide)

/-! ## Failure paths of `AddDevice` and `DeleteDevice` -/

/-- C18. AddDevice aborts on profile-resolution failure: whenever profile resolution
returns an error (the registry fetch failed, or caching the fetched profile failed),
`AddDevice` returns a wrapper of that error with the same kind, the device family is
unchanged, and the only call made is the registry fetch: no driver add callback and
no scheduler call. In particular a failing fetch gives an invalid-id error. -/
theorem addDevice_aborts_on_profile_failure (req : AddDeviceRequest) (dic : Container)
    (w : World) :
    (∀ w1 e, application.updateAssociatedProfile req.Device.ProfileName dic w = (w1, some e) →
        application.AddDevice req dic w = (w1, some (NewCommonEdgeXWrapper e))
          ∧ Kind (NewCommonEdgeXWrapper e) = Kind e
          ∧ w1.devices = w.devices
          ∧ cache.ForName w1.devices req.Device.Name = cache.ForName w.devices req.Device.Name
          ∧ issued w w1 = [.DeviceProfileByName req.Device.ProfileName]
          ∧ (issued w w1).filter Call.isDriverAddDevice = []
          ∧ (issued w w1).filter Call.isScheduler = [])
      ∧ (∀ err, dic.MetadataDeviceProfileClientFrom.DeviceProfileByName req.Device.ProfileName
            = .error err →
        ∃ w1 e, application.AddDevice req dic w = (w1, some e)
          ∧ Kind e = .KindInvalidId
          ∧ w1.devices = w.devices ∧ w1.profiles = w.profiles) := by
  constructor
  · intro w1 e hres
    obtain ⟨hcalls, hdev, -, -⟩ := updateAssociatedProfile_frame req.Device.ProfileName dic w
    rw [hres] at hcalls hdev
    simp only at hcalls hdev
    have hiss := issued_append w w1 _ hcalls
    refine ⟨?_, rfl, hdev, by rw [hdev], hiss, ?_, ?_⟩
    · simp only [application.AddDevice, ToDeviceModel, hres]
    · rw [hiss]; simp [List.filter, Call.isDriverAddDevice]
    · rw [hiss]; simp [List.filter, Call.isScheduler]
  · intro err herr
    refine ⟨w.record (.DeviceProfileByName req.Device.ProfileName),
      NewCommonEdgeXWrapper (NewCommonEdgeX .KindInvalidId
        ("从元数据服务获取模型 " ++ req.Device.ProfileName ++ " 失败") (some err)),
      ?_, rfl, rfl, rfl⟩
    simp [application.AddDevice, ToDeviceModel, application.updateAssociatedProfile, herr]

theorem addDevice_aborts_on_profile_failure_witness :
    (issued Sample.empty
          (application.updateAssociatedProfile "Z" Sample.dic Sample.empty).1
        = [.DeviceProfileByName "Z"])
      ∧ ∃ w1 e, application.AddDevice { Device := { Sample.deviceA with ProfileName := "Z" } }
          Sample.dic Sample.empty = (w1, some e)
        ∧ Kind e = .KindInvalidId
        ∧ w1.devices = Sample.empty.devices ∧ w1.profiles = Sample.empty.profiles :=
  ⟨((addDevice_aborts_on_profile_failure
        { Device := { Sample.deviceA with ProfileName := "Z" } } Sample.dic Sample.empty).1
      (application.updateAssociatedProfile "Z" Sample.dic Sample.empty).1
      (NewCommonEdgeX .KindInvalidId ("从元数据服务获取模型 " ++ "Z" ++ " 失败")
        (some (.common .KindEntityDoesNotExist "no such profile"))) rfl).2.2.2.2.1,
   (addDevice_aborts_on_profile_failure
        { Device := { Sample.deviceA with ProfileName := "Z" } } Sample.dic Sample.empty).2
      (.common .KindEntityDoesNotExist "no such profile") rfl⟩

/-- C19. AddDevice on a duplicate name: when a device of the same name is already
cached and profile resolution succeeds, `AddDevice` returns a server error, the
device family and the stored record under that name are unchanged, and the only call
made is the registry fetch: no driver add callback and no scheduler call. -/
theorem addDevice_duplicate_name (req : AddDeviceRequest) (dic : Container) (w w1 : World)
    (d0 : Device) (hdup : cache.ForName w.devices req.Device.Name = some d0)
    (hres : application.updateAssociatedProfile req.Device.ProfileName dic w = (w1, none)) :
    ∃ e, application.AddDevice req dic w = (w1, some e)
      ∧ Kind e = .KindServerError
      ∧ w1.devices = w.devices
      ∧ cache.ForName w1.devices req.Device.Name = some d0
      ∧ issued w w1 = [.DeviceProfileByName req.Device.ProfileName]
      ∧ (issued w w1).filter Call.isDriverAddDevice = []
      ∧ (issued w w1).filter Call.isScheduler = [] := by
  obtain ⟨hcalls, hdev, -, -⟩ := updateAssociatedProfile_frame req.Device.ProfileName dic w
  rw [hres] at hcalls hdev
  simp only at hcalls hdev
  have hiss := issued_append w w1 _ hcalls
  have hdup1 : cache.ForName w1.devices req.Device.Name = some d0 := by rw [hdev]; exact hdup
  refine ⟨NewCommonEdgeX .KindServerError ("添加模型 " ++ req.Device.Name ++ " 失败")
      (some (.common .KindDuplicateName
        ("name " ++ req.Device.Name ++ " duplicated in cache"))),
    ?_, rfl, hdev, hdup1, hiss, ?_, ?_⟩
  · simp [application.AddDevice, ToDeviceModel, hres, cache.Add, Named.name, hdup1]
  · rw [hiss]; simp [List.filter, Call.isDriverAddDevice]
  · rw [hiss]; simp [List.filter, Call.isScheduler]

theorem addDevice_duplicate_name_witness :
    ∃ e, application.AddDevice { Device := { Sample.deviceA with Description := "again" } }
        Sample.dic Sample.twoDevices
        = ((application.updateAssociatedProfile "P" Sample.dic Sample.twoDevices).1, some e)
      ∧ Kind e = .KindServerError
      ∧ (application.updateAssociatedProfile "P" Sample.dic Sample.twoDevices).1.devices
          = Sample.twoDevices.devices
      ∧ cache.ForName
          (application.updateAssociatedProfile "P" Sample.dic Sample.twoDevices).1.devices "A"
          = some Sample.deviceA
      ∧ issued Sample.twoDevices
          (application.updateAssociatedProfile "P" Sample.dic Sample.twoDevices).1
          = [.DeviceProfileByName "P"]
      ∧ (issued Sample.twoDevices
          (application.updateAssociatedProfile "P" Sample.dic Sample.twoDevices).1).filter
          Call.isDriverAddDevice = []
      ∧ (issued Sample.twoDevices
          (application.updateAssociatedProfile "P" Sample.dic Sample.twoDevices).1).filter
          Call.isScheduler = [] :=
  addDevice_duplicate_name { Device := { Sample.deviceA with Description := "again" } }
    Sample.dic Sample.twoDevices
    (application.updateAssociatedProfile "P" Sample.dic Sample.twoDevices).1
    Sample.deviceA rfl rfl

/-- C20. DeleteDevice on an absent name: for a name that is not in the device cache,
`DeleteDevice` fails with an invalid-id error, which is of the NotFound class, and
returns the input state: every cache family is unchanged and no scheduler stop and no
driver callback is recorded. -/
theorem deleteDevice_absent_name (n : String) (dic : Container) (w : World)
    (hD : cache.ForName w.devices n = none) :
    ∃ e, application.DeleteDevice n dic w = (w, some e)
      ∧ Kind e = .KindInvalidId
      ∧ (Kind e).isNotFound = true
      ∧ issued w w = [] :=
  ⟨NewCommonEdgeX .KindInvalidId ("查找设备 " ++ n ++ " 失败") none,
    DeleteDevice_absent n dic w hD, rfl, rfl, by simp [issued]⟩

theorem deleteDevice_absent_name_witness :
    ∃ e, application.DeleteDevice "X" Sample.dic Sample.twoDevices
        = (Sample.twoDevices, some e)
      ∧ Kind e = .KindInvalidId
      ∧ (Kind e).isNotFound = true
      ∧ issued Sample.twoDevices Sample.twoDevices = [] :=
  deleteDevice_absent_name "X" Sample.dic Sample.twoDevices (by decide)

/-! ## Orphan reclamation, `UpdateProfile` and `UpdateDeviceService` -/

/-- C21. Orphan-reclamation failures are swallowed: whenever the device is cached (so
that its removal from the store succeeds) and the driver's remove callback succeeds,
`DeleteDevice` returns no error; this also holds when the removal of the now-unused
profile fails because that profile is not cached, and the profile family is then
what it was. -/
theorem deleteDevice_swallows_reclamation_failure (n : String) (dic : Container) (w : World)
    (D : Device) (hD : cache.ForName w.devices n = some D)
    (hdrv : dic.ProtocolDriverFrom.RemoveDevice n D.Protocols = none) :
    (application.DeleteDevice n dic w).2 = none
      ∧ (∀ e, cache.RemoveByName w.profiles D.ProfileName = .error e →
          (application.DeleteDevice n dic w).2 = none
            ∧ (application.DeleteDevice n dic w).1.profiles = w.profiles) := by
  obtain ⟨hok, hprof⟩ := DeleteDevice_driver_ok n dic w D hD hdrv
  refine ⟨hok, ?_⟩
  intro e he
  refine ⟨hok, ?_⟩
  have habs : cache.ForName w.profiles D.ProfileName = none := by
    unfold cache.RemoveByName at he
    split at he
    · rename_i h; exact h
    · cases he
  rw [hprof, filter_absent _ _ habs]
  simp

theorem deleteDevice_swallows_reclamation_failure_witness :
    (application.DeleteDevice "A" Sample.dic Sample.deviceWithoutProfile).2 = none
      ∧ (application.DeleteDevice "A" Sample.dic Sample.deviceWithoutProfile).1.profiles
          = Sample.deviceWithoutProfile.profiles :=
  ((deleteDevice_swallows_reclamation_failure "A" Sample.dic Sample.deviceWithoutProfile
      Sample.deviceA rfl rfl).2
    (.common .KindEntityDoesNotExist ("name " ++ "P" ++ " not found in cache")) rfl)

/-- C22. UpdateProfile is a direct cache update only: if the profile name is not cached
it fails with an invalid-id error (NotFound class) and returns the input state; if it
is cached it returns no error, the lookup of that name gives the request's profile,
the lookup of every other profile name and the device and provision-watcher families
are unchanged, and no call (registry, driver or scheduler) is recorded. -/
theorem updateProfile_direct_cache_update (req : DeviceProfileRequest) (w : World) :
    (cache.ForName w.profiles req.Profile.Name = none →
        ∃ e, application.UpdateProfile req w = (w, some e)
          ∧ Kind e = .KindInvalidId ∧ (Kind e).isNotFound = true)
      ∧ (∀ p, cache.ForName w.profiles req.Profile.Name = some p →
        (application.UpdateProfile req w).2 = none
          ∧ cache.ForName (application.UpdateProfile req w).1.profiles req.Profile.Name
              = some (ToDeviceProfileModel req.Profile)
          ∧ (∀ m, m ≠ req.Profile.Name →
              cache.ForName (application.UpdateProfile req w).1.profiles m
                = cache.ForName w.profiles m)
          ∧ (application.UpdateProfile req w).1.devices = w.devices
          ∧ (application.UpdateProfile req w).1.watchers = w.watchers
          ∧ (application.UpdateProfile req w).1.ds = w.ds
          ∧ issued w (application.UpdateProfile req w).1 = []) := by
  constructor
  · intro h
    exact ⟨NewCommonEdgeX .KindInvalidId ("查找模型失败 " ++ req.Profile.Name) none,
      by simp only [application.UpdateProfile, h], rfl, rfl⟩
  · intro p hp
    have hres : application.UpdateProfile req w
        = ({ w with profiles := w.profiles.map (fun x =>
              if Named.name x = Named.name req.Profile then req.Profile else x) }, none) := by
      simp [application.UpdateProfile, hp, cache.Update, ToDeviceProfileModel, Named.name]
    rw [hres]
    refine ⟨rfl, ?_, ?_, rfl, rfl, rfl, by simp [issued]⟩
    · exact ForName_updated w.profiles req.Profile rfl (by
        show (cache.ForName w.profiles req.Profile.Name).isSome = true
        simp [hp])
    · intro m hm
      exact ForName_updated_other w.profiles req.Profile hm

theorem updateProfile_direct_cache_update_witness :
    (∃ e, application.UpdateProfile { Profile := Sample.profileP2 } Sample.empty
          = (Sample.empty, some e)
        ∧ Kind e = .KindInvalidId ∧ (Kind e).isNotFound = true)
      ∧ ((application.UpdateProfile { Profile := Sample.profileP2 } Sample.twoDevices).2 = none
        ∧ cache.ForName
            (application.UpdateProfile { Profile := Sample.profileP2 }
              Sample.twoDevices).1.profiles "P" = some Sample.profileP2) :=
  ⟨(updateProfile_direct_cache_update { Profile := Sample.profileP2 } Sample.empty).1 rfl,
   ((updateProfile_direct_cache_update { Profile := Sample.profileP2 } Sample.twoDevices).2
      Sample.profileP rfl).1,
   ((updateProfile_direct_cache_update { Profile := Sample.profileP2 } Sample.twoDevices).2
      Sample.profileP rfl).2.1⟩

/-- C23. UpdateDeviceService: if the request's service name differs from the self
service's name the call fails with an entity-does-not-exist error and returns the
input state (self record unchanged); if it matches, the call returns no error, the
self record's AdminState and Labels are the request's values, and its Name, the three
cache families and the call record are unchanged. -/
theorem updateDeviceService_decision (req : application.UpdateDeviceServiceRequest)
    (w : World) (n : String) (hn : req.Service.Name = some n) :
    (w.ds.Name ≠ n →
        ∃ e, application.UpdateDeviceService req w = some (w, some e)
          ∧ Kind e = .KindEntityDoesNotExist)
      ∧ (∀ a, w.ds.Name = n → req.Service.AdminState = some a →
        ∃ w2, application.UpdateDeviceService req w = some (w2, none)
          ∧ w2.ds.AdminState = a ∧ w2.ds.Labels = req.Service.Labels
          ∧ w2.ds.Name = w.ds.Name
          ∧ w2.profiles = w.profiles ∧ w2.devices = w.devices ∧ w2.watchers = w.watchers
          ∧ w2.calls = w.calls) := by
  constructor
  · intro hne
    exact ⟨NewCommonEdgeX .KindEntityDoesNotExist ("鉴别驱动 " ++ n ++ " 失败") none,
      by simp only [application.UpdateDeviceService, hn, hne, ne_eq, not_false_eq_true,
        if_true], rfl⟩
  · intro a hself ha
    exact ⟨{ w with ds := { w.ds with AdminState := a, Labels := req.Service.Labels } },
      by simp [application.UpdateDeviceService, hn, hself, ha], rfl, rfl, rfl, rfl, rfl, rfl,
      rfl⟩

theorem updateDeviceService_decision_witness :
    (∃ e, application.UpdateDeviceService Sample.lockOtherService Sample.twoDevices
          = some (Sample.twoDevices, some e)
        ∧ Kind e = .KindEntityDoesNotExist)
      ∧ (∃ w2, application.UpdateDeviceService Sample.lockService Sample.twoDevices
          = some (w2, none)
        ∧ w2.ds.AdminState = Locked ∧ w2.ds.Labels = ["floor-1"]
        ∧ w2.ds.Name = "svcA"
        ∧ w2.profiles = Sample.twoDevices.profiles ∧ w2.devices = Sample.twoDevices.devices
        ∧ w2.watchers = Sample.twoDevices.watchers ∧ w2.calls = Sample.twoDevices.calls) :=
  ⟨(updateDeviceService_decision Sample.lockOtherService Sample.twoDevices "svcB" rfl).1
      (by decide),
   (updateDeviceService_decision Sample.lockService Sample.twoDevices "svcA" rfl).2
      Locked rfl rfl⟩

/-! ## The provision-watcher operations of the engine -/

/-- The rows of the `UpdateProvisionWatcher` decision table other than migration-in,
for a request carrying a name and a service name and for every patch function. Not
cached, other service: an entity-does-not-exist error and the input state. Cached,
other service: the result of `DeleteProvisionWatcher`, which succeeds and removes the
watcher. Cached, same service: the request is merged onto the stored watcher and the
merged watcher's profile is re-resolved; if that fails its error is returned and the
watcher family is unchanged, and if it and the cache update succeed the merged record
is stored and no error is returned. -/
theorem updateProvisionWatcher_cached_or_elsewhere (lib : Patch)
    (req : UpdateProvisionWatcherRequest) (dic : Container) (w : World) (n s : String)
    (hn : req.ProvisionWatcher.Name = some n)
    (hs : req.ProvisionWatcher.ServiceName = some s) :
    (cache.ForName w.watchers n = none → w.ds.Name ≠ s →
        ∃ e, application.UpdateProvisionWatcher lib req dic w = some (w, some e)
          ∧ Kind e = .KindEntityDoesNotExist)
      ∧ (∀ P, cache.ForName w.watchers n = some P → w.ds.Name ≠ s →
        application.UpdateProvisionWatcher lib req dic w
            = some (application.DeleteProvisionWatcher n w)
          ∧ (application.DeleteProvisionWatcher n w).2 = none
          ∧ cache.ForName (application.DeleteProvisionWatcher n w).1.watchers n = none)
      ∧ (∀ P, cache.ForName w.watchers n = some P → w.ds.Name = s →
        (∀ w1 e, application.updateAssociatedProfile
              (lib.ReplaceProvisionWatcherModelFieldsWithDTO P req.ProvisionWatcher).ProfileName
              dic w = (w1, some e) →
            application.UpdateProvisionWatcher lib req dic w
                = some (w1, some (NewCommonEdgeXWrapper e))
              ∧ w1.watchers = w.watchers)
          ∧ (∀ w1 pws, application.updateAssociatedProfile
              (lib.ReplaceProvisionWatcherModelFieldsWithDTO P req.ProvisionWatcher).ProfileName
              dic w = (w1, none) →
            cache.Update w1.watchers
              (lib.ReplaceProvisionWatcherModelFieldsWithDTO P req.ProvisionWatcher)
              = .ok pws →
            application.UpdateProvisionWatcher lib req dic w
                = some ({ w1 with watchers := pws }, none)
              ∧ cache.ForName pws
                  (lib.ReplaceProvisionWatcherModelFieldsWithDTO P req.ProvisionWatcher).Name
                = some (lib.ReplaceProvisionWatcherModelFieldsWithDTO P
                    req.ProvisionWatcher))) := by
  refine ⟨?_, ?_, ?_⟩
  · intro hP hne
    exact ⟨NewCommonEdgeX .KindEntityDoesNotExist
        ("查找 provision watcher " ++ s ++ " 失败") none,
      by simp only [application.UpdateProvisionWatcher, hn, hP, hs, hne, if_false], rfl⟩
  · intro P hP hne
    have hdel : application.DeleteProvisionWatcher n w
        = ({ w with watchers := w.watchers.filter (fun x => !decide (Named.name x = n)) },
           none) := by
      simp [application.DeleteProvisionWatcher, cache.RemoveByName, hP]
    refine ⟨?_, ?_, ?_⟩
    · simp only [application.UpdateProvisionWatcher, hn, hP, hs, hne, ne_eq,
        not_false_eq_true, if_true]
    · rw [hdel]
    · rw [hdel]; exact ForName_removed _ _
  · intro P hP hself
    constructor
    · intro w1 e hres
      have hwat := (updateAssociatedProfile_frame
        (lib.ReplaceProvisionWatcherModelFieldsWithDTO P req.ProvisionWatcher).ProfileName
        dic w).2.2.1
      rw [hres] at hwat
      refine ⟨?_, hwat⟩
      simp only [application.UpdateProvisionWatcher, hn, hP, hs, hself, ne_eq,
        not_true_eq_false, if_false, hres]
    · intro w1 pws hres hupd
      refine ⟨?_, ?_⟩
      · simp only [application.UpdateProvisionWatcher, hn, hP, hs, hself, ne_eq,
          not_true_eq_false, if_false, hres, hupd]
      · rw [Update_ok hupd]
        exact ForName_updated w1.watchers _ rfl (Update_ok_present hupd)

/-- Migration-in never caches the requested watcher name. For every patch function
that leaves the name as the model has it, every request with a non-empty name that
is not cached and with the self service's name, and every outcome of
`UpdateProvisionWatcher`, the requested name is still not found afterwards. -/
theorem UpdateProvisionWatcher_migration_in_name_absent (lib : Patch)
    (hname : ∀ d dto, (lib.ReplaceProvisionWatcherModelFieldsWithDTO d dto).Name = d.Name)
    (req : UpdateProvisionWatcherRequest) (dic : Container) (w : World) (n s : String)
    (hn : req.ProvisionWatcher.Name = some n)
    (hs : req.ProvisionWatcher.ServiceName = some s)
    (hP : cache.ForName w.watchers n = none) (hself : w.ds.Name = s) (hne : n ≠ "")
    (w2 : World) (r : Option Error)
    (h : application.UpdateProvisionWatcher lib req dic w = some (w2, r)) :
    cache.ForName w2.watchers n = none := by
  simp only [application.UpdateProvisionWatcher, hn, hP, hs, hself, if_true,
    NewAddProvisionWatcherRequest, FromProvisionWatcherModelToDTO, Option.some.injEq] at h
  have hfam := (AddProvisionWatcher_families
    { ProvisionWatcher := lib.ReplaceProvisionWatcherModelFieldsWithDTO
        ProvisionWatcher.zero req.ProvisionWatcher } dic w).2.2.1
  rw [h] at hfam
  rcases hfam with hwat | ⟨-, hwat⟩
  · simp only at hwat
    rw [hwat]; exact hP
  · simp only at hwat
    rw [hwat, ForName_append_single, hP]
    have hz : Named.name (lib.ReplaceProvisionWatcherModelFieldsWithDTO
        ProvisionWatcher.zero req.ProvisionWatcher) ≠ n := by
      show (lib.ReplaceProvisionWatcherModelFieldsWithDTO
        ProvisionWatcher.zero req.ProvisionWatcher).Name ≠ n
      rw [hname]
      exact fun e => hne e.symm
    simp only [hz, if_false, Option.or]

/-- C24. `UpdateProvisionWatcher` migration-in, the first row of the decision table, at
the cache holding the watcher `W`, the request for a watcher `V` on profile `P`
owned by the self service `svcA`, and the library's patch function. The name `V` is
not cached and the service names agree. The call returns no error, yet `V` is still
not found afterwards: the watcher is cached under the empty name with an empty id.
`AddProvisionWatcher` applied to the watcher synthesized from the request returns no
error and caches that watcher under `V`. The two outcomes differ. -/
theorem updateProvisionWatcher_migration_in_drops_name :
    cache.ForName Sample.oneWatcher.watchers "V" = none
      ∧ Sample.arriveV.ProvisionWatcher.Name = some "V"
      ∧ Sample.arriveV.ProvisionWatcher.ServiceName = some Sample.oneWatcher.ds.Name
      ∧ (∃ w2, application.UpdateProvisionWatcher Patch.fieldwise Sample.arriveV Sample.dic
            Sample.oneWatcher = some (w2, none)
          ∧ cache.ForName w2.watchers "V" = none
          ∧ cache.ForName w2.watchers ""
              = some { Spec.watcherOfRequest Sample.arriveV.ProvisionWatcher with
                        Id := "", Name := "" }
          ∧ w2.watchers
              = [Sample.watcherW,
                 { Spec.watcherOfRequest Sample.arriveV.ProvisionWatcher with
                    Id := "", Name := "" }])
      ∧ (∃ w3, application.AddProvisionWatcher
            { ProvisionWatcher := Spec.watcherOfRequest Sample.arriveV.ProvisionWatcher }
            Sample.dic Sample.oneWatcher = (w3, none)
          ∧ cache.ForName w3.watchers "V"
              = some (Spec.watcherOfRequest Sample.arriveV.ProvisionWatcher)
          ∧ cache.ForName w3.watchers "" = none
          ∧ w3.watchers
              = [Sample.watcherW, Spec.watcherOfRequest Sample.arriveV.ProvisionWatcher])
      ∧ application.UpdateProvisionWatcher Patch.fieldwise Sample.arriveV Sample.dic
            Sample.oneWatcher
          ≠ some (application.AddProvisionWatcher
              { ProvisionWatcher := Spec.watcherOfRequest Sample.arriveV.ProvisionWatcher }
              Sample.dic Sample.oneWatcher) :=
  ⟨rfl, rfl, rfl, ⟨_, rfl, rfl, rfl, rfl⟩, ⟨_, rfl, rfl, rfl, rfl⟩,
   fun h => absurd
     (congrArg (fun r => Option.map (fun p => cache.ForName p.1.watchers "V") r) h)
     (by decide)⟩

theorem noDeviceEffects_of_calls (w w2 : World) (hdev : w2.devices = w.devices)
    (hcalls : w2.calls = w.calls ∨ ∃ pn, w2.calls = w.calls ++ [.DeviceProfileByName pn]) :
    NoDeviceEffects w w2 := by
  refine ⟨hdev, ?_⟩
  rcases hcalls with h | ⟨pn, h⟩
  · have : issued w w2 = [] := by
      rw [issued_append w w2 [] (by simpa using h)]
    rw [this]
    intro c hc
    cases hc
  · rw [issued_append w w2 _ h]
    intro c hc
    rw [List.mem_singleton.mp hc]
    exact ⟨rfl, rfl, rfl, rfl⟩

/-- C25. Provision-watcher operations have no driver or scheduler effects: for every
input and cache state, `AddProvisionWatcher`, `UpdateProvisionWatcher` (on every path
that returns, the migration-out path included) and `DeleteProvisionWatcher` leave the
device family unchanged and make no driver callback and no `StopForDevice` or
`RestartForDevice` call. -/
theorem provisionWatcher_ops_no_device_effects (lib : Patch) (dic : Container) (w : World) :
    (∀ req, NoDeviceEffects w (application.AddProvisionWatcher req dic w).1)
      ∧ (∀ req w2 r, application.UpdateProvisionWatcher lib req dic w = some (w2, r) →
          NoDeviceEffects w w2)
      ∧ (∀ n, NoDeviceEffects w (application.DeleteProvisionWatcher n w).1) := by
  have hadd : ∀ req, NoDeviceEffects w (application.AddProvisionWatcher req dic w).1 := by
    intro req
    obtain ⟨-, hdev, -, hcalls⟩ := AddProvisionWatcher_families req dic w
    exact noDeviceEffects_of_calls _ _ hdev (Or.inr ⟨_, hcalls⟩)
  have hdel : ∀ n, NoDeviceEffects w (application.DeleteProvisionWatcher n w).1 := by
    intro n
    obtain ⟨-, hdev, hcalls, -⟩ := DeleteProvisionWatcher_families n w
    exact noDeviceEffects_of_calls _ _ hdev (Or.inl hcalls)
  refine ⟨hadd, ?_, hdel⟩
  intro req w2 r h
  cases hn : req.ProvisionWatcher.Name with
  | none => simp [application.UpdateProvisionWatcher, hn] at h
  | some n =>
    cases hs : req.ProvisionWatcher.ServiceName with
    | none =>
      cases hP : cache.ForName w.watchers n <;>
        simp [application.UpdateProvisionWatcher, hn, hs, hP] at h
    | some s =>
      cases hP : cache.ForName w.watchers n with
      | none =>
        by_cases hself : w.ds.Name = s
        · simp only [application.UpdateProvisionWatcher, hn, hP, hs, hself, if_true,
            Option.some.injEq] at h
          have := hadd (NewAddProvisionWatcherRequest (FromProvisionWatcherModelToDTO
            (lib.ReplaceProvisionWatcherModelFieldsWithDTO ProvisionWatcher.zero
              req.ProvisionWatcher)))
          rw [h] at this
          exact this
        · simp only [application.UpdateProvisionWatcher, hn, hP, hs, hself, if_false,
            Option.some.injEq, Prod.mk.injEq] at h
          obtain ⟨rfl, -⟩ := h
          exact noDeviceEffects_of_calls _ _ rfl (Or.inl rfl)
      | some P =>
        by_cases hself : w.ds.Name = s
        · obtain ⟨-, hdev, hcalls, -⟩ :=
            UpdateProvisionWatcher_merge_families lib req dic w w2 r n s P hn hs hP hself h
          exact noDeviceEffects_of_calls _ _ hdev (Or.inr ⟨_, hcalls⟩)
        · have hne : w.ds.Name ≠ s := hself
          simp only [application.UpdateProvisionWatcher, hn, hP, hs, hne, ne_eq,
            not_false_eq_true, if_true, Option.some.injEq] at h
          have := hdel n
          rw [h] at this
          exact this

theorem provisionWatcher_ops_no_device_effects_witness :
    NoDeviceEffects Sample.deviceAndWatcher
        (application.AddProvisionWatcher { ProvisionWatcher := Sample.watcherW } Sample.dic
          Sample.deviceAndWatcher).1
      ∧ NoDeviceEffects Sample.deviceAndWatcher
          (application.DeleteProvisionWatcher "W" Sample.deviceAndWatcher).1
      ∧ NoDeviceEffects Sample.deviceAndWatcher
          (application.DeleteProvisionWatcher "W" Sample.deviceAndWatcher).1 :=
  ⟨(provisionWatcher_ops_no_device_effects Patch.fieldwise Sample.dic
      Sample.deviceAndWatcher).1 { ProvisionWatcher := Sample.watcherW },
   (provisionWatcher_ops_no_device_effects Patch.fieldwise Sample.dic
      Sample.deviceAndWatcher).2.1 Sample.moveW
      (application.DeleteProvisionWatcher "W" Sample.deviceAndWatcher).1
      (application.DeleteProvisionWatcher "W" Sample.deviceAndWatcher).2 rfl,
   (provisionWatcher_ops_no_device_effects Patch.fieldwise Sample.dic
      Sample.deviceAndWatcher).2.2 "W"⟩

/-! ## The value transformer: scale, offset and shift -/

/-- C26. `transformScale` in the write direction at the uint8 value `10` and the scale
`"0.5"`: the scale parses to the non-zero number one half, the float64 quotient `20`
passes the range check, the scale converted to uint8 is `0`, and the integer division
`10 / 0` panics; so does `TransformWriteParameter` with that scale. -/
theorem transformScale_write_divides_by_zero :
    Sample.floatLib.ParseFloat "0.5" 64 = .ok (.fin { num := 5, den := 10 })
      ∧ checkTransformedValueInRange (.uint .w8 10)
          ((Value.uint .w8 10).toFloat64.div (.fin { num := 5, den := 10 })) = true
      ∧ wrapU .w8 (F64.fin { num := 5, den := 10 }).trunc = 0
      ∧ transformer.transformScale Sample.floatLib (.uint .w8 10) "0.5" false = none
      ∧ transformer.TransformWriteParameter Sample.floatLib Sample.ten
          { Sample.plainProperties with Scale := "0.5" } = none :=
  ⟨rfl, by decide, by decide, by decide, by decide⟩

/-- C27. `transformOffset` in the write direction at the uint8 value `5` and the offset
`"10"`: the float64 that is range-checked is `5 - 0`, which is in range, and the
returned value is `5 - 10` wrapped around to `251`, with no error; likewise the int8
value `-128` with the offset `"1"` comes back as `127`. -/
theorem transformOffset_write_wraps_around :
    Sample.floatLib.ParseFloat "10" 64 = .ok (.fin { num := 10, den := 1 })
      ∧ transformer.transformOffset Sample.floatLib (.uint .w8 5) "10" false
          = (.uint .w8 251, none)
      ∧ ((5 : Int) - 10 < 0)
      ∧ transformer.transformOffset Sample.floatLib (.sint .w8 (-128)) "1" false
          = (.sint .w8 127, none)
      ∧ ((-128 : Int) - 1 < Width.minS .w8) :=
  ⟨rfl, by decide, by decide, by decide, by decide⟩

/-- C28. `transformScale` in the read direction at the uint8 value `10` and the scale
`"1.5"`: the product that is range-checked is `15`, and the value returned with no
error is `10`, the value times the scale converted to uint8. -/
theorem transformScale_read_returns_other_product :
    Sample.floatLib.ParseFloat "1.5" 64 = .ok (.fin { num := 15, den := 10 })
      ∧ ((Value.uint .w8 10).toFloat64.mul (.fin { num := 15, den := 10 })).trunc = 15
      ∧ checkTransformedValueInRange (.uint .w8 10)
          ((Value.uint .w8 10).toFloat64.mul (.fin { num := 15, den := 10 })) = true
      ∧ transformer.transformScale Sample.floatLib (.uint .w8 10) "1.5" true
          = some (.uint .w8 10, none) :=
  ⟨rfl, by decide, by decide, by decide⟩

/-! ## Lemmas on parsing and wrap-around -/

theorem wrapU_of_le (w : Width) (m : Nat) (h : (m : Int) ≤ w.maxU) : wrapU w m = m := by
  have hlt : (m : Int) < 2 ^ w.bits := by
    unfold Width.maxU at h
    omega
  unfold wrapU
  rw [Int.emod_eq_of_lt (Int.ofNat_nonneg m) hlt]
  rfl

theorem wrapS_of_range (w : Width) (m : Int) (hlo : w.minS ≤ m) (hhi : m ≤ w.maxS) :
    wrapS w m = m := by
  unfold Width.minS at hlo
  unfold Width.maxS at hhi
  unfold wrapS
  cases w <;> simp only [Width.bits] at hlo hhi ⊢ <;> omega

theorem ParseUint_ok_le {s : String} {w : Width} {m : Nat}
    (h : strconv.ParseUint s w = .ok m) : (m : Int) ≤ w.maxU := by
  unfold strconv.ParseUint at h
  split at h
  · cases h
  · split at h
    · rename_i hle
      cases h
      exact hle
    · cases h

theorem ParseInt_ok_range {s : String} {w : Width} {m : Int}
    (h : strconv.ParseInt s w = .ok m) : w.minS ≤ m ∧ m ≤ w.maxS := by
  unfold strconv.ParseInt at h
  simp only at h
  split at h
  · cases h
  · rename_i n hn
    by_cases hr : w.minS ≤ (if (match s.toList with
          | '+' :: cs => (false, cs)
          | '-' :: cs => (true, cs)
          | cs => (false, cs)).1 = true then -(n : Int) else (n : Int))
        ∧ (if (match s.toList with
          | '+' :: cs => (false, cs)
          | '-' :: cs => (true, cs)
          | cs => (false, cs)).1 = true then -(n : Int) else (n : Int)) ≤ w.maxS
    · rw [if_pos hr] at h
      cases h
      exact hr
    · rw [if_neg hr] at h
      cases h

/-- For a command value whose value is of its declared type, the value taken for the
transform is the stored value and the type is numeric. -/
theorem commandValueForTransform_wellTyped (cv : CommandValue)
    (h : transformer.wellTyped cv = true) :
    transformer.isNumericValueType cv = true
      ∧ transformer.commandValueForTransform cv = (cv.Value, none) := by
  simp only [transformer.wellTyped, Bool.or_eq_true, Bool.and_eq_true, decide_eq_true_eq] at h
  rcases h with ((((((((h | h) | h) | h) | h) | h) | h) | h) | h) | h <;>
    obtain ⟨ht, hv⟩ := h <;>
    simp [transformer.isNumericValueType, transformer.commandValueForTransform,
      transformer.typedValue, ht, hv, ValueTypeUint8, ValueTypeUint16, ValueTypeUint32,
      ValueTypeUint64, ValueTypeInt8, ValueTypeInt16, ValueTypeInt32, ValueTypeInt64,
      ValueTypeFloat32, ValueTypeFloat64]

/-! ## Write-parameter bounds -/

theorem validateWriteMaximum_uint (lib : FloatLib) (w : Width) (v m : Nat) (bound : String)
    (h : strconv.ParseUint bound w = .ok m) :
    transformer.validateWriteMaximum lib (.uint w v) bound
      = if v > m then some (.common .KindContractInvalid
          ("设置命令参数值超出属性最大值" ++ "%!(EXTRA string=" ++ bound ++ ")")) else none := by
  simp only [transformer.validateWriteMaximum, h, wrapU_of_le w m (ParseUint_ok_le h),
    NewCommonEdgeX]

theorem validateWriteMinimum_uint (lib : FloatLib) (w : Width) (v m : Nat) (bound : String)
    (h : strconv.ParseUint bound w = .ok m) :
    transformer.validateWriteMinimum lib (.uint w v) bound
      = if v < m then some (.common .KindContractInvalid
          ("设置命令参数值超出属性最小值" ++ "%!(EXTRA string=" ++ bound ++ ")")) else none := by
  simp only [transformer.validateWriteMinimum, h, wrapU_of_le w m (ParseUint_ok_le h),
    NewCommonEdgeX]

theorem validateWriteMaximum_sint (lib : FloatLib) (w : Width) (v m : Int) (bound : String)
    (h : strconv.ParseInt bound w = .ok m) :
    transformer.validateWriteMaximum lib (.sint w v) bound
      = if v > m then some (.common .KindContractInvalid
          ("设置命令参数值超出属性最大值" ++ "%!(EXTRA string=" ++ bound ++ ")")) else none := by
  simp only [transformer.validateWriteMaximum, h,
    wrapS_of_range w m (ParseInt_ok_range h).1 (ParseInt_ok_range h).2, NewCommonEdgeX]

theorem validateWriteMinimum_sint (lib : FloatLib) (w : Width) (v m : Int) (bound : String)
    (h : strconv.ParseInt bound w = .ok m) :
    transformer.validateWriteMinimum lib (.sint w v) bound
      = if v < m then some (.common .KindContractInvalid
          ("设置命令参数值超出属性最小值" ++ "%!(EXTRA string=" ++ bound ++ ")")) else none := by
  simp only [transformer.validateWriteMinimum, h,
    wrapS_of_range w m (ParseInt_ok_range h).1 (ParseInt_ok_range h).2, NewCommonEdgeX]

/-- An optional error that is `some contract-invalid error` when `c` holds and `none`
otherwise is a contract-invalid error exactly when `c` holds. -/
theorem contractInvalid_iff (c : Prop) [Decidable c] (msg : String) (r : Option Error)
    (h : r = if c then some (.common .KindContractInvalid msg) else none) :
    ((∃ e, r = some e ∧ Kind e = .KindContractInvalid) ↔ c) ∧ (r = none ↔ ¬ c) := by
  subst h
  by_cases hc : c
  · simp [hc, Kind]
  · simp [hc]

/-- C29. Write-parameter bounds validation. For every unsigned and signed integer type,
every value and every bound string that parses as a base-10 number of that type,
`validateWriteMaximum` returns a contract-invalid error exactly when the value
exceeds the bound and `validateWriteMinimum` exactly when the value is below it, and
no error otherwise; a bound string that does not parse yields a server error; and
`TransformWriteParameter` applies both checks to the stored, untransformed value,
returning the bound error before any of offset, scale and base is applied. -/
theorem write_bounds_validation (lib : FloatLib) :
    (∀ (w : Width) (v : Nat) (bound : String) (m : Nat),
        strconv.ParseUint bound w = .ok m →
        (((∃ e, transformer.validateWriteMaximum lib (.uint w v) bound = some e
              ∧ Kind e = .KindContractInvalid) ↔ v > m)
          ∧ (transformer.validateWriteMaximum lib (.uint w v) bound = none ↔ ¬ v > m))
        ∧ (((∃ e, transformer.validateWriteMinimum lib (.uint w v) bound = some e
              ∧ Kind e = .KindContractInvalid) ↔ v < m)
          ∧ (transformer.validateWriteMinimum lib (.uint w v) bound = none ↔ ¬ v < m)))
      ∧ (∀ (w : Width) (v : Int) (bound : String) (m : Int),
        strconv.ParseInt bound w = .ok m →
        (((∃ e, transformer.validateWriteMaximum lib (.sint w v) bound = some e
              ∧ Kind e = .KindContractInvalid) ↔ v > m)
          ∧ (transformer.validateWriteMaximum lib (.sint w v) bound = none ↔ ¬ v > m))
        ∧ (((∃ e, transformer.validateWriteMinimum lib (.sint w v) bound = some e
              ∧ Kind e = .KindContractInvalid) ↔ v < m)
          ∧ (transformer.validateWriteMinimum lib (.sint w v) bound = none ↔ ¬ v < m)))
      ∧ (∀ (w : Width) (v : Nat) (bound : String) (err : Error),
        strconv.ParseUint bound w = .error err →
        (∃ e, transformer.validateWriteMaximum lib (.uint w v) bound = some e
            ∧ Kind e = .KindServerError)
          ∧ (∃ e, transformer.validateWriteMinimum lib (.uint w v) bound = some e
            ∧ Kind e = .KindServerError))
      ∧ (∀ (w : Width) (v : Int) (bound : String) (err : Error),
        strconv.ParseInt bound w = .error err →
        (∃ e, transformer.validateWriteMaximum lib (.sint w v) bound = some e
            ∧ Kind e = .KindServerError)
          ∧ (∃ e, transformer.validateWriteMinimum lib (.sint w v) bound = some e
            ∧ Kind e = .KindServerError))
      ∧ (∀ (cv : CommandValue) (pv : ResourceProperties), transformer.wellTyped cv = true →
        (∀ e, pv.Maximum ≠ "" →
            transformer.validateWriteMaximum lib cv.Value pv.Maximum = some e →
            transformer.TransformWriteParameter lib cv pv
              = some (cv, some (NewCommonEdgeXWrapper e)))
          ∧ (∀ e, (pv.Maximum = ""
                ∨ transformer.validateWriteMaximum lib cv.Value pv.Maximum = none) →
            pv.Minimum ≠ "" →
            transformer.validateWriteMinimum lib cv.Value pv.Minimum = some e →
            transformer.TransformWriteParameter lib cv pv
              = some (cv, some (NewCommonEdgeXWrapper e)))) := by
  refine ⟨?_, ?_, ?_, ?_, ?_⟩
  · intro w v bound m h
    exact ⟨contractInvalid_iff _ _ _ (validateWriteMaximum_uint lib w v m bound h),
      contractInvalid_iff _ _ _ (validateWriteMinimum_uint lib w v m bound h)⟩
  · intro w v bound m h
    exact ⟨contractInvalid_iff _ _ _ (validateWriteMaximum_sint lib w v m bound h),
      contractInvalid_iff _ _ _ (validateWriteMinimum_sint lib w v m bound h)⟩
  · intro w v bound err h
    exact ⟨⟨NewCommonEdgeX .KindServerError
          ("属性配置的最大值 " ++ bound ++ " 无法转换为 " ++ (Value.uint w v).typeName) (some err),
        by simp only [transformer.validateWriteMaximum, h], rfl⟩,
      ⟨NewCommonEdgeX .KindServerError
          ("属性配置的最小值 " ++ bound ++ " 无法转换为 " ++ (Value.uint w v).typeName) (some err),
        by simp only [transformer.validateWriteMinimum, h], rfl⟩⟩
  · intro w v bound err h
    exact ⟨⟨NewCommonEdgeX .KindServerError
          ("属性配置的最大值 " ++ bound ++ " 无法转换为 " ++ (Value.sint w v).typeName) (some err),
        by simp only [transformer.validateWriteMaximum, h], rfl⟩,
      ⟨NewCommonEdgeX .KindServerError
          ("属性配置的最小值 " ++ bound ++ " 无法转换为 " ++ (Value.sint w v).typeName) (some err),
        by simp only [transformer.validateWriteMinimum, h], rfl⟩⟩
  · intro cv pv hwt
    obtain ⟨hnum, hval⟩ := commandValueForTransform_wellTyped cv hwt
    constructor
    · intro e hmax hv
      simp [transformer.TransformWriteParameter, hnum, hval, hmax, hv]
    · intro e hmax hmin hv
      rcases hmax with hmax | hmax
      · simp [transformer.TransformWriteParameter, hnum, hval, hmax, hmin, hv]
      · simp [transformer.TransformWriteParameter, hnum, hval, hmax, hmin, hv]

theorem write_bounds_validation_witness :
    ((∃ e, transformer.validateWriteMaximum Sample.floatLib (.uint .w8 5) "4" = some e
          ∧ Kind e = .KindContractInvalid) ↔ 5 > 4)
      ∧ ((∃ e, transformer.validateWriteMinimum Sample.floatLib (.sint .w8 (-5)) "-3" = some e
          ∧ Kind e = .KindContractInvalid) ↔ (-5 : Int) < -3)
      ∧ (∃ e, transformer.validateWriteMaximum Sample.floatLib (.uint .w8 5) "300" = some e
          ∧ Kind e = .KindServerError)
      ∧ (∃ e, transformer.validateWriteMinimum Sample.floatLib (.sint .w8 5) "x" = some e
          ∧ Kind e = .KindServerError)
      ∧ transformer.TransformWriteParameter Sample.floatLib Sample.five
          { Sample.plainProperties with Maximum := "4", Scale := "0.5" }
        = some (Sample.five, some (NewCommonEdgeXWrapper (.common .KindContractInvalid
            ("设置命令参数值超出属性最大值" ++ "%!(EXTRA string=" ++ "4" ++ ")")))) :=
  ⟨(((write_bounds_validation Sample.floatLib).1 .w8 5 "4" 4 rfl).1).1,
   (((write_bounds_validation Sample.floatLib).2.1 .w8 (-5) "-3" (-3) rfl).2).1,
   ((write_bounds_validation Sample.floatLib).2.2.1 .w8 5 "300"
      (.plain ("strconv.ParseUint: parsing " ++ "300" ++ ": value out of range")) rfl).1,
   ((write_bounds_validation Sample.floatLib).2.2.2.1 .w8 5 "x"
      (.plain ("strconv.ParseInt: parsing " ++ "x" ++ ": invalid syntax")) rfl).2,
   ((write_bounds_validation Sample.floatLib).2.2.2.2 Sample.five
      { Sample.plainProperties with Maximum := "4", Scale := "0.5" } rfl).1
      (.common .KindContractInvalid
        ("设置命令参数值超出属性最大值" ++ "%!(EXTRA string=" ++ "4" ++ ")"))
      (by decide) rfl⟩

/-! ## The read shift -/

/-- Apart from the most negative `int64`, the negation of a parsed shift does not
overflow, and `transformReadShift` returns the value shifted left by `s` bits when
`s > 0` and right by `-s` bits otherwise, within the width of the value. -/
theorem transformReadShift_of_parsed (w : Width) (v : Nat) (shift : String) (s : Int)
    (h : strconv.ParseInt shift w = .ok s) (hmin : s ≠ Width.minS .w64) :
    transformer.transformReadShift (.uint w v) shift
      = some (.uint w (if s > 0 then transformer.shiftLeft w v s.toNat
                       else transformer.shiftRight w v (-s).toNat), none) := by
  obtain ⟨hlo, hhi⟩ := ParseInt_ok_range h
  have hlo64 : Width.minS .w64 ≤ s := by
    unfold Width.minS at hlo ⊢
    cases w <;> simp only [Width.bits] at hlo ⊢ <;> omega
  have hhi64 : s ≤ Width.maxS .w64 := by
    unfold Width.maxS at hhi ⊢
    cases w <;> simp only [Width.bits] at hhi ⊢ <;> omega
  have hneg : wrapS .w64 (-s) = -s := by
    apply wrapS_of_range
    · unfold Width.minS Width.maxS at *
      simp only [Width.bits] at *
      omega
    · unfold Width.minS Width.maxS at *
      simp only [Width.bits] at *
      omega
  simp only [transformer.transformReadShift, h, hneg]
  by_cases hs : s > 0
  · simp [hs]
  · have : ¬ (-s < 0) := by omega
    simp [hs, this]

/-- C30. `transformReadShift` at the uint64 value `1` and the shift
`"-9223372036854775808"`: the shift parses as the most negative `int64`, its negation
in `int64` is the same negative number, and the right shift by that negative count
panics. -/
theorem transformReadShift_negative_count :
    strconv.ParseInt "-9223372036854775808" .w64 = .ok (-9223372036854775808)
      ∧ wrapS .w64 (-(-9223372036854775808)) = -9223372036854775808
      ∧ transformer.transformReadShift (.uint .w64 1) "-9223372036854775808" = none :=
  ⟨rfl, by decide, by decide⟩

/-! ## The transform pipelines -/

/-- One guarded step of the code whose function returns a value and an error, followed
by a continuation that is the rest of the pipeline, is the pipeline with that step in
front. -/
theorem finish_pairStep (cv : CommandValue) (value v : Value) (c : Prop) [Decidable c]
    (e : Bool) (he : e = true ↔ c) (f : Value → Value × Option Error)
    (rest : List Spec.Step) (k : Value → Option (CommandValue × Option Error))
    (hk : ∀ v1, k v1 = Spec.finish cv value (Spec.runSteps rest v1)) :
    (match (if c then f v else (v, none)) with
      | (_, some err) => some (cv, some (NewCommonEdgeXWrapper err))
      | (v1, none) => k v1)
      = Spec.finish cv value
          (Spec.runSteps ({ enabled := e, run := fun x => some (f x) } :: rest) v) := by
  by_cases hc : c
  · have he1 : e = true := he.mpr hc
    simp only [hc, if_true, Spec.runSteps, he1]
    generalize f v = r
    obtain ⟨v1, err⟩ := r
    cases err with
    | none => simp only [hk]
    | some err => simp only [Spec.finish]
  · have he0 : e = false := by
      cases e with
      | false => rfl
      | true => exact absurd (he.mp rfl) hc
    simp only [hc, if_false, Spec.runSteps, he0, hk, Bool.false_eq_true]

/-- One guarded step of the code whose function may panic, followed by a continuation
that is the rest of the pipeline, is the pipeline with that step in front. -/
theorem finish_optStep (cv : CommandValue) (value v : Value) (c : Prop) [Decidable c]
    (e : Bool) (he : e = true ↔ c) (f : Value → Option (Value × Option Error))
    (rest : List Spec.Step) (k : Value → Option (CommandValue × Option Error))
    (hk : ∀ v1, k v1 = Spec.finish cv value (Spec.runSteps rest v1)) :
    (match (if c then f v else some (v, none)) with
      | none => none
      | some (_, some err) => some (cv, some (NewCommonEdgeXWrapper err))
      | some (v1, none) => k v1)
      = Spec.finish cv value (Spec.runSteps ({ enabled := e, run := f } :: rest) v) := by
  by_cases hc : c
  · have he1 : e = true := he.mpr hc
    simp only [hc, if_true, Spec.runSteps, he1]
    generalize f v = r
    cases r with
    | none => simp only [Spec.finish]
    | some p =>
      obtain ⟨v1, err⟩ := p
      cases err with
      | none => simp only [hk]
      | some err => simp only [Spec.finish]
  · have he0 : e = false := by
      cases e with
      | false => rfl
      | true => exact absurd (he.mp rfl) hc
    simp only [hc, if_false, Spec.runSteps, he0, hk, Bool.false_eq_true]

/-- A step is enabled exactly when the code's guard on its property holds. -/
theorem isEnabled_iff (property default : String) :
    Spec.isEnabled property default = true ↔ property ≠ "" ∧ property ≠ default := by
  simp only [Spec.isEnabled, Bool.and_eq_true, decide_eq_true_eq]

/-- A step for the unsigned types is enabled exactly when the code's guard holds. -/
theorem isEnabled_unsigned_iff (property default : String) (cv : CommandValue) :
    (Spec.isEnabled property default && transformer.isUnsignedType cv) = true
      ↔ property ≠ "" ∧ property ≠ default ∧ transformer.isUnsignedType cv = true := by
  simp only [Spec.isEnabled, Bool.and_eq_true, decide_eq_true_eq, and_assoc]

/-- The end of an empty pipeline is the comparison and store at the end of the code. -/
theorem finish_nil (cv : CommandValue) (value v : Value) :
    (if value.goEq v then some (cv, none)
      else some (({ cv with Value := v } : CommandValue), (none : Option Error)))
      = Spec.finish cv value (Spec.runSteps [] v) := by
  simp only [Spec.runSteps, Spec.finish]

/-- Past its two gates, `TransformReadResult` is the read pipeline run from the value
of the command value. -/
theorem TransformReadResult_pipeline (lib : FloatLib) (cv : CommandValue)
    (pv : ResourceProperties)
    (hnum : transformer.isNumericValueType cv = true)
    (hnan : transformer.isNaN cv = (false, none)) :
    transformer.TransformReadResult lib cv pv
      = Spec.finish cv (transformer.commandValueForTransform cv).1
          (Spec.runSteps (Spec.readSteps lib cv pv)
            (transformer.commandValueForTransform cv).1) := by
  simp only [transformer.TransformReadResult, hnum, hnan, Bool.not_true, Bool.false_eq_true,
    if_false, Spec.readSteps]
  exact finish_pairStep cv _ _ _ _ (isEnabled_unsigned_iff _ _ cv)
    (fun x => transformer.transformReadMask x pv.Mask) _ _ (fun v1 =>
    finish_optStep cv _ v1 _ _ (isEnabled_unsigned_iff _ _ cv)
      (fun x => transformer.transformReadShift x pv.Shift) _ _ (fun v2 =>
    finish_pairStep cv _ v2 _ _ (isEnabled_iff _ _)
      (fun x => transformer.transformBase lib x pv.Base true) _ _ (fun v3 =>
    finish_optStep cv _ v3 _ _ (isEnabled_iff _ _)
      (fun x => transformer.transformScale lib x pv.Scale true) _ _ (fun v4 =>
    finish_pairStep cv _ v4 _ _ (isEnabled_iff _ _)
      (fun x => transformer.transformOffset lib x pv.Offset true) _ _ (fun v5 =>
    finish_nil cv _ v5)))))

/-- Past its two bound checks, `TransformWriteParameter` is the write pipeline run
from the value of the command value. -/
theorem TransformWriteParameter_pipeline (lib : FloatLib) (cv : CommandValue)
    (pv : ResourceProperties)
    (hnum : transformer.isNumericValueType cv = true)
    (hmax : (if pv.Maximum ≠ "" then transformer.validateWriteMaximum lib
        (transformer.commandValueForTransform cv).1 pv.Maximum else none) = none)
    (hmin : (if pv.Minimum ≠ "" then transformer.validateWriteMinimum lib
        (transformer.commandValueForTransform cv).1 pv.Minimum else none) = none) :
    transformer.TransformWriteParameter lib cv pv
      = Spec.finish cv (transformer.commandValueForTransform cv).1
          (Spec.runSteps (Spec.writeSteps lib pv)
            (transformer.commandValueForTransform cv).1) := by
  simp only [transformer.TransformWriteParameter, hnum, hmax, hmin, Bool.not_true,
    Bool.false_eq_true, if_false, Spec.writeSteps]
  exact finish_pairStep cv _ _ _ _ (isEnabled_iff _ _)
    (fun x => transformer.transformOffset lib x pv.Offset false) _ _ (fun v1 =>
    finish_optStep cv _ v1 _ _ (isEnabled_iff _ _)
      (fun x => transformer.transformScale lib x pv.Scale false) _ _ (fun v2 =>
    finish_pairStep cv _ v2 _ _ (isEnabled_iff _ _)
      (fun x => transformer.transformBase lib x pv.Base false) _ _ (fun v3 =>
    finish_nil cv _ v3)))

/-- An error at the end of a transform comes with the command value as it was. -/
theorem finish_atomic (cv cv1 : CommandValue) (value : Value)
    (r : Option (Value × Option Error)) (e : Error)
    (h : Spec.finish cv value r = some (cv1, some e)) : cv1 = cv := by
  unfold Spec.finish at h
  split at h
  · exact absurd h (by simp only [reduceCtorEq, not_false_eq_true])
  · simp only [Option.some.injEq, Prod.mk.injEq] at h
    exact h.1.symm
  · split at h
    · simp only [Option.some.injEq, Prod.mk.injEq, reduceCtorEq, and_false] at h
    · simp only [Option.some.injEq, Prod.mk.injEq, reduceCtorEq, and_false] at h

/-- A run that ends without error at `final` ends the transform without error, with
`final` in the command value, which is left as it was when `final` equals the value
the run started from. -/
theorem finish_stored (cv : CommandValue) (value final : Value) :
    ∃ cv1, Spec.finish cv value (some (final, none)) = some (cv1, none)
      ∧ cv1.DeviceResourceName = cv.DeviceResourceName ∧ cv1.ValueType = cv.ValueType
      ∧ (cv1.Value = final ∨ (cv1 = cv ∧ value.goEq final = true)) := by
  by_cases hg : value.goEq final = true
  · exact ⟨cv, by simp only [Spec.finish, hg, if_true], rfl, rfl, Or.inr ⟨rfl, hg⟩⟩
  · exact ⟨{ cv with Value := final }, by simp only [Spec.finish, hg, if_false, Bool.false_eq_true], rfl, rfl,
      Or.inl rfl⟩

/-- An error of `TransformReadResult` comes with the command value as it was. -/
theorem TransformReadResult_atomic (lib : FloatLib) (cv cv1 : CommandValue)
    (pv : ResourceProperties) (e : Error)
    (h : transformer.TransformReadResult lib cv pv = some (cv1, some e)) : cv1 = cv := by
  by_cases hnum : transformer.isNumericValueType cv = true
  · cases hn : transformer.isNaN cv with
    | mk b oe =>
      cases oe with
      | some err =>
        simp only [transformer.TransformReadResult, hnum, hn, Bool.not_true, Bool.false_eq_true,
          if_false, Option.some.injEq, Prod.mk.injEq] at h
        exact h.1.symm
      | none =>
        cases b with
        | true =>
          simp only [transformer.TransformReadResult, hnum, hn, Bool.not_true,
            Bool.false_eq_true, if_false, Option.some.injEq, Prod.mk.injEq] at h
          exact h.1.symm
        | false =>
          rw [TransformReadResult_pipeline lib cv pv hnum hn] at h
          exact finish_atomic cv cv1 _ _ e h
  · simp only [transformer.TransformReadResult, hnum, Bool.not_eq_true, Bool.not_false,
      if_true, Option.some.injEq, Prod.mk.injEq, reduceCtorEq, and_false] at h

/-- An error of `TransformWriteParameter` comes with the command value as it was. -/
theorem TransformWriteParameter_atomic (lib : FloatLib) (cv cv1 : CommandValue)
    (pv : ResourceProperties) (e : Error)
    (h : transformer.TransformWriteParameter lib cv pv = some (cv1, some e)) : cv1 = cv := by
  by_cases hnum : transformer.isNumericValueType cv = true
  · cases hmax : (if pv.Maximum ≠ "" then transformer.validateWriteMaximum lib
        (transformer.commandValueForTransform cv).1 pv.Maximum else none) with
    | some err =>
      simp only [transformer.TransformWriteParameter, hnum, hmax, Bool.not_true,
        Bool.false_eq_true, if_false, Option.some.injEq, Prod.mk.injEq] at h
      exact h.1.symm
    | none =>
      cases hmin : (if pv.Minimum ≠ "" then transformer.validateWriteMinimum lib
          (transformer.commandValueForTransform cv).1 pv.Minimum else none) with
      | some err =>
        simp only [transformer.TransformWriteParameter, hnum, hmax, hmin, Bool.not_true,
          Bool.false_eq_true, if_false, Option.some.injEq, Prod.mk.injEq] at h
        exact h.1.symm
      | none =>
        rw [TransformWriteParameter_pipeline lib cv pv hnum hmax hmin] at h
        exact finish_atomic cv cv1 _ _ e h
  · simp only [transformer.TransformWriteParameter, hnum, Bool.not_eq_true, Bool.not_false,
      if_true, Option.some.injEq, Prod.mk.injEq, reduceCtorEq, and_false] at h

/-- A declared type outside the ten numeric types is not numeric for the code. -/
theorem isNumericValueType_of_not_mem (cv : CommandValue)
    (h : cv.ValueType ∉ [ValueTypeUint8, ValueTypeUint16, ValueTypeUint32, ValueTypeUint64,
      ValueTypeInt8, ValueTypeInt16, ValueTypeInt32, ValueTypeInt64, ValueTypeFloat32,
      ValueTypeFloat64]) :
    transformer.isNumericValueType cv = false := by
  simp only [List.mem_cons, List.mem_singleton, not_or, List.mem_nil_iff, or_false] at h
  simp only [transformer.isNumericValueType, h, decide_False, Bool.or_self]

/-- C31. Transform pipeline order. For every command value of a numeric type that
holds a value of that type: once its NaN check has passed, `TransformReadResult` is
the run of the enabled steps (those whose property is neither empty nor its default)
in the order mask, shift, base, scale, offset, with mask and shift enabled for the
unsigned integer types only; once its two bound checks have passed,
`TransformWriteParameter` is the run of the enabled steps in the order offset, scale,
base; each step is applied to the output of the step before it, the first one to the
value held; and when the run ends without error at `final`, the call returns no
error and the command value holds `final`, being left as it was exactly when `final`
equals the value it held. -/
theorem transform_pipeline_order (lib : FloatLib) (cv : CommandValue)
    (pv : ResourceProperties) (hwt : transformer.wellTyped cv = true) :
    (transformer.isNaN cv = (false, none) →
        transformer.TransformReadResult lib cv pv
            = Spec.finish cv cv.Value (Spec.runSteps (Spec.readSteps lib cv pv) cv.Value)
          ∧ ∀ final, Spec.runSteps (Spec.readSteps lib cv pv) cv.Value = some (final, none) →
              ∃ cv1, transformer.TransformReadResult lib cv pv = some (cv1, none)
                ∧ cv1.DeviceResourceName = cv.DeviceResourceName
                ∧ cv1.ValueType = cv.ValueType
                ∧ (cv1.Value = final ∨ (cv1 = cv ∧ cv.Value.goEq final = true)))
      ∧ ((pv.Maximum = "" ∨ transformer.validateWriteMaximum lib cv.Value pv.Maximum = none) →
          (pv.Minimum = ""
            ∨ transformer.validateWriteMinimum lib cv.Value pv.Minimum = none) →
        transformer.TransformWriteParameter lib cv pv
            = Spec.finish cv cv.Value (Spec.runSteps (Spec.writeSteps lib pv) cv.Value)
          ∧ ∀ final, Spec.runSteps (Spec.writeSteps lib pv) cv.Value = some (final, none) →
              ∃ cv1, transformer.TransformWriteParameter lib cv pv = some (cv1, none)
                ∧ cv1.DeviceResourceName = cv.DeviceResourceName
                ∧ cv1.ValueType = cv.ValueType
                ∧ (cv1.Value = final ∨ (cv1 = cv ∧ cv.Value.goEq final = true))) := by
  obtain ⟨hnum, hval⟩ := commandValueForTransform_wellTyped cv hwt
  have hv : (transformer.commandValueForTransform cv).1 = cv.Value := by rw [hval]
  constructor
  · intro hnan
    have hrun := TransformReadResult_pipeline lib cv pv hnum hnan
    rw [hv] at hrun
    refine ⟨hrun, ?_⟩
    intro final hfinal
    rw [hrun, hfinal]
    exact finish_stored cv cv.Value final
  · intro hmax hmin
    have hmax1 : (if pv.Maximum ≠ "" then transformer.validateWriteMaximum lib
        (transformer.commandValueForTransform cv).1 pv.Maximum else none) = none := by
      rw [hv]
      rcases hmax with hmax | hmax
      · simp only [hmax, ne_eq, not_true_eq_false, if_false]
      · simp only [hmax, ite_self]
    have hmin1 : (if pv.Minimum ≠ "" then transformer.validateWriteMinimum lib
        (transformer.commandValueForTransform cv).1 pv.Minimum else none) = none := by
      rw [hv]
      rcases hmin with hmin | hmin
      · simp only [hmin, ne_eq, not_true_eq_false, if_false]
      · simp only [hmin, ite_self]
    have hrun := TransformWriteParameter_pipeline lib cv pv hnum hmax1 hmin1
    rw [hv] at hrun
    refine ⟨hrun, ?_⟩
    intro final hfinal
    rw [hrun, hfinal]
    exact finish_stored cv cv.Value final

theorem transform_pipeline_order_witness :
    transformer.TransformReadResult Sample.floatLib Sample.ten Sample.readProperties
        = some ({ Sample.ten with Value := .uint .w8 49 }, none)
      ∧ transformer.TransformWriteParameter Sample.floatLib Sample.ten Sample.writeProperties
        = some ({ Sample.ten with Value := .uint .w8 4 }, none) :=
  ⟨(((transform_pipeline_order Sample.floatLib Sample.ten Sample.readProperties rfl).1
      rfl).1).trans rfl,
   (((transform_pipeline_order Sample.floatLib Sample.ten Sample.writeProperties rfl).2
      (Or.inl rfl) (Or.inl rfl)).1).trans rfl⟩

/-- C32. Transforms are atomic on error and inert on values that are not numeric.
Whenever `TransformReadResult` or `TransformWriteParameter` returns an error, the
command value is exactly what it was before the call; and for every command value
whose declared type is none of the ten numeric types, both functions return no
error and leave the command value as it was. -/
theorem transform_atomic_and_inert (lib : FloatLib) (cv : CommandValue)
    (pv : ResourceProperties) :
    (∀ cv1 e, transformer.TransformReadResult lib cv pv = some (cv1, some e) →
        cv1.Value = cv.Value ∧ cv1 = cv)
      ∧ (∀ cv1 e, transformer.TransformWriteParameter lib cv pv = some (cv1, some e) →
        cv1.Value = cv.Value ∧ cv1 = cv)
      ∧ (cv.ValueType ∉ [ValueTypeUint8, ValueTypeUint16, ValueTypeUint32, ValueTypeUint64,
            ValueTypeInt8, ValueTypeInt16, ValueTypeInt32, ValueTypeInt64, ValueTypeFloat32,
            ValueTypeFloat64] →
          transformer.TransformReadResult lib cv pv = some (cv, none)
            ∧ transformer.TransformWriteParameter lib cv pv = some (cv, none)) := by
  refine ⟨?_, ?_, ?_⟩
  · intro cv1 e h
    have hcv := TransformReadResult_atomic lib cv cv1 pv e h
    exact ⟨by rw [hcv], hcv⟩
  · intro cv1 e h
    have hcv := TransformWriteParameter_atomic lib cv cv1 pv e h
    exact ⟨by rw [hcv], hcv⟩
  · intro hty
    have hnum := isNumericValueType_of_not_mem cv hty
    exact ⟨by simp only [transformer.TransformReadResult, hnum, Bool.not_false, if_true],
      by simp only [transformer.TransformWriteParameter, hnum, Bool.not_false, if_true]⟩

theorem transform_atomic_and_inert_witness :
    (transformer.TransformReadResult Sample.floatLib Sample.notANumber Sample.readProperties
        = some (Sample.notANumber, some (NewCommonEdgeX .KindNaNError
            ("属性 " ++ "level" ++ " 为 NaN") none))
      ∧ Sample.notANumber.Value = .float64 .nan)
      ∧ (transformer.TransformWriteParameter Sample.floatLib Sample.five
          { Sample.plainProperties with Maximum := "4", Scale := "0.5" }
        = some (Sample.five, some (NewCommonEdgeXWrapper (.common .KindContractInvalid
            ("设置命令参数值超出属性最大值" ++ "%!(EXTRA string=" ++ "4" ++ ")"))))
      ∧ Sample.five.Value = .uint .w8 5)
      ∧ transformer.TransformReadResult Sample.floatLib Sample.label Sample.readProperties
        = some (Sample.label, none)
      ∧ transformer.TransformWriteParameter Sample.floatLib Sample.label Sample.readProperties
        = some (Sample.label, none) :=
  ⟨⟨rfl, ((transform_atomic_and_inert Sample.floatLib Sample.notANumber
        Sample.readProperties).1 Sample.notANumber _ rfl).1⟩,
   ⟨rfl, ((transform_atomic_and_inert Sample.floatLib Sample.five
        { Sample.plainProperties with Maximum := "4", Scale := "0.5" }).2.1
        Sample.five _ rfl).1⟩,
   ((transform_atomic_and_inert Sample.floatLib Sample.label Sample.readProperties).2.2
      (by decide)).1,
   ((transform_atomic_and_inert Sample.floatLib Sample.label Sample.readProperties).2.2
      (by decide)).2⟩

end DeviceSdk
